import Mathlib

/-! Node-side volume attachment engine of the CSI plugin.

A shallow embedding of `pkg/driver/node.go` and `pkg/common/host_utils.go`.

* Go strings are Lean strings, Go `int`/`int64` values are `Int`.
* A Go `error` is an `Option GoError` (`none` is `nil`).
* Everything the code asks of the machine it runs on (the kernel, the mount
  library, external commands, the cluster client, and the driver methods that
  live in other files) is a field of `Env`; every such call is recorded in a
  trace together with whether it succeeded.
* A handler is a function from the host state and the lock keys held by the
  execution to a `Run`: how it ended, the new host and locks, and its trace.
-/

namespace CSI

/-! ## Errors -/

/-- The gRPC status codes used by the driver. -/
inductive Code where
  | InvalidArgument
  | NotFound
  | FailedPrecondition
  | PermissionDenied
  | Internal
  deriving DecidableEq, Repr

/-- The name printed for a status code (`codes.Code.String`). -/
def Code.name : Code → String
  | .InvalidArgument => "InvalidArgument"
  | .NotFound => "NotFound"
  | .FailedPrecondition => "FailedPrecondition"
  | .PermissionDenied => "PermissionDenied"
  | .Internal => "Internal"

/-- What the `os` package can tell about an error of the operating system. -/
inductive OsKind where
  | notExist
  | permission
  | otherKind
  deriving DecidableEq, Repr

/-- A Go error value: an operating-system error (`*os.PathError`,
`syscall.Errno`), a gRPC status error built by `status.Error`, or any other
error (`errors.New`, `fmt.Errorf`, `*exec.ExitError`). -/
inductive GoError where
  | os (kind : OsKind) (msg : String)
  | status (code : Code) (msg : String)
  | plain (msg : String)
  deriving DecidableEq, Repr

/-- The text of `err.Error()`. -/
def GoError.Error : GoError → String
  | .os _ msg => msg
  | .status code msg => "rpc error: code = " ++ code.name ++ " desc = " ++ msg
  | .plain msg => msg

/-- The function `os.IsNotExist`: it looks through the wrappers of the `os`
package only, so a status error is never reported as "not exist". -/
def osIsNotExist : GoError → Bool
  | .os .notExist _ => true
  | _ => false

/-- The function `os.IsPermission`. -/
def osIsPermission : GoError → Bool
  | .os .permission _ => true
  | _ => false

/-- The function `status.Error(code, msg)`. -/
def statusError (code : Code) (msg : String) : GoError := .status code msg

/-- The status code of an error, if it is a status error. -/
def GoError.code? : GoError → Option Code
  | .status code _ => some code
  | _ => none

/-! ## Data passed around -/

/-- What `os.Lstat` / `os.Stat` return: the mode bits of `os.FileMode`. -/
structure FileInfo where
  mode : Nat
  deriving DecidableEq, Repr

/-- The bit `os.ModeDir`. -/
def ModeDir : Nat := 2 ^ 31

/-- The bit `os.ModeSymlink`. -/
def ModeSymlink : Nat := 2 ^ 27

/-- The method `FileMode.IsDir`. -/
def FileInfo.IsDir (fi : FileInfo) : Bool := fi.mode &&& ModeDir != 0

/-- The fields of `common.HSVolume` that the node service fills in. -/
structure HSVolume where
  FQDN : String
  FSType : String
  ClientMountOptions : List String
  deriving DecidableEq, Repr

/-- The fields of `common.ShareResponse` that the node service reads. -/
structure ShareResponse where
  Name : String
  ExportPath : String
  deriving DecidableEq, Repr

/-- The fields of `syscall.Statfs_t` that the node service reads: the block
size is a signed integer, the counts are unsigned 64-bit integers. -/
structure Statfs_t where
  Bsize : Int
  Blocks : Nat
  Bfree : Nat
  Bavail : Nat
  Files : Nat
  Ffree : Nat
  deriving DecidableEq, Repr

/-! ## Calls that leave the process, and the trace -/

/-- One call made by the code to something outside the function being run. -/
inductive Call where
  | getVolumeLock (key : String)
  | releaseVolumeLock (key : String)
  | Lstat (path : String)
  | Stat (path : String)
  | unixStat (path : String)
  | EvalSymlinks (path : String)
  | Remove (path : String)
  | MkdirAll (path : String) (perm : Nat)
  | SafeIsLikelyNotMountPoint (path : String)
  | IsLikelyNotMountPoint (path : String)
  | IsNotMountPoint (path : String)
  | ExistsPath (path : String)
  | MakeDir (path : String)
  | MakeFile (path : String)
  | Mount (source target fstype : String) (options : List String)
  | Unmount (target : String)
  | Command (name : String) (args : List String)
  | GetShare (name : String)
  | DoesFileExist (path : String)
  | EnsureBackingShareMounted (share : String) (vol : HSVolume)
  | UnmountBackingShareIfUnused (share : String)
  | AttachLoopDeviceWithRetry (file : String) (readOnly : Bool)
  | CleanupLoopDevice (device : String)
  | MountShareAtBestDataportal (exportPath target : String) (flags : List String) (fqdn : String)
  | Open (path : String)
  | Close (path : String)
  | IoctlBlockSize (path : String)
  | Statfs (path : String)
  deriving DecidableEq, Repr

/-- What a call handed back. -/
inductive Reply where
  | unit
  | err (e : Option GoError)
  | flag (b : Bool) (e : Option GoError)
  | text (s : String) (e : Option GoError)
  | info (fi : Option FileInfo) (e : Option GoError)
  | num (n : Nat) (e : Option GoError)
  | share (sh : Option ShareResponse) (e : Option GoError)
  | size (n : Int) (e : Option GoError)
  | fs (st : Option Statfs_t) (e : Option GoError)
  deriving DecidableEq, Repr

/-- Whether the reply carries a `nil` error. -/
def Reply.ok : Reply → Bool
  | .unit => true
  | .err e => e.isNone
  | .flag _ e => e.isNone
  | .text _ e => e.isNone
  | .info _ e => e.isNone
  | .num _ e => e.isNone
  | .share _ e => e.isNone
  | .size _ e => e.isNone
  | .fs _ e => e.isNone

/-- A call together with what it handed back. -/
structure Event where
  call : Call
  reply : Reply
  deriving DecidableEq, Repr

/-- How a run ends: it returns, it waits for ever on a lock, or it panics. -/
inductive Outcome (α : Type) where
  | done (a : α)
  | blocked
  | panicked (msg : String)
  deriving DecidableEq, Repr

/-- What a run leaves behind: how it ended, the host, the lock keys this
execution holds, and the calls it made (oldest first). -/
structure Run (σ α : Type) where
  out : Outcome α
  host : σ
  held : List String
  trace : List Event

/-- A computation of the driver, run from a host state by an execution that
holds some lock keys. -/
def M (σ α : Type) : Type := σ → List String → Run σ α

/-- Sequencing: a blocked or panicked run stops where it is. -/
def M.bind {σ α β : Type} (m : M σ α) (f : α → M σ β) : M σ β := fun s held =>
  let r := m s held
  match r.out with
  | .done a =>
    let r2 := f a r.host r.held
    ⟨r2.out, r2.host, r2.held, r.trace ++ r2.trace⟩
  | .blocked => ⟨.blocked, r.host, r.held, r.trace⟩
  | .panicked msg => ⟨.panicked msg, r.host, r.held, r.trace⟩

/-- Returning a value. -/
def M.pure {σ α : Type} (a : α) : M σ α := fun s held => ⟨.done a, s, held, []⟩

instance (σ : Type) : Monad (M σ) where
  pure := M.pure
  bind := M.bind

/-- A run-time panic (index out of range, nil dereference). -/
def goPanic {σ α : Type} (msg : String) : M σ α := fun s held => ⟨.panicked msg, s, held, []⟩

/-- A call that only reads the host. -/
def query {σ α : Type} (c : Call) (f : σ → α) (reply : α → Reply) : M σ α := fun s held =>
  ⟨.done (f s), s, held, [⟨c, reply (f s)⟩]⟩

/-- A call that may change the host. -/
def action {σ α : Type} (c : Call) (f : σ → α × σ) (reply : α → Reply) : M σ α := fun s held =>
  ⟨.done (f s).1, (f s).2, held, [⟨c, reply (f s).1⟩]⟩

/-- Go's `defer`: the deferred call runs when the body returns or panics; a
body that never returns never reaches it. -/
def withDefer {σ α : Type} (deferred : M σ Unit) (body : M σ α) : M σ α := fun s held =>
  let r := body s held
  match r.out with
  | .done a =>
    let r2 := deferred r.host r.held
    match r2.out with
    | .done _ => ⟨.done a, r2.host, r2.held, r.trace ++ r2.trace⟩
    | .blocked => ⟨.blocked, r2.host, r2.held, r.trace ++ r2.trace⟩
    | .panicked msg => ⟨.panicked msg, r2.host, r2.held, r.trace ++ r2.trace⟩
  | .blocked => ⟨.blocked, r.host, r.held, r.trace⟩
  | .panicked msg =>
    let r2 := deferred r.host r.held
    match r2.out with
    | .blocked => ⟨.blocked, r2.host, r2.held, r.trace ++ r2.trace⟩
    | _ => ⟨.panicked msg, r2.host, r2.held, r.trace ++ r2.trace⟩

/-! ## Go strings and numbers -/

/-- Cutting a list of characters at every occurrence of a separator. -/
def splitChars (sep : Char) : List Char → List (List Char)
  | [] => [[]]
  | c :: cs =>
    if c = sep then [] :: splitChars sep cs
    else
      match splitChars sep cs with
      | [] => [[c]]
      | piece :: pieces => (c :: piece) :: pieces

/-- The function `strings.Split` for a separator of one character. -/
def stringsSplit (s : String) (sep : Char) : List String :=
  (splitChars sep s.toList).map String.mk

/-- The function `strings.Trim`: drops the leading and trailing characters that
belong to the cutset. -/
def stringsTrim (s cutset : String) : String :=
  String.mk (((s.toList.dropWhile (fun c => cutset.toList.contains c)).reverse.dropWhile
    (fun c => cutset.toList.contains c)).reverse)

/-- The function `strings.Contains`. -/
def stringsContains (s substr : String) : Bool :=
  s.toList.tails.any (fun t => substr.toList.isPrefixOf t)

/-- The function `unicode.IsSpace`: the white space of Latin-1 and the other
characters with the Unicode property `White_Space`. -/
def unicodeIsSpace (c : Char) : Bool :=
  let r := c.toNat
  if r ≤ 0xFF then
    r == 0x09 || r == 0x0A || r == 0x0B || r == 0x0C || r == 0x0D || r == 0x20 ||
      r == 0x85 || r == 0xA0
  else
    r == 0x1680 || (0x2000 ≤ r && r ≤ 0x200A) || r == 0x2028 || r == 0x2029 ||
      r == 0x202F || r == 0x205F || r == 0x3000

/-- The loop of `strings.FieldsFunc` with `unicode.IsSpace`: the second argument
is the field being read, if one has started. -/
def fieldsLoop : List Char → Option (List Char) → List (List Char)
  | [], none => []
  | [], some field => [field]
  | c :: cs, none =>
    if unicodeIsSpace c then fieldsLoop cs none else fieldsLoop cs (some [c])
  | c :: cs, some field =>
    if unicodeIsSpace c then field :: fieldsLoop cs none
    else fieldsLoop cs (some (field ++ [c]))

/-- The function `strings.Fields`: the pieces of a string between runs of white
space. -/
def stringsFields (s : String) : List String :=
  (fieldsLoop s.toList none).map String.mk

/-- Padding on the left with zeros up to a width (the `0` flag of `fmt`). -/
def padZeros (width : Nat) (cs : List Char) : List Char :=
  List.replicate (width - cs.length) '0' ++ cs

/-- The digit loop of `strconv.FormatUint` (`formatBits`): while the number is
not smaller than the base its last digit is written in front of the digits
found so far. A 64-bit number has at most 64 digits. -/
def formatBitsLoop (base : Nat) : Nat → Nat → List Char → List Char
  | 0, u, acc => Nat.digitChar (u % base) :: acc
  | fuel + 1, u, acc =>
    if u ≥ base then formatBitsLoop base fuel (u / base) (Nat.digitChar (u % base) :: acc)
    else Nat.digitChar u :: acc

/-- The function `strconv.FormatUint` for a base from 2 to 16 (lowercase
digits). -/
def formatUint (u base : Nat) : List Char := formatBitsLoop base 64 u []

/-- The function `strconv.FormatInt`, for a base from 2 to 16. -/
def strconvFormatInt (i : Int) (base : Nat) : String :=
  if i < 0 then String.mk ('-' :: formatUint i.natAbs base)
  else String.mk (formatUint i.toNat base)

/-- The verb `%d` of `fmt` on an integer. -/
def fmtInt (i : Int) : String := strconvFormatInt i 10

/-- The value of a digit in `strconv.ParseInt` (letters in either case). -/
def digitValue (c : Char) : Option Nat :=
  if '0' ≤ c ∧ c ≤ '9' then some (c.toNat - '0'.toNat)
  else if 'a' ≤ c ∧ c ≤ 'z' then some (c.toNat - 'a'.toNat + 10)
  else if 'A' ≤ c ∧ c ≤ 'Z' then some (c.toNat - 'A'.toNat + 10)
  else none

/-- The digit loop of `strconv.ParseUint`: `none` is a syntax error. -/
def parseUintLoop (base : Nat) : List Char → Nat → Option Nat
  | [], acc => some acc
  | c :: cs, acc =>
    match digitValue c with
    | none => none
    | some d => if d ≥ base then none else parseUintLoop base cs (acc * base + d)

/-- The function `strconv.ParseInt(s, base, 0)` for an explicit base: the value
and whether an error was returned. A syntax error gives 0; a value that does
not fit 64 bits is clamped. -/
def strconvParseInt (s : String) (base : Nat) : Int × Bool :=
  match s.toList with
  | [] => (0, true)
  | c :: cs =>
    let neg := c = '-'
    let digits := if c = '+' ∨ c = '-' then cs else c :: cs
    match digits with
    | [] => (0, true)
    | _ =>
      match parseUintLoop base digits 0 with
      | none => (0, true)
      | some un =>
        if ¬ neg ∧ un ≥ 2 ^ 63 then (2 ^ 63 - 1, true)
        else if neg ∧ un > 2 ^ 63 then (-(2 ^ 63), true)
        else if neg then (-(un : Int), false)
        else ((un : Int), false)

/-! ## The parser of IP addresses of Go's `net` package -/

/-- The constant `big` of `net/parse.go`. -/
def netBig : Nat := 0xFFFFFF

/-- The loop of `dtoi`: decimal digits at the start of the text. -/
def dtoiLoop : List Char → Nat → Nat → Nat × Nat × Bool
  | [], n, i => if i = 0 then (0, 0, false) else (n, i, true)
  | c :: cs, n, i =>
    if '0' ≤ c ∧ c ≤ '9' then
      let n1 := n * 10 + (c.toNat - '0'.toNat)
      if n1 ≥ netBig then (netBig, i, false) else dtoiLoop cs n1 (i + 1)
    else if i = 0 then (0, 0, false) else (n, i, true)

/-- The function `dtoi`: the number, the characters consumed, success. -/
def dtoi (s : List Char) : Nat × Nat × Bool := dtoiLoop s 0 0

/-- The value of a hexadecimal digit in `xtoi`. -/
def hexValue (c : Char) : Option Nat :=
  if '0' ≤ c ∧ c ≤ '9' then some (c.toNat - '0'.toNat)
  else if 'a' ≤ c ∧ c ≤ 'f' then some (c.toNat - 'a'.toNat + 10)
  else if 'A' ≤ c ∧ c ≤ 'F' then some (c.toNat - 'A'.toNat + 10)
  else none

/-- The loop of `xtoi`: hexadecimal digits at the start of the text. -/
def xtoiLoop : List Char → Nat → Nat → Nat × Nat × Bool
  | [], n, i => if i = 0 then (0, i, false) else (n, i, true)
  | c :: cs, n, i =>
    match hexValue c with
    | some d =>
      let n1 := n * 16 + d
      if n1 ≥ netBig then (0, i, false) else xtoiLoop cs n1 (i + 1)
    | none => if i = 0 then (0, i, false) else (n, i, true)

/-- The function `xtoi`. -/
def xtoi (s : List Char) : Nat × Nat × Bool := xtoiLoop s 0 0

/-- The loop of `parseIPv4` over the four fields; `i` is the field index and
`acc` the bytes read so far. Fields with a leading zero are rejected. -/
def parseIPv4Loop : Nat → List Char → Nat → List Nat → Option (List Nat)
  | 0, s, _, acc => if s.length ≠ 0 then none else some acc
  | fuel + 1, s, i, acc =>
    if s.length = 0 then none
    else
      let r : Option (List Char) :=
        if i > 0 then (if s.head? ≠ some '.' then none else some (s.drop 1)) else some s
      match r with
      | none => none
      | some s1 =>
        let (n, c, ok) := dtoi s1
        if ¬ ok ∨ n > 0xFF then none
        else if c > 1 ∧ s1.head? = some '0' then none
        else parseIPv4Loop fuel (s1.drop c) (i + 1) (acc ++ [n])

/-- The prefix of an IPv4 address written as 16 bytes (`v4InV6Prefix`). -/
def v4InV6 : List Nat := [0, 0, 0, 0, 0, 0, 0, 0, 0, 0, 0xff, 0xff]

/-- The function `parseIPv4`: the 16-byte form of `d.d.d.d`. -/
def parseIPv4 (s : List Char) : Option (List Nat) :=
  match parseIPv4Loop 4 s 0 [] with
  | some bytes => some (v4InV6 ++ bytes)
  | none => none

/-- The main loop of `parseIPv6`. `acc` holds the `i` bytes stored so far and
`ellipsis` the position of `::`. The result is the rest of the text, the bytes
and the ellipsis; the loop runs at most eight times. -/
def parseIPv6Loop : Nat → List Char → List Nat → Option Nat →
    Option (List Char × List Nat × Option Nat)
  | 0, s, acc, ellipsis => some (s, acc, ellipsis)
  | fuel + 1, s, acc, ellipsis =>
    if ¬ acc.length < 16 then some (s, acc, ellipsis)
    else
      let (n, c, ok) := xtoi s
      if ¬ ok ∨ n > 0xFFFF then none
      else if c < s.length ∧ s.get? c = some '.' then
        if ellipsis.isNone ∧ acc.length ≠ 16 - 4 then none
        else if acc.length + 4 > 16 then none
        else
          match parseIPv4 s with
          | none => none
          | some ip4 => some ([], acc ++ ip4.drop 12, ellipsis)
      else
        let acc1 := acc ++ [(n >>> 8) % 256, n % 256]
        let s1 := s.drop c
        if s1.length = 0 then some (s1, acc1, ellipsis)
        else if s1.head? ≠ some ':' ∨ s1.length = 1 then none
        else
          let s2 := s1.drop 1
          if s2.head? = some ':' then
            if ellipsis.isSome then none
            else
              let s3 := s2.drop 1
              if s3.length = 0 then some (s3, acc1, some acc1.length)
              else parseIPv6Loop fuel s3 acc1 (some acc1.length)
          else parseIPv6Loop fuel s2 acc1 ellipsis

/-- The function `parseIPv6`. -/
def parseIPv6 (s : List Char) : Option (List Nat) :=
  let lead := s.length ≥ 2 ∧ s.head? = some ':' ∧ s.get? 1 = some ':'
  let ellipsis : Option Nat := if lead then some 0 else none
  let s0 := if lead then s.drop 2 else s
  if lead ∧ s0.length = 0 then some (List.replicate 16 0)
  else
    match parseIPv6Loop 8 s0 [] ellipsis with
    | none => none
    | some (rest, acc, ell) =>
      if rest.length ≠ 0 then none
      else if acc.length < 16 then
        match ell with
        | none => none
        | some e => some (acc.take e ++ List.replicate (16 - acc.length) 0 ++ acc.drop e)
      else if ell.isSome then none
      else some acc

/-- The first dot or colon decides the family in `net.ParseIP`. -/
def parseIPScan (whole : List Char) : List Char → Option (List Nat)
  | [] => none
  | c :: cs =>
    if c = '.' then parseIPv4 whole
    else if c = ':' then parseIPv6 whole
    else parseIPScan whole cs

/-- The function `net.ParseIP` (the parser in use before it was delegated to
`net/netip`): the 16 bytes of the address, or `none` for `nil`. -/
def netParseIP (s : String) : Option (List Nat) := parseIPScan s.toList s.toList

/-- The method `IP.To4` on a 16-byte address. -/
def ipTo4 (ip : List Nat) : Option (List Nat) :=
  if ip.length = 4 then some ip
  else if ip.length = 16 ∧ (ip.take 10).all (fun b => b = 0) ∧ ip.get? 10 = some 0xff ∧
      ip.get? 11 = some 0xff then some (ip.drop 12)
  else none

/-- The method `IP.To16`. -/
def ipTo16 (ip : List Nat) : Option (List Nat) :=
  if ip.length = 4 then some (v4InV6 ++ ip)
  else if ip.length = 16 then some ip
  else none

/-! ## The universal address of `host_utils.go` -/

def checkIPType (ipAddress : String) : String × Option GoError :=
  match netParseIP ipAddress with
  | none => ("", some (.plain "invalid IP address"))
  | some ip =>
    if (ipTo4 ip).isSome then ("IPv4", none)
    else if (ipTo16 ip).isSome then ("IPv6", none)
    else ("", some (.plain "unknown IP type"))

def computeIPv4Uaddr (ipAddress : String) (port : Int) : String :=
  let octets := stringsSplit ipAddress '.'
  if octets.length ≠ 4 then ""
  else
    let portHex := strconvFormatInt port 16
    let portHex := padZeros 4 portHex.toList
    let portHigh := (strconvParseInt (String.mk (portHex.take 2)) 16).1
    let portLow := (strconvParseInt (String.mk (portHex.drop 2)) 16).1
    ipAddress ++ "." ++ fmtInt portHigh ++ "." ++ fmtInt portLow

/-- The verb `%04x` of `fmt` on an integer: the sign counts in the width. -/
def fmtHex04 (port : Int) : String :=
  if port < 0 then String.mk ('-' :: padZeros 3 (formatUint port.natAbs 16))
  else String.mk (padZeros 4 (formatUint port.toNat 16))

def computeIPv6Uaddr (ipAddress : String) (port : Int) : String :=
  let portHex := fmtHex04 port
  "[" ++ ipAddress ++ "]:" ++ portHex

def computeUaddr (ipAddress : String) (port : Int) : String × Option GoError :=
  let (ipType, err) := checkIPType ipAddress
  if ipType = "IPv4" then (computeIPv4Uaddr ipAddress port, none)
  else if ipType = "IPv6" then (computeIPv6Uaddr ipAddress port, none)
  else ("", err)

/-! ## The environment of the node service -/

/-- Everything the two source files use without defining it: constants and
helpers of other files of the repository, the Go standard library, the mount
library, external commands and the cluster client. Queries read the host state;
the other operations may change it. -/
structure Env (σ : Type) where
  /-- The constant `common.EmptyVolumeId`. -/
  EmptyVolumeId : String
  /-- The constant `common.EmptyTargetPath`. -/
  EmptyTargetPath : String
  /-- The format `common.NoCapabilitiesSupplied`, applied to the volume ID. -/
  NoCapabilitiesSupplied : String → String
  /-- The constant `common.ShareNotMounted`. -/
  ShareNotMounted : String
  /-- The constant `common.VolumeNotFound`. -/
  VolumeNotFound : String
  /-- The format `common.LoopDeviceAttachFailed`, applied to device and file. -/
  LoopDeviceAttachFailed : String → String → String
  /-- The constant `common.ShareStagingDir`. -/
  ShareStagingDir : String
  /-- The constant `common.EmptyVolumePath`. -/
  EmptyVolumePath : String
  /-- The constant `common.FileNotFound`. -/
  FileNotFound : String
  /-- The helper `GetVolumeNameFromPath` of package `driver`. -/
  GetVolumeNameFromPath : String → String
  /-- The helper `IsBlockDevice` of package `driver`. -/
  IsBlockDevice : FileInfo → Bool
  /-- The function `filepath.Dir`. -/
  filepathDir : String → String
  Lstat : String → σ → Except GoError FileInfo
  Stat : String → σ → Except GoError FileInfo
  /-- The call `unix.Stat`, giving the field `Rdev`. -/
  unixStat : String → σ → Except GoError Nat
  EvalSymlinks : String → σ → Except GoError String
  SafeIsLikelyNotMountPoint : String → σ → Bool × Option GoError
  IsLikelyNotMountPoint : String → σ → Bool × Option GoError
  IsNotMountPoint : String → σ → Bool × Option GoError
  ExistsPath : String → σ → Bool × Option GoError
  GetShare : String → σ → Option ShareResponse × Option GoError
  DoesFileExist : String → σ → Bool × Option GoError
  Remove : String → σ → Option GoError × σ
  MkdirAll : String → Nat → σ → Option GoError × σ
  MakeDir : String → σ → Option GoError × σ
  MakeFile : String → σ → Option GoError × σ
  Mount : String → String → String → List String → σ → Option GoError × σ
  Unmount : String → σ → Option GoError × σ
  /-- Running an external program: its combined output and its error. -/
  Command : String → List String → σ → (String × Option GoError) × σ
  EnsureBackingShareMounted : String → HSVolume → σ → Option GoError × σ
  UnmountBackingShareIfUnused : String → σ → (Bool × Option GoError) × σ
  AttachLoopDeviceWithRetry : String → Bool → σ → (String × Option GoError) × σ
  CleanupLoopDevice : String → σ → Option GoError × σ
  MountShareAtBestDataportal : String → String → List String → String → σ → Option GoError × σ
  /-- The call `os.Open`; the open file is known by its path. -/
  Open : String → σ → Option GoError
  /-- The `ioctl` request `BLKGETSIZE64` on an open file: the size and the
  error number, `none` when it is zero. -/
  IoctlBlockSize : String → σ → Int × Option GoError
  /-- The call `syscall.Statfs`. -/
  Statfs : String → σ → Except GoError Statfs_t

section Primitives

variable {σ : Type}

/-- The reply of a call that returns file information and an error. -/
def infoReply : Except GoError FileInfo → Reply
  | .ok fi => .info (some fi) none
  | .error e => .info none (some e)

/-- The reply of a call that returns a number and an error. -/
def numReply : Except GoError Nat → Reply
  | .ok n => .num n none
  | .error e => .num 0 (some e)

/-- The reply of a call that returns a path and an error. -/
def pathReply : Except GoError String → Reply
  | .ok p => .text p none
  | .error e => .text "" (some e)

/-- The reply of a call that returns a boolean and an error. -/
def flagReply (r : Bool × Option GoError) : Reply := .flag r.1 r.2

/-- The reply of a call that returns a string and an error. -/
def textReply (r : String × Option GoError) : Reply := .text r.1 r.2

/-- Modelled from the spec: `getVolumeLock` of `driver.go` is not in the
sources. The lock of a key is a mutex: acquiring a key that is not available
blocks the caller, so an execution that already holds the key waits for ever. -/
def getVolumeLock (key : String) : M σ Unit := fun s held =>
  if key ∈ held then ⟨.blocked, s, held, []⟩
  else ⟨.done (), s, key :: held, [⟨.getVolumeLock key, .unit⟩]⟩

/-- Modelled from the spec: `releaseVolumeLock` of `driver.go` is not in the
sources. Releasing a key makes it available again. -/
def releaseVolumeLock (key : String) : M σ Unit := fun s held =>
  ⟨.done (), s, held.erase key, [⟨.releaseVolumeLock key, .unit⟩]⟩

def osLstat (E : Env σ) (path : String) : M σ (Except GoError FileInfo) :=
  query (.Lstat path) (E.Lstat path) infoReply

def osStat (E : Env σ) (path : String) : M σ (Except GoError FileInfo) :=
  query (.Stat path) (E.Stat path) infoReply

def unixStat (E : Env σ) (path : String) : M σ (Except GoError Nat) :=
  query (.unixStat path) (E.unixStat path) numReply

def filepathEvalSymlinks (E : Env σ) (path : String) : M σ (Except GoError String) :=
  query (.EvalSymlinks path) (E.EvalSymlinks path) pathReply

def SafeIsLikelyNotMountPoint (E : Env σ) (path : String) : M σ (Bool × Option GoError) :=
  query (.SafeIsLikelyNotMountPoint path) (E.SafeIsLikelyNotMountPoint path) flagReply

def mounterIsLikelyNotMountPoint (E : Env σ) (path : String) : M σ (Bool × Option GoError) :=
  query (.IsLikelyNotMountPoint path) (E.IsLikelyNotMountPoint path) flagReply

def mountIsNotMountPoint (E : Env σ) (path : String) : M σ (Bool × Option GoError) :=
  query (.IsNotMountPoint path) (E.IsNotMountPoint path) flagReply

def mounterExistsPath (E : Env σ) (path : String) : M σ (Bool × Option GoError) :=
  query (.ExistsPath path) (E.ExistsPath path) flagReply

def hsclientGetShare (E : Env σ) (name : String) : M σ (Option ShareResponse × Option GoError) :=
  query (.GetShare name) (E.GetShare name) (fun r => .share r.1 r.2)

def hsclientDoesFileExist (E : Env σ) (path : String) : M σ (Bool × Option GoError) :=
  query (.DoesFileExist path) (E.DoesFileExist path) flagReply

def osRemove (E : Env σ) (path : String) : M σ (Option GoError) :=
  action (.Remove path) (E.Remove path) Reply.err

def osMkdirAll (E : Env σ) (path : String) (perm : Nat) : M σ (Option GoError) :=
  action (.MkdirAll path perm) (E.MkdirAll path perm) Reply.err

def mounterMakeDir (E : Env σ) (path : String) : M σ (Option GoError) :=
  action (.MakeDir path) (E.MakeDir path) Reply.err

def mounterMakeFile (E : Env σ) (path : String) : M σ (Option GoError) :=
  action (.MakeFile path) (E.MakeFile path) Reply.err

def mounterMount (E : Env σ) (source target fstype : String) (options : List String) :
    M σ (Option GoError) :=
  action (.Mount source target fstype options) (E.Mount source target fstype options) Reply.err

def mounterUnmount (E : Env σ) (target : String) : M σ (Option GoError) :=
  action (.Unmount target) (E.Unmount target) Reply.err

/-- Starting a program and waiting for it (`exec.Command(...).CombinedOutput()`). -/
def execCombinedOutput (E : Env σ) (name : String) (args : List String) :
    M σ (String × Option GoError) :=
  action (.Command name args) (E.Command name args) textReply

def EnsureBackingShareMounted (E : Env σ) (share : String) (vol : HSVolume) : M σ (Option GoError) :=
  action (.EnsureBackingShareMounted share vol) (E.EnsureBackingShareMounted share vol) Reply.err

def UnmountBackingShareIfUnused (E : Env σ) (share : String) : M σ (Bool × Option GoError) :=
  action (.UnmountBackingShareIfUnused share) (E.UnmountBackingShareIfUnused share) flagReply

def AttachLoopDeviceWithRetry (E : Env σ) (file : String) (readOnly : Bool) :
    M σ (String × Option GoError) :=
  action (.AttachLoopDeviceWithRetry file readOnly) (E.AttachLoopDeviceWithRetry file readOnly)
    textReply

def CleanupLoopDevice (E : Env σ) (device : String) : M σ (Option GoError) :=
  action (.CleanupLoopDevice device) (E.CleanupLoopDevice device) Reply.err

def MountShareAtBestDataportal (E : Env σ) (exportPath target : String) (flags : List String)
    (fqdn : String) : M σ (Option GoError) :=
  action (.MountShareAtBestDataportal exportPath target flags fqdn)
    (E.MountShareAtBestDataportal exportPath target flags fqdn) Reply.err

def osOpen (E : Env σ) (path : String) : M σ (Option GoError) :=
  query (.Open path) (E.Open path) Reply.err

/-- The method `Close` of an open file; what it returns is not looked at. -/
def fileClose (path : String) : M σ Unit := fun s held =>
  ⟨.done (), s, held, [⟨.Close path, .unit⟩]⟩

def ioctlBlockSize (E : Env σ) (path : String) : M σ (Int × Option GoError) :=
  query (.IoctlBlockSize path) (E.IoctlBlockSize path) (fun r => .size r.1 r.2)

/-- The reply of `syscall.Statfs`. -/
def fsReply : Except GoError Statfs_t → Reply
  | .ok st => .fs (some st) none
  | .error e => .fs none (some e)

def syscallStatfs (E : Env σ) (path : String) : M σ (Except GoError Statfs_t) :=
  query (.Statfs path) (E.Statfs path) fsReply

end Primitives

/-! ## `pkg/common/host_utils.go` -/

section HostUtils

variable {σ : Type}

/-- The helper `execCommandHelper` behind `ExecCommand`: the output is handed
back only when the program succeeded (a timeout is one more way to fail). -/
def ExecCommand (E : Env σ) (command : String) (args : List String) :
    M σ (Option String × Option GoError) := do
  let r ← execCombinedOutput E command args
  match r.2 with
  | some err => pure (none, some err)
  | none => pure (some r.1, none)

/-- The function `unix.Minor` on a 64-bit device number. -/
def unixMinor (dev : Nat) : Nat :=
  let dev := dev % 2 ^ 64
  ((dev &&& 0xff) ||| ((dev &&& 0x00000ffffff00000) >>> 12)) % 2 ^ 32

def GetDeviceMinorNumber (E : Env σ) (device : String) : M σ (Nat × Option GoError) := do
  let r ← unixStat E device
  match r with
  | .error err => pure (0, some err)
  | .ok rdev => pure (unixMinor rdev, none)

def IsShareMounted (E : Env σ) (targetPath : String) : M σ (Bool × Option GoError) := do
  let r ← mountIsNotMountPoint E targetPath
  match r.2 with
  | some err =>
    if osIsNotExist err then pure (false, some (statusError .NotFound E.EmptyTargetPath))
    else pure (false, some (statusError .Internal err.Error))
  | none => if r.1 then pure (false, none) else pure (true, none)

def UnmountFilesystem (E : Env σ) (targetPath : String) : M σ (Option GoError) := do
  let r ← IsShareMounted E targetPath
  match r.2 with
  | some err => pure (some (statusError .Internal err.Error))
  | none =>
    if !r.1 then pure none
    else do
      let um ← mounterUnmount E targetPath
      match um with
      | some err => pure (some (statusError .Internal err.Error))
      | none => do
        let rm ← osRemove E targetPath
        match rm with
        | some err => pure (some (statusError .Internal err.Error))
        | none => pure none

/-- The classification of a failure of the mount primitive shared by the mount
wrappers; `needle` is the text looked for in the message. -/
def classifyMountError (needle : String) (err : GoError) : GoError :=
  if osIsPermission err then statusError .PermissionDenied err.Error
  else if stringsContains err.Error needle then statusError .InvalidArgument err.Error
  else statusError .Internal err.Error

/-- The first half of `MountFilesystem` and `BindMountDevice`: make the
destination when it does not exist. -/
def makeDestination (E : Env σ) (destfile : String) : M σ (Option GoError) := do
  let ex ← mounterExistsPath E destfile
  if !ex.1 then do
    let err ← osMkdirAll E (E.filepathDir destfile) 0o644
    match err with
    | none => do
      let err ← mounterMakeFile E destfile
      match err with
      | none => pure none
      | some err => pure (some (statusError .Internal err.Error))
    | some err => pure (some (statusError .Internal err.Error))
  else pure none

def MountFilesystem (E : Env σ) (sourcefile destfile fsType : String) (mountFlags : List String) :
    M σ (Option GoError) := do
  let made ← makeDestination E destfile
  match made with
  | some err => pure (some err)
  | none => do
    let err ← mounterMount E sourcefile destfile fsType mountFlags
    match err with
    | some err => pure (some (classifyMountError "Invalid argument" err))
    | none => pure none

def BindMountDevice (E : Env σ) (sourcefile destfile : String) : M σ (Option GoError) := do
  let made ← makeDestination E destfile
  match made with
  | some err => pure (some err)
  | none => do
    let err ← mounterMount E sourcefile destfile "" ["bind"]
    match err with
    | some err => pure (some (classifyMountError "invalid argument" err))
    | none => pure none

def ExpandFilesystem (E : Env σ) (device fsType : String) : M σ (Option GoError) := do
  let command := if fsType = "xfs" then "xfs_growfs" else "resize2fs"
  let r ← ExecCommand E command [device]
  match r.2 with
  | some err => pure (some err)
  | none => pure none

/-- The loop of `determineLoopDeviceFromBackingFile` over the lines of the
listing; indexing the third field of a line that has fewer panics. -/
def determineLoopDeviceFromBackingFile.scan (backingfile : String) :
    List String → M σ (String × Option GoError)
  | [] => pure ("", some (statusError .Internal
      "could not determine loop device for backing file"))
  | d :: devices =>
    if d ≠ "" then
      let device := stringsSplit d ' '
      match device.get? 2 with
      | none => goPanic "index out of range [2]"
      | some field =>
        if backingfile = stringsTrim field ":()" then
          pure (stringsTrim (device.headD "") ":()", none)
        else determineLoopDeviceFromBackingFile.scan backingfile devices
    else determineLoopDeviceFromBackingFile.scan backingfile devices

def determineLoopDeviceFromBackingFile (E : Env σ) (backingfile : String) :
    M σ (String × Option GoError) := do
  let r ← ExecCommand E "losetup" ["-a"]
  match r.2 with
  | some err => pure ("", some (statusError .Internal
      ("could not determine loop device for backing file, " ++ err.Error)))
  | none =>
    let devices := stringsSplit (r.1.getD "") '\n'
    determineLoopDeviceFromBackingFile.scan backingfile devices

def ExpandDeviceFileSize (E : Env σ) (pathname : String) (size : Int) : M σ (Option GoError) := do
  let sizeStr := strconvFormatInt size 10
  let lo ← determineLoopDeviceFromBackingFile E pathname
  match lo.2 with
  | some err => pure (some err)
  | none => do
    let loresize ← ExecCommand E "losetup" ["-c", lo.1]
    match loresize.2 with
    | some err => pure (some err)
    | none => do
      let output ← ExecCommand E "qemu-img" ["resize", "-fraw", pathname, sizeStr]
      match output.2 with
      | some err => pure (some err)
      | none => pure none

def FormatDevice (E : Env σ) (device fsType : String) : M σ (Option GoError) := do
  let args := if fsType = "xfs" then ["-m", "reflink=0", device] else [device]
  let r ← ExecCommand E ("mkfs." ++ fsType) args
  match r.2 with
  | some err =>
    if r.1.isSome ∧ stringsContains (r.1.getD "") "will not make a filesystem here" then
      pure (some err)
    else pure (some err)
  | none => pure none

/-- The part of `MountShare` that follows the mount-point check, with the value
`notMnt` has there. -/
def MountShare.mount (E : Env σ) (sourcePath targetPath : String) (mountFlags : List String)
    (notMnt : Bool) : M σ (Option GoError) :=
  if !notMnt then pure none
  else do
    let mo := mountFlags
    let err ← mounterMount E sourcePath targetPath "nfs" mo
    match err with
    | some err => pure (some (classifyMountError "invalid argument" err))
    | none => pure none

def MountShare (E : Env σ) (sourcePath targetPath : String) (mountFlags : List String) :
    M σ (Option GoError) := do
  let chk ← mounterIsLikelyNotMountPoint E targetPath
  match chk.2 with
  | some err =>
    if osIsNotExist err then do
      let mk ← osMkdirAll E targetPath 0o750
      match mk with
      | some err => pure (some (statusError .Internal err.Error))
      | none => MountShare.mount E sourcePath targetPath mountFlags true
    else pure (some (statusError .Internal err.Error))
  | none => MountShare.mount E sourcePath targetPath mountFlags chk.1

/-- The loop of `GetNFSExports` over the lines of the output: the first field
of every line that has one is appended to the result. -/
def GetNFSExports.collect : List String → List String → List String
  | [], toReturn => toReturn
  | line :: exports, toReturn =>
    match stringsFields line with
    | [] => GetNFSExports.collect exports toReturn
    | first :: _ => GetNFSExports.collect exports (toReturn ++ [first])

/-- A `nil` slice is the empty list. -/
def GetNFSExports (E : Env σ) (address : String) : M σ (List String × Option GoError) := do
  let r ← ExecCommand E "showmount" ["--no-headers", "-e", address]
  match r.2 with
  | some err => pure ([], some (statusError .Internal
      ("could not determine nfs exports, " ++ err.Error ++ ": " ++ r.1.getD "")))
  | none =>
    let output := r.1.getD ""
    let exports := stringsSplit output '\n'
    let toReturn := GetNFSExports.collect exports []
    if toReturn.length = 0 then
      pure ([], some (statusError .Internal
        ("could not determine nfs exports, command output: " ++ output)))
    else pure (toReturn, none)

/-- What `CheckNFSExports` looks at in its `context.Context`: whether the
channel of `ctx.Done()` is closed when the `select` statement runs (a `select`
with a `default` case takes a case that is ready, and never waits). -/
structure Context where
  isDone : Bool
  deriving DecidableEq, Repr

def CheckNFSExports (E : Env σ) (ctx : Context) (address : String) :
    M σ (Bool × Option GoError) :=
  if ctx.isDone then
    pure (false, some (.plain ("timeout reached while checking NFS exports for " ++ address)))
  else
    let protocol := if stringsContains address ":" then "tcp6" else "tcp"
    let ua := computeUaddr address 2049
    match ua.2 with
    | some err => pure (false, some err)
    | none => do
      let r ← ExecCommand E "rpcinfo" ["-a", ua.1, "-T", protocol, "100003", "3"]
      match r.2 with
      | some err => pure (false, some (statusError .Internal
          ("could not determine nfs avalibility, " ++ err.Error ++ ": " ++ r.1.getD "")))
      | none => pure (true, none)

end HostUtils

/-! ## `pkg/driver/node.go` -/

structure NodeUnstageVolumeRequest where
  VolumeId : String
  StagingTargetPath : String
  deriving DecidableEq, Repr

structure NodeUnstageVolumeResponse where
  deriving DecidableEq, Repr

structure NodeUnpublishVolumeRequest where
  VolumeId : String
  TargetPath : String
  deriving DecidableEq, Repr

structure NodeUnpublishVolumeResponse where
  deriving DecidableEq, Repr

/-- The message `csi.VolumeCapability_MountVolume`. -/
structure MountVolume where
  FsType : String
  MountFlags : List String
  deriving DecidableEq, Repr

/-- The `oneof access_type` of a volume capability. -/
inductive AccessType where
  | Block
  | Mount (m : MountVolume)
  deriving DecidableEq, Repr

structure VolumeCapability where
  AccessType : Option AccessType
  deriving DecidableEq, Repr

/-- The getter `GetMount`, safe on a missing capability. -/
def getMount : Option VolumeCapability → Option MountVolume
  | some ⟨some (.Mount m)⟩ => some m
  | _ => none

/-- The getter `GetFsType`, safe on a missing mount volume. -/
def getFsType : Option MountVolume → String
  | some m => m.FsType
  | none => ""

/-- Reading a `map[string]string`: a missing key gives the empty string. -/
def mapGet (m : List (String × String)) (key : String) : String :=
  (m.lookup key).getD ""

structure NodePublishVolumeRequest where
  VolumeId : String
  TargetPath : String
  StagingTargetPath : String
  VolumeCapability : Option VolumeCapability
  Readonly : Bool
  VolumeContext : List (String × String)
  deriving DecidableEq, Repr

structure NodePublishVolumeResponse where
  deriving DecidableEq, Repr

structure CapacityRange where
  RequiredBytes : Int
  LimitBytes : Int
  deriving DecidableEq, Repr

structure NodeExpandVolumeRequest where
  VolumeId : String
  CapacityRange : Option CapacityRange
  VolumeCapability : Option VolumeCapability
  deriving DecidableEq, Repr

structure NodeExpandVolumeResponse where
  CapacityBytes : Int
  deriving DecidableEq, Repr

structure NodeStageVolumeRequest where
  VolumeId : String
  StagingTargetPath : String
  VolumeCapability : Option VolumeCapability
  VolumeContext : List (String × String)
  deriving DecidableEq, Repr

structure NodeStageVolumeResponse where
  deriving DecidableEq, Repr

structure NodeGetCapabilitiesRequest where
  deriving DecidableEq, Repr

/-- The enumeration `csi.NodeServiceCapability_RPC_Type`. -/
inductive RPCType where
  | UNKNOWN
  | STAGE_UNSTAGE_VOLUME
  | GET_VOLUME_STATS
  | EXPAND_VOLUME
  | VOLUME_CONDITION
  | SINGLE_NODE_MULTI_WRITER
  | VOLUME_MOUNT_GROUP
  deriving DecidableEq, Repr

/-- The message `csi.NodeServiceCapability`, whose only kind is `Rpc`. -/
structure NodeServiceCapability where
  Rpc : RPCType
  deriving DecidableEq, Repr

structure NodeGetCapabilitiesResponse where
  Capabilities : List NodeServiceCapability
  deriving DecidableEq, Repr

structure NodeGetVolumeStatsRequest where
  VolumeId : String
  VolumePath : String
  deriving DecidableEq, Repr

/-- The enumeration `csi.VolumeUsage_Unit`. -/
inductive UsageUnit where
  | UNKNOWN
  | BYTES
  | INODES
  deriving DecidableEq, Repr

structure VolumeUsage where
  Unit : UsageUnit
  Available : Int
  Total : Int
  Used : Int
  deriving DecidableEq, Repr

structure NodeGetVolumeStatsResponse where
  Usage : List VolumeUsage
  deriving DecidableEq, Repr

/-- The conversion to `int64`: the value modulo `2 ^ 64`, read as signed. -/
def toInt64 (i : Int) : Int := (i + 2 ^ 63) % 2 ^ 64 - 2 ^ 63

/-- The conversion to `uint64`. -/
def toUint64 (i : Int) : Int := i % 2 ^ 64

section Node

variable {σ : Type}

def NodeUnstageVolume (E : Env σ) (req : NodeUnstageVolumeRequest) :
    M σ (Option NodeUnstageVolumeResponse × Option GoError) :=
  let volumeID := req.VolumeId
  let stagingTarget := req.StagingTargetPath
  if volumeID = "" then
    pure (none, some (statusError .InvalidArgument "Volume ID missing"))
  else if stagingTarget = "" then
    pure (none, some (statusError .InvalidArgument "Staging target path missing"))
  else do
    let err ← UnmountFilesystem E stagingTarget
    match err with
    | some err =>
      if osIsNotExist err then pure (some {}, none)
      else pure (none, some (statusError .Internal
        ("Failed to unmount staging target path " ++ stagingTarget ++ ": " ++ err.Error)))
    | none => pure (some {}, none)

def unpublishFileBackedVolume (E : Env σ) (volumePath targetPath : String) :
    M σ (Option GoError) :=
  let backingShareName := E.filepathDir volumePath
  withDefer (releaseVolumeLock backingShareName) do
    getVolumeLock backingShareName
    let dm ← GetDeviceMinorNumber E targetPath
    match dm.2 with
    | some err => pure (some (statusError .Internal err.Error))
    | none => do
      let lodevice := "/dev/loop" ++ toString dm.1
      let um ← ExecCommand E "umount" ["-f", targetPath]
      match um.2 with
      | some err => pure (some (statusError .Internal err.Error))
      | none => do
        let rm ← osRemove E targetPath
        match rm with
        | some err => pure (some (statusError .Internal err.Error))
        | none => do
          let lo ← execCombinedOutput E "losetup" ["-d", lodevice]
          match lo.2 with
          | some err => pure (some (statusError .Internal err.Error))
          | none => do
            let ub ← UnmountBackingShareIfUnused E backingShareName
            match ub.2 with
            | some err => pure (some (statusError .Internal err.Error))
            | none => pure none

/-- The `switch` on the file type that ends `NodeUnpublishVolume`, for the
target path and file information in force after symlink resolution. -/
def NodeUnpublishVolume.byType (E : Env σ) (req : NodeUnpublishVolumeRequest)
    (targetPath : String) (fi : FileInfo) :
    M σ (Option NodeUnpublishVolumeResponse × Option GoError) :=
  if E.IsBlockDevice fi then do
    let err ← unpublishFileBackedVolume E req.VolumeId targetPath
    match err with
    | some err => pure (none, some err)
    | none => pure (some {}, none)
  else if fi.IsDir then do
    let err ← UnmountFilesystem E targetPath
    match err with
    | some err => pure (none, some (statusError .Internal err.Error))
    | none => pure (some {}, none)
  else do
    let err ← osRemove E targetPath
    match err with
    | some err => pure (none, some (statusError .Internal
        ("failed to remove unexpected target path: " ++ err.Error)))
    | none => pure (some {}, none)

def NodeUnpublishVolume (E : Env σ) (req : NodeUnpublishVolumeRequest) :
    M σ (Option NodeUnpublishVolumeResponse × Option GoError) :=
  if req.VolumeId = "" then
    pure (none, some (statusError .InvalidArgument E.EmptyVolumeId))
  else if req.TargetPath.length = 0 then
    pure (none, some (statusError .InvalidArgument E.EmptyTargetPath))
  else
    withDefer (releaseVolumeLock req.VolumeId) do
      getVolumeLock req.VolumeId
      let targetPath := req.TargetPath
      let st ← osLstat E targetPath
      match st with
      | .error err =>
        if osIsNotExist err then pure (some {}, none)
        else pure (none, some (statusError .Internal ("error stating target path: " ++ err.Error)))
      | .ok fi =>
        if fi.mode &&& ModeSymlink != 0 then do
          let rs ← filepathEvalSymlinks E targetPath
          match rs with
          | .error _ => do
            let rmErr ← osRemove E targetPath
            match rmErr with
            | some rmErr => pure (none, some (statusError .Internal
                ("failed to remove broken symlink: " ++ rmErr.Error)))
            | none => pure (some {}, none)
          | .ok resolvedPath => do
            let st2 ← osStat E resolvedPath
            match st2 with
            | .error err => pure (none, some (statusError .Internal
                ("failed to stat resolved path: " ++ err.Error)))
            | .ok fi2 => NodeUnpublishVolume.byType E req resolvedPath fi2
        else NodeUnpublishVolume.byType E req targetPath fi

/-- The part of `publishShareBackedVolume` that follows the first mount-point
check, with the value `notMnt` has there. -/
def publishShareBackedVolume.mount (E : Env σ) (exportPath targetPath stagingTargetPath : String)
    (mountFlags : List String) (readOnly : Bool) (fqdn : String) (notMnt : Bool) :
    M σ (Option GoError) :=
  if !notMnt then pure none
  else
    let mountFlags := if readOnly then mountFlags ++ ["ro"] else mountFlags
    let direct : M σ (Option GoError) :=
      MountShareAtBestDataportal E exportPath targetPath mountFlags fqdn
    if stagingTargetPath ≠ "" ∧ stagingTargetPath ≠ targetPath then do
      let err ← BindMountDevice E stagingTargetPath targetPath
      match err with
      | some _ => direct
      | none => do
        let again ← SafeIsLikelyNotMountPoint E targetPath
        match again.2 with
        | some _ => direct
        | none => if again.1 then direct else pure none
    else direct

def publishShareBackedVolume (E : Env σ) (exportPath targetPath stagingTargetPath : String)
    (mountFlags : List String) (readOnly : Bool) (fqdn : String) : M σ (Option GoError) := do
  let chk ← SafeIsLikelyNotMountPoint E targetPath
  match chk.2 with
  | some err =>
    if osIsNotExist err then do
      let mk ← osMkdirAll E targetPath 0o750
      match mk with
      | some err => pure (some (statusError .Internal err.Error))
      | none =>
        publishShareBackedVolume.mount E exportPath targetPath stagingTargetPath mountFlags
          readOnly fqdn true
    else pure (some (statusError .Internal err.Error))
  | none =>
    publishShareBackedVolume.mount E exportPath targetPath stagingTargetPath mountFlags
      readOnly fqdn chk.1

/-- The part of `publishFileBackedVolume` that follows the mount-point check. -/
def publishFileBackedVolume.attach (E : Env σ)
    (backingShareName volumePath targetPath fsType : String) (mountFlags : List String)
    (readOnly : Bool) (fqdn : String) (notMnt : Bool) : M σ (Option GoError) :=
  if !notMnt then pure none
  else do
    let hsVolume : HSVolume := { FQDN := fqdn, FSType := fsType, ClientMountOptions := mountFlags }
    let err ← EnsureBackingShareMounted E backingShareName hsVolume
    match err with
    | some err => pure (some err)
    | none =>
      let filePath := E.ShareStagingDir ++ volumePath
      if fsType = "" then do
        let att ← AttachLoopDeviceWithRetry E filePath readOnly
        let deviceStr := att.1
        match att.2 with
        | some _ => do
          let _ ← CleanupLoopDevice E deviceStr
          let _ ← UnmountBackingShareIfUnused E backingShareName
          pure (some (statusError .Internal (E.LoopDeviceAttachFailed deviceStr filePath)))
        | none => do
          let err ← BindMountDevice E deviceStr targetPath
          match err with
          | some err => do
            let _ ← CleanupLoopDevice E deviceStr
            let _ ← UnmountBackingShareIfUnused E backingShareName
            pure (some err)
          | none => pure none
      else do
        let mountFlags := if readOnly then mountFlags ++ ["ro"] else mountFlags
        let err ← MountFilesystem E filePath targetPath fsType mountFlags
        match err with
        | some err => do
          let _ ← UnmountBackingShareIfUnused E backingShareName
          pure (some err)
        | none => pure none

def publishFileBackedVolume (E : Env σ)
    (backingShareName volumePath targetPath fsType : String) (mountFlags : List String)
    (readOnly : Bool) (fqdn : String) : M σ (Option GoError) :=
  withDefer (releaseVolumeLock backingShareName) do
    getVolumeLock backingShareName
    let chk ← mounterIsLikelyNotMountPoint E targetPath
    match chk.2 with
    | some err =>
      if osIsNotExist err then
        if fsType ≠ "" then do
          let mk ← mounterMakeDir E targetPath
          match mk with
          | some err => pure (some (statusError .Internal err.Error))
          | none =>
            publishFileBackedVolume.attach E backingShareName volumePath targetPath fsType
              mountFlags readOnly fqdn true
        else do
          let mk ← mounterMakeFile E targetPath
          match mk with
          | some err => pure (some (statusError .Internal err.Error))
          | none =>
            publishFileBackedVolume.attach E backingShareName volumePath targetPath fsType
              mountFlags readOnly fqdn true
      else pure (some (statusError .Internal err.Error))
    | none =>
      publishFileBackedVolume.attach E backingShareName volumePath targetPath fsType
        mountFlags readOnly fqdn chk.1

/-- The part of `NodePublishVolume` that follows the `switch` on the access
type, with the volume mode, filesystem type and mount flags it has set. -/
def NodePublishVolume.dispatch (E : Env σ) (req : NodePublishVolumeRequest)
    (volumeMode fsType : String) (mountFlags : List String) (fqdn : String) :
    M σ (Option NodePublishVolumeResponse × Option GoError) := do
  let err ←
    if fsType = "nfs" then
      publishShareBackedVolume E req.VolumeId req.TargetPath req.StagingTargetPath mountFlags
        req.Readonly fqdn
    else
      let backingShareName :=
        if volumeMode = "Block" then mapGet req.VolumeContext "blockBackingShareName"
        else mapGet req.VolumeContext "mountBackingShareName"
      publishFileBackedVolume E backingShareName req.VolumeId req.TargetPath fsType mountFlags
        req.Readonly fqdn
  pure (some {}, err)

def NodePublishVolume (E : Env σ) (req : NodePublishVolumeRequest) :
    M σ (Option NodePublishVolumeResponse × Option GoError) :=
  if req.VolumeId = "" then
    pure (none, some (statusError .InvalidArgument E.EmptyVolumeId))
  else if req.TargetPath = "" then
    pure (none, some (statusError .InvalidArgument E.EmptyTargetPath))
  else
    match req.VolumeCapability with
    | none => pure (none, some (statusError .InvalidArgument (E.NoCapabilitiesSupplied req.VolumeId)))
    | some cap =>
      withDefer (releaseVolumeLock req.VolumeId) do
        getVolumeLock req.VolumeId
        let fqdn := mapGet req.VolumeContext "fqdn"
        match cap.AccessType with
        | some .Block => NodePublishVolume.dispatch E req "Block" "" [] fqdn
        | some (.Mount m) =>
          let fsType :=
            if m.FsType = "" then
              (if mapGet req.VolumeContext "fsType" = "" then "nfs"
               else mapGet req.VolumeContext "fsType")
            else m.FsType
          NodePublishVolume.dispatch E req "Filesystem" fsType m.MountFlags fqdn
        | none =>
          pure (none, some (statusError .InvalidArgument (E.NoCapabilitiesSupplied req.VolumeId)))

/-- The end of `NodeExpandVolume`, once `typeMount` and `fileBacked` are set. -/
def NodeExpandVolume.resize (E : Env σ) (req : NodeExpandVolumeRequest) (requestedSize : Int)
    (typeMount fileBacked : Bool) : M σ (Option NodeExpandVolumeResponse × Option GoError) :=
  let typeMount :=
    match req.VolumeCapability with
    | some ⟨some .Block⟩ => false
    | some ⟨some (.Mount _)⟩ => true
    | _ => typeMount
  if fileBacked then do
    let err ← ExpandDeviceFileSize E (E.ShareStagingDir ++ req.VolumeId) requestedSize
    match err with
    | some err => pure (none, some err)
    | none =>
      if typeMount then
        match getMount req.VolumeCapability with
        | none => goPanic "invalid memory address or nil pointer dereference"
        | some m => do
          let err ← ExpandFilesystem E (E.ShareStagingDir ++ req.VolumeId) m.FsType
          match err with
          | some err => pure (none, some err)
          | none => pure (some { CapacityBytes := requestedSize }, none)
      else pure (some { CapacityBytes := requestedSize }, none)
  else pure (none, none)

def NodeExpandVolume (E : Env σ) (req : NodeExpandVolumeRequest) :
    M σ (Option NodeExpandVolumeResponse × Option GoError) := do
  let limit := (req.CapacityRange.map (fun r => r.LimitBytes)).getD 0
  let required := (req.CapacityRange.map (fun r => r.RequiredBytes)).getD 0
  let requestedSize := if limit ≠ 0 then limit else required
  let volumeName := E.GetVolumeNameFromPath req.VolumeId
  let sh ← hsclientGetShare E volumeName
  match sh.1 with
  | some share => do
    let mounted ← IsShareMounted E share.ExportPath
    if !mounted.1 then pure (none, some (statusError .FailedPrecondition E.ShareNotMounted))
    else NodeExpandVolume.resize E req requestedSize true false
  | none => do
    let ex ← hsclientDoesFileExist E req.VolumeId
    if !ex.1 then pure (none, some (statusError .InvalidArgument E.VolumeNotFound))
    else NodeExpandVolume.resize E req requestedSize false true

/-- The part of `NodeStageVolume` that follows the mount-point check, with the
value `notMounted` has there. -/
def NodeStageVolume.mount (E : Env σ) (req : NodeStageVolumeRequest) (notMounted : Bool) :
    M σ (Option NodeStageVolumeResponse × Option GoError) :=
  if !notMounted then pure (some {}, none)
  else
    let mountOptions := [""]
    let fsType := getFsType (getMount req.VolumeCapability)
    if fsType = "nfs" ∨ fsType = "" then do
      let _ ← MountShareAtBestDataportal E req.VolumeId req.StagingTargetPath mountOptions
        (mapGet req.VolumeContext "fqdn")
      pure (some {}, none)
    else pure (some {}, none)

def NodeStageVolume (E : Env σ) (req : NodeStageVolumeRequest) :
    M σ (Option NodeStageVolumeResponse × Option GoError) :=
  let volumeID := req.VolumeId
  let stagingTarget := req.StagingTargetPath
  if volumeID = "" then
    pure (none, some (statusError .InvalidArgument "Volume ID missing"))
  else if stagingTarget = "" then
    pure (none, some (statusError .InvalidArgument "Staging target path missing"))
  else do
    let mk ← osMkdirAll E stagingTarget 0o750
    match mk with
    | some err => pure (none, some (statusError .Internal
        ("Failed to create staging target path: " ++ err.Error)))
    | none => do
      let chk ← SafeIsLikelyNotMountPoint E stagingTarget
      match chk.2 with
      | some err =>
        if !osIsNotExist err then
          pure (none, some (statusError .Internal ("Could not check mount point: " ++ err.Error)))
        else NodeStageVolume.mount E req chk.1
      | none => NodeStageVolume.mount E req chk.1

def NodeGetCapabilities (_req : NodeGetCapabilitiesRequest) :
    M σ (Option NodeGetCapabilitiesResponse × Option GoError) :=
  pure (some { Capabilities := [⟨.UNKNOWN⟩, ⟨.STAGE_UNSTAGE_VOLUME⟩, ⟨.GET_VOLUME_STATS⟩,
    ⟨.EXPAND_VOLUME⟩] }, none)

def NodeGetVolumeStats (E : Env σ) (req : NodeGetVolumeStatsRequest) :
    M σ (Option NodeGetVolumeStatsResponse × Option GoError) :=
  if req.VolumeId = "" then
    pure (none, some (statusError .InvalidArgument E.EmptyVolumeId))
  else if req.VolumePath = "" then
    pure (none, some (statusError .InvalidArgument E.EmptyVolumePath))
  else do
    let st ← osStat E req.VolumePath
    match st with
    | .error _ => pure (none, some (statusError .NotFound E.VolumeNotFound))
    | .ok info =>
      if E.IsBlockDevice info then do
        let op ← osOpen E req.VolumePath
        match op with
        | some err => pure (none, some (statusError .Internal
            ("failed to open block device: " ++ err.Error)))
        | none =>
          withDefer (fileClose req.VolumePath) do
            let sz ← ioctlBlockSize E req.VolumePath
            match sz.2 with
            | some errno => pure (none, some (statusError .Internal
                ("failed to get block size: " ++ errno.Error)))
            | none => pure (some { Usage := [⟨.BYTES, 0, sz.1, 0⟩, ⟨.INODES, 0, 0, 0⟩] }, none)
      else do
        let fs ← syscallStatfs E req.VolumePath
        match fs with
        | .error _ => pure (none, some (statusError .Internal E.FileNotFound))
        | .ok st =>
          let total := toInt64 (toInt64 st.Bsize * toInt64 st.Blocks)
          let available := toInt64 (toInt64 st.Bsize * toInt64 st.Bavail)
          let used := toInt64 (toInt64 st.Bsize *
            toInt64 (toUint64 ((st.Blocks : Int) - (st.Bfree : Int))))
          let inodestotal := toInt64 st.Files
          let inodesavail := toInt64 st.Ffree
          let inodesused := toInt64 (inodestotal - inodesavail)
          pure (some { Usage := [⟨.BYTES, available, total, used⟩,
            ⟨.INODES, inodesavail, inodestotal, inodesused⟩] }, none)

end Node

/-! ## Reading traces -/

/-- The kinds of calls. -/
inductive Kind where
  | lock
  | stat
  | mountCheck
  | probe
  | makeDest
  | mount
  | unmount
  | remove
  | command
  | cluster
  | ensure
  | release
  | attach
  | cleanup
  | dataportal
  deriving DecidableEq, Repr

/-- The kind of a call. -/
def Call.kind : Call → Kind
  | .getVolumeLock _ => .lock
  | .releaseVolumeLock _ => .lock
  | .Lstat _ => .stat
  | .Stat _ => .stat
  | .unixStat _ => .stat
  | .EvalSymlinks _ => .stat
  | .Remove _ => .remove
  | .MkdirAll _ _ => .makeDest
  | .SafeIsLikelyNotMountPoint _ => .mountCheck
  | .IsLikelyNotMountPoint _ => .mountCheck
  | .IsNotMountPoint _ => .mountCheck
  | .ExistsPath _ => .probe
  | .MakeDir _ => .makeDest
  | .MakeFile _ => .makeDest
  | .Mount _ _ _ _ => .mount
  | .Unmount _ => .unmount
  | .Command _ _ => .command
  | .GetShare _ => .cluster
  | .DoesFileExist _ => .cluster
  | .EnsureBackingShareMounted _ _ => .ensure
  | .UnmountBackingShareIfUnused _ => .release
  | .AttachLoopDeviceWithRetry _ _ => .attach
  | .CleanupLoopDevice _ => .cleanup
  | .MountShareAtBestDataportal _ _ _ _ => .dataportal
  | .Open _ => .stat
  | .Close _ => .stat
  | .IoctlBlockSize _ => .stat
  | .Statfs _ => .stat

/-- The events of a trace whose call is of a given kind, in order. -/
def ofKind (k : Kind) (t : List Event) : List Event :=
  t.filter (fun e => e.call.kind = k)

/-- The events of a trace whose call is of one of the listed kinds, in order. -/
def ofKinds (ks : List Kind) (t : List Event) : List Event :=
  t.filter (fun e => ks.contains e.call.kind)

/-- Every call of the trace is of one of the listed kinds. -/
def kindsIn (ks : List Kind) (t : List Event) : Prop :=
  ∀ e ∈ t, e.call.kind ∈ ks

/-- The lock events of the body of a handler that runs holding only the volume
lock: the body returns still holding that lock, having taken no lock or having
taken and released the lock of one other key; or it blocks without a lock
event (the lock it asks for is the one already held). -/
def LockBody {σ α : Type} (vol : String) (B : Run σ α) : Prop :=
  ((∃ r, B.out = .done r) ∧ B.held = [vol] ∧
    (ofKind .lock B.trace = [] ∨
      ∃ sh, sh ≠ vol ∧ ofKind .lock B.trace =
        [⟨.getVolumeLock sh, .unit⟩, ⟨.releaseVolumeLock sh, .unit⟩])) ∨
  (B.out = .blocked ∧ ofKind .lock B.trace = [])

/-- Well-nested locking of a handler run by an execution that holds no lock:
the first call takes the volume lock; if the handler returns, its last call
releases the volume lock, no lock is held any more, and the lock events are the
volume lock taken and released once, with at most one other lock taken and
released in between; a handler that does not return is blocked on a second
request for the volume lock and has made no other lock call. -/
def LockNested {σ α : Type} (vol : String) (X : Run σ α) : Prop :=
  X.trace.head? = some ⟨.getVolumeLock vol, .unit⟩ ∧
  (((∃ r, X.out = .done r) ∧ X.held = [] ∧
      X.trace.getLast? = some ⟨.releaseVolumeLock vol, .unit⟩ ∧
      (ofKind .lock X.trace =
          [⟨.getVolumeLock vol, .unit⟩, ⟨.releaseVolumeLock vol, .unit⟩] ∨
        ∃ sh, sh ≠ vol ∧ ofKind .lock X.trace =
          [⟨.getVolumeLock vol, .unit⟩, ⟨.getVolumeLock sh, .unit⟩,
           ⟨.releaseVolumeLock sh, .unit⟩, ⟨.releaseVolumeLock vol, .unit⟩])) ∨
    (X.out = .blocked ∧ ofKind .lock X.trace = [⟨.getVolumeLock vol, .unit⟩]))

/-- Some step of a publish sequence reported an error: attaching the loop
device, making a destination, or mounting. -/
def publishStepFailed (t : List Event) : Bool :=
  t.any (fun e => (e.call.kind = .attach || e.call.kind = .makeDest || e.call.kind = .mount)
    && !e.reply.ok)

/-! ## Reading results -/

/-- Whether a line has a character that is not white space. -/
def hasToken (line : String) : Bool :=
  line.toList.any (fun c => !unicodeIsSpace c)

/-- The first token of a line: what stands between the leading white space and
the next white space (or the end of the line). -/
def firstToken (line : String) : String :=
  String.mk ((line.toList.dropWhile unicodeIsSpace).takeWhile (fun c => !unicodeIsSpace c))

/-- The RPC types of a capability list, in order. -/
def rpcTypes (resp : NodeGetCapabilitiesResponse) : List RPCType :=
  resp.Capabilities.map (fun c => c.Rpc)

/-- A handler turned the request down from the host `s`: it returned no
response and an `InvalidArgument` error, left the host as it was, and made no
call that creates a directory or file, mounts, unmounts, removes a path, runs a
command, or attaches, cleans up or releases anything. -/
def Rejected {σ α : Type} (s : σ) (X : Run σ (Option α × Option GoError)) : Prop :=
  (∃ msg, X.out = .done (none, some (statusError .InvalidArgument msg))) ∧ X.host = s ∧
  ofKinds [.makeDest, .mount, .unmount, .remove, .command, .attach, .cleanup, .dataportal,
    .ensure, .release] X.trace = []

/-! ## Sample hosts

Concrete environments over a host without state, used to run the definitions
on explicit inputs. -/

/-- A plain stand-in for `filepath.Dir` on the sample hosts: the text before
the last slash (`/` for a path directly under the root, `.` without a slash). -/
def sampleDir (path : String) : String :=
  match (path.toList.reverse.dropWhile (fun c => c != '/')).reverse with
  | [] => "."
  | ['/'] => "/"
  | cs => String.mk cs.dropLast

/-- A host on which every call succeeds: no path is a mount point, every path
exists as a plain file, commands print nothing, the cluster knows no share. The
texts of the constants are sample values. -/
def calmEnv : Env Unit where
  EmptyVolumeId := "Volume id must be provided"
  EmptyTargetPath := "Target path must be provided"
  NoCapabilitiesSupplied := fun v => "No capabilities supplied for volume " ++ v
  ShareNotMounted := "Share is not mounted"
  VolumeNotFound := "Volume does not exist"
  LoopDeviceAttachFailed := fun d f => "failed setting up loop device " ++ d ++ " for " ++ f
  ShareStagingDir := "/tmp"
  EmptyVolumePath := "Volume path must be provided"
  FileNotFound := "File does not exist"
  GetVolumeNameFromPath := fun p => p
  IsBlockDevice := fun fi => fi.mode &&& 2 ^ 26 != 0 && fi.mode &&& 2 ^ 21 == 0
  filepathDir := sampleDir
  Lstat := fun _ _ => .ok ⟨0⟩
  Stat := fun _ _ => .ok ⟨0⟩
  unixStat := fun _ _ => .ok 0
  EvalSymlinks := fun p _ => .ok p
  SafeIsLikelyNotMountPoint := fun _ _ => (true, none)
  IsLikelyNotMountPoint := fun _ _ => (true, none)
  IsNotMountPoint := fun _ _ => (true, none)
  ExistsPath := fun _ _ => (true, none)
  GetShare := fun _ _ => (none, none)
  DoesFileExist := fun _ _ => (true, none)
  Remove := fun _ s => (none, s)
  MkdirAll := fun _ _ s => (none, s)
  MakeDir := fun _ s => (none, s)
  MakeFile := fun _ s => (none, s)
  Mount := fun _ _ _ _ s => (none, s)
  Unmount := fun _ s => (none, s)
  Command := fun _ _ s => (("", none), s)
  EnsureBackingShareMounted := fun _ _ s => (none, s)
  UnmountBackingShareIfUnused := fun _ s => ((false, none), s)
  AttachLoopDeviceWithRetry := fun _ _ s => (("/dev/loop0", none), s)
  CleanupLoopDevice := fun _ s => (none, s)
  MountShareAtBestDataportal := fun _ _ _ _ s => (none, s)
  Open := fun _ _ => none
  IoctlBlockSize := fun _ _ => (0, none)
  Statfs := fun _ _ => .ok ⟨4096, 0, 0, 0, 0, 0⟩

/-- The error of a system call on a path that does not exist. -/
def enoent : GoError := .os .notExist "no such file or directory"

/-- A host on which no path exists. -/
def emptyEnv : Env Unit :=
  { calmEnv with
    Lstat := fun _ _ => .error enoent
    Stat := fun _ _ => .error enoent
    unixStat := fun _ _ => .error enoent
    SafeIsLikelyNotMountPoint := fun _ _ => (true, some enoent)
    IsLikelyNotMountPoint := fun _ _ => (true, some enoent)
    IsNotMountPoint := fun _ _ => (true, some enoent)
    ExistsPath := fun _ _ => (false, none)
    DoesFileExist := fun _ _ => (false, none) }

/-- A host whose cluster has a share for every name, exported at `/exports/a`
and mounted there. -/
def shareMountedEnv : Env Unit :=
  { calmEnv with
    GetShare := fun name _ => (some { Name := name, ExportPath := "/exports/a" }, none)
    IsNotMountPoint := fun _ _ => (false, none) }

/-- A host whose cluster has a share for every name that is not mounted. -/
def shareNotMountedEnv : Env Unit :=
  { calmEnv with
    GetShare := fun name _ => (some { Name := name, ExportPath := "/exports/a" }, none) }

/-- A host on which attaching a loop device fails. -/
def attachFailEnv : Env Unit :=
  { calmEnv with
    AttachLoopDeviceWithRetry := fun _ _ s => (("", some (.plain "losetup: no free device")), s) }

/-- The error of a system call that is not permitted. -/
def eacces : GoError := .os .permission "permission denied"

/-- A host on which checking a mount point is not permitted. -/
def deniedEnv : Env Unit :=
  { calmEnv with
    SafeIsLikelyNotMountPoint := fun _ _ => (true, some eacces) }

/-- A host whose state is the list of mounted targets: mounting adds the
target, unmounting removes it, and a path is a mount point when it is listed. -/
def mountingEnv : Env (List String) where
  EmptyVolumeId := calmEnv.EmptyVolumeId
  EmptyTargetPath := calmEnv.EmptyTargetPath
  NoCapabilitiesSupplied := calmEnv.NoCapabilitiesSupplied
  ShareNotMounted := calmEnv.ShareNotMounted
  VolumeNotFound := calmEnv.VolumeNotFound
  LoopDeviceAttachFailed := calmEnv.LoopDeviceAttachFailed
  ShareStagingDir := calmEnv.ShareStagingDir
  EmptyVolumePath := calmEnv.EmptyVolumePath
  FileNotFound := calmEnv.FileNotFound
  GetVolumeNameFromPath := calmEnv.GetVolumeNameFromPath
  IsBlockDevice := calmEnv.IsBlockDevice
  filepathDir := calmEnv.filepathDir
  Lstat := fun _ _ => .ok ⟨ModeDir⟩
  Stat := fun _ _ => .ok ⟨ModeDir⟩
  unixStat := fun _ _ => .ok 0
  EvalSymlinks := fun p _ => .ok p
  SafeIsLikelyNotMountPoint := fun p mounts => (!mounts.contains p, none)
  IsLikelyNotMountPoint := fun p mounts => (!mounts.contains p, none)
  IsNotMountPoint := fun p mounts => (!mounts.contains p, none)
  ExistsPath := fun _ _ => (true, none)
  GetShare := fun _ _ => (none, none)
  DoesFileExist := fun _ _ => (true, none)
  Remove := fun _ mounts => (none, mounts)
  MkdirAll := fun _ _ mounts => (none, mounts)
  MakeDir := fun _ mounts => (none, mounts)
  MakeFile := fun _ mounts => (none, mounts)
  Mount := fun _ target _ _ mounts => (none, target :: mounts)
  Unmount := fun target mounts => (none, mounts.erase target)
  Command := fun _ _ mounts => (("", none), mounts)
  EnsureBackingShareMounted := fun _ _ mounts => (none, mounts)
  UnmountBackingShareIfUnused := fun _ mounts => ((false, none), mounts)
  AttachLoopDeviceWithRetry := fun _ _ mounts => (("/dev/loop0", none), mounts)
  CleanupLoopDevice := fun _ mounts => (none, mounts)
  MountShareAtBestDataportal := fun _ target _ _ mounts => (none, target :: mounts)
  Open := fun _ _ => none
  IoctlBlockSize := fun _ _ => (0, none)
  Statfs := fun _ _ => .ok ⟨4096, 0, 0, 0, 0, 0⟩

/-- A host on which every target is the block device `/dev/loop7` (major 7,
minor 7). -/
def loopEnv : Env Unit :=
  { calmEnv with
    unixStat := fun _ _ => .ok 1799
    Lstat := fun _ _ => .ok ⟨2 ^ 26⟩
    Stat := fun _ _ => .ok ⟨2 ^ 26⟩ }

/-- A host on which every mount fails with the message of `EINVAL`. -/
def invalidMountEnv : Env Unit :=
  { calmEnv with
    Mount := fun _ _ _ _ s => (some (.plain "mount failed: exit status 32, invalid argument"), s) }

/-- A host whose loop listing has one line, without a backing file. -/
def shortListingEnv : Env Unit :=
  { calmEnv with
    Command := fun name args s =>
      if name = "losetup" ∧ args = ["-a"] then (("/dev/loop0: [2049]:131\n", none), s)
      else (("", none), s) }

/-- A host with two loop devices, bound to `/tmp/backing/v0` and
`/tmp/backing/v1`. -/
def boundListingEnv : Env Unit :=
  { calmEnv with
    Command := fun name args s =>
      if name = "losetup" ∧ args = ["-a"] then
        (("/dev/loop0: [2049]:131 (/tmp/backing/v0)\n/dev/loop1: [2049]:132 (/tmp/backing/v1)\n",
          none), s)
      else (("", none), s) }

/-- A host whose server exports `/exports/a` and `/exports/b`; the listing has
an empty line and a line of white space in between. -/
def showmountEnv : Env Unit :=
  { calmEnv with
    Command := fun name _ s =>
      if name = "showmount" then
        (("/exports/a  10.0.0.0/24\n\n \t\n/exports/b *\n", none), s)
      else (("", none), s) }

/-- A host on which mounting a share from a data portal fails. -/
def portalFailEnv : Env Unit :=
  { calmEnv with
    MountShareAtBestDataportal := fun _ _ _ _ s =>
      (some (.plain "mount failed: exit status 32"), s) }

/-! ## Theorems -/

section Theorems

variable {σ : Type}

/-- A status error is never a not-exist error for `os.IsNotExist`. -/
@[simp] theorem osIsNotExist_statusError (code : Code) (msg : String) :
    osIsNotExist (statusError code msg) = false := rfl

/-- A status error is never a permission error for `os.IsPermission`. -/
@[simp] theorem osIsPermission_statusError (code : Code) (msg : String) :
    osIsPermission (statusError code msg) = false := rfl

/-- The length of a Go string is zero only for the empty string. -/
theorem String.length_ne_zero_of_ne_empty {t : String} (h : t ≠ "") : t.length ≠ 0 := by
  intro h0
  exact h (String.ext (List.length_eq_zero.mp h0))

/-! ### Traces -/

@[simp] theorem ofKind_nil (k : Kind) : ofKind k [] = [] := rfl

@[simp] theorem ofKind_cons (k : Kind) (e : Event) (t : List Event) :
    ofKind k (e :: t) = if e.call.kind = k then e :: ofKind k t else ofKind k t := by
  by_cases h : e.call.kind = k <;> simp [ofKind, List.filter_cons, h]

@[simp] theorem ofKind_append (k : Kind) (t1 t2 : List Event) :
    ofKind k (t1 ++ t2) = ofKind k t1 ++ ofKind k t2 := by
  simp [ofKind]

@[simp] theorem ofKinds_nil (ks : List Kind) : ofKinds ks [] = [] := rfl

@[simp] theorem ofKinds_cons (ks : List Kind) (e : Event) (t : List Event) :
    ofKinds ks (e :: t) = if ks.contains e.call.kind then e :: ofKinds ks t else ofKinds ks t := by
  by_cases h : ks.contains e.call.kind = true <;> simp [ofKinds, List.filter_cons, h]

@[simp] theorem ofKinds_append (ks : List Kind) (t1 t2 : List Event) :
    ofKinds ks (t1 ++ t2) = ofKinds ks t1 ++ ofKinds ks t2 := by
  simp [ofKinds]

@[simp] theorem kindsIn_nil (ks : List Kind) : kindsIn ks [] := by
  intro e he
  cases he

@[simp] theorem kindsIn_cons (ks : List Kind) (e : Event) (t : List Event) :
    kindsIn ks (e :: t) ↔ e.call.kind ∈ ks ∧ kindsIn ks t := by
  simp [kindsIn]

@[simp] theorem kindsIn_append (ks : List Kind) (t1 t2 : List Event) :
    kindsIn ks (t1 ++ t2) ↔ kindsIn ks t1 ∧ kindsIn ks t2 := by
  simp only [kindsIn, List.mem_append]
  constructor
  · intro h
    exact ⟨fun e he => h e (Or.inl he), fun e he => h e (Or.inr he)⟩
  · rintro ⟨h1, h2⟩ e (he | he)
    · exact h1 e he
    · exact h2 e he

/-- A trace whose calls are all of the listed kinds has no event of another kind. -/
theorem ofKind_eq_nil_of_kindsIn {ks : List Kind} {t : List Event} (h : kindsIn ks t)
    {k : Kind} (hk : k ∉ ks) : ofKind k t = [] := by
  simp only [ofKind, List.filter_eq_nil_iff, decide_eq_true_eq]
  intro e he hek
  exact hk (hek ▸ h e he)

/-- Allowing more kinds. -/
theorem kindsIn_mono {ks ks2 : List Kind} {t : List Event} (h : kindsIn ks t)
    (hsub : ∀ k ∈ ks, k ∈ ks2) : kindsIn ks2 t :=
  fun e he => hsub _ (h e he)

@[simp] theorem publishStepFailed_nil : publishStepFailed [] = false := rfl

@[simp] theorem publishStepFailed_cons (e : Event) (t : List Event) :
    publishStepFailed (e :: t) =
      (((e.call.kind = .attach || e.call.kind = .makeDest || e.call.kind = .mount)
        && !e.reply.ok) || publishStepFailed t) := by
  simp [publishStepFailed]

@[simp] theorem publishStepFailed_append (t1 t2 : List Event) :
    publishStepFailed (t1 ++ t2) = (publishStepFailed t1 || publishStepFailed t2) := by
  simp [publishStepFailed]

/-! ### The mount wrappers -/

/-- Making the destination returns, keeps the locks, only probes and makes
paths, and fails exactly when one of its steps reports an error. -/
theorem makeDestination_run (E : Env σ) (b : String) (s : σ) (held : List String) :
    (makeDestination E b s held).held = held ∧
    kindsIn [.probe, .makeDest] (makeDestination E b s held).trace ∧
    ∃ r, (makeDestination E b s held).out = .done r ∧
      publishStepFailed (makeDestination E b s held).trace = r.isSome := by
  rcases h1 : E.ExistsPath b s with ⟨ex, exe⟩
  rcases h2 : E.MkdirAll (E.filepathDir b) 420 s with ⟨e2, s2⟩
  rcases h3 : E.MakeFile b s2 with ⟨e3, s3⟩
  cases ex <;> cases e2 <;> cases e3 <;>
    simp [makeDestination, mounterExistsPath, osMkdirAll, mounterMakeFile,
      query, action, bind, M.bind, pure, M.pure, h1, h2, h3, flagReply,
      Call.kind, Reply.ok]

/-- A mount through `mounterMount` after `makeDestination`, as both mount
wrappers do it: the run returns, keeps the locks, only probes, makes paths and
mounts, fails exactly when a step reports an error, and its `Mount` events are
the one successful mount exactly when it succeeds. -/
theorem mountWrapper_run (E : Env σ) (a b fs needle : String) (opts : List String) (s : σ)
    (held : List String) (X : Run σ (Option GoError))
    (hX : X = (do
      let made ← makeDestination E b
      match made with
      | some err => pure (some err)
      | none => do
        let err ← mounterMount E a b fs opts
        match err with
        | some err => pure (some (classifyMountError needle err))
        | none => pure none : M σ (Option GoError)) s held) :
    X.held = held ∧ kindsIn [.probe, .makeDest, .mount] X.trace ∧
    ∃ r, X.out = .done r ∧ publishStepFailed X.trace = r.isSome ∧
      (r = none → ofKind .mount X.trace = [⟨.Mount a b fs opts, .err none⟩]) ∧
      (r ≠ none → ∀ e ∈ ofKind .mount X.trace, e.reply.ok = false) := by
  obtain ⟨hheld, hk, r0, hout, hfail⟩ := makeDestination_run E b s held
  have hk2 : kindsIn [.probe, .makeDest, .mount] (makeDestination E b s held).trace :=
    kindsIn_mono hk (by decide)
  have hm : ofKind .mount (makeDestination E b s held).trace = [] :=
    ofKind_eq_nil_of_kindsIn hk (by decide)
  rcases h4 : E.Mount a b fs opts (makeDestination E b s held).host with ⟨e4, s4⟩
  subst hX
  cases r0 <;> cases e4 <;>
    simp [mounterMount, action, bind, M.bind, pure, M.pure, hout, hheld, hk2, hm, hfail, h4,
      Call.kind, Reply.ok]

/-- The run of `BindMountDevice`. -/
theorem BindMountDevice_run (E : Env σ) (a b : String) (s : σ) (held : List String) :
    (BindMountDevice E a b s held).held = held ∧
    kindsIn [.probe, .makeDest, .mount] (BindMountDevice E a b s held).trace ∧
    ∃ r, (BindMountDevice E a b s held).out = .done r ∧
      publishStepFailed (BindMountDevice E a b s held).trace = r.isSome ∧
      (r = none → ofKind .mount (BindMountDevice E a b s held).trace =
        [⟨.Mount a b "" ["bind"], .err none⟩]) ∧
      (r ≠ none → ∀ e ∈ ofKind .mount (BindMountDevice E a b s held).trace,
        e.reply.ok = false) :=
  mountWrapper_run E a b "" "invalid argument" ["bind"] s held _ rfl

/-- The run of `MountFilesystem`. -/
theorem MountFilesystem_run (E : Env σ) (a b fs : String) (opts : List String) (s : σ)
    (held : List String) :
    (MountFilesystem E a b fs opts s held).held = held ∧
    kindsIn [.probe, .makeDest, .mount] (MountFilesystem E a b fs opts s held).trace ∧
    ∃ r, (MountFilesystem E a b fs opts s held).out = .done r ∧
      publishStepFailed (MountFilesystem E a b fs opts s held).trace = r.isSome ∧
      (r = none → ofKind .mount (MountFilesystem E a b fs opts s held).trace =
        [⟨.Mount a b fs opts, .err none⟩]) ∧
      (r ≠ none → ∀ e ∈ ofKind .mount (MountFilesystem E a b fs opts s held).trace,
        e.reply.ok = false) :=
  mountWrapper_run E a b fs "Invalid argument" opts s held _ rfl

/-- What `publishFileBackedVolume` leaves in its trace after the mount-point
check. -/
theorem publishFileBackedVolume.attach_run (E : Env σ) (share vol target fsType : String)
    (flags : List String) (ro : Bool) (fqdn : String) (notMnt : Bool) (s : σ)
    (held : List String) :
    (publishFileBackedVolume.attach E share vol target fsType flags ro fqdn notMnt s held).held
      = held ∧
    kindsIn [.ensure, .attach, .cleanup, .release, .probe, .makeDest, .mount]
      (publishFileBackedVolume.attach E share vol target fsType flags ro fqdn notMnt s held).trace ∧
    ∃ r, (publishFileBackedVolume.attach E share vol target fsType flags ro fqdn notMnt
        s held).out = .done r ∧
      (ofKind .ensure
          (publishFileBackedVolume.attach E share vol target fsType flags ro fqdn notMnt
            s held).trace = [⟨.EnsureBackingShareMounted share ⟨fqdn, fsType, flags⟩, .err none⟩] →
        (publishStepFailed
            (publishFileBackedVolume.attach E share vol target fsType flags ro fqdn notMnt
              s held).trace = true →
          r ≠ none ∧
          (ofKind .release
            (publishFileBackedVolume.attach E share vol target fsType flags ro fqdn notMnt
              s held).trace).map Event.call = [.UnmountBackingShareIfUnused share] ∧
          (fsType = "" →
            (ofKind .cleanup
              (publishFileBackedVolume.attach E share vol target fsType flags ro fqdn notMnt
                s held).trace).length = 1)) ∧
        (publishStepFailed
            (publishFileBackedVolume.attach E share vol target fsType flags ro fqdn notMnt
              s held).trace = false →
          r = none ∧
          ofKind .release
            (publishFileBackedVolume.attach E share vol target fsType flags ro fqdn notMnt
              s held).trace = [] ∧
          ofKind .cleanup
            (publishFileBackedVolume.attach E share vol target fsType flags ro fqdn notMnt
              s held).trace = [])) := by
  cases notMnt
  · simp [publishFileBackedVolume.attach, pure, M.pure]
  · by_cases hfs : fsType = ""
    · subst hfs
      rcases h1 : E.EnsureBackingShareMounted share ⟨fqdn, "", flags⟩ s with ⟨e1, s1⟩
      cases e1 with
      | some err =>
        simp [publishFileBackedVolume.attach, EnsureBackingShareMounted, action, bind, M.bind,
          pure, M.pure, h1, Call.kind]
      | none =>
        rcases h2 : E.AttachLoopDeviceWithRetry (E.ShareStagingDir ++ vol) ro s1
          with ⟨⟨dev, e2⟩, s2⟩
        cases e2 with
        | some err =>
          simp [publishFileBackedVolume.attach, EnsureBackingShareMounted,
            AttachLoopDeviceWithRetry, CleanupLoopDevice, UnmountBackingShareIfUnused, action,
            bind, M.bind, pure, M.pure, h1, h2, Call.kind, Reply.ok, textReply]
        | none =>
          obtain ⟨hheld, hk, r, hout, hfail, -, -⟩ := BindMountDevice_run E dev target s2 held
          have hk2 := kindsIn_mono hk (show ∀ k ∈ [Kind.probe, .makeDest, .mount],
            k ∈ [Kind.ensure, .attach, .cleanup, .release, .probe, .makeDest, .mount] by decide)
          have hr := ofKind_eq_nil_of_kindsIn hk (show Kind.release ∉ _ by decide)
          have hc := ofKind_eq_nil_of_kindsIn hk (show Kind.cleanup ∉ _ by decide)
          have he := ofKind_eq_nil_of_kindsIn hk (show Kind.ensure ∉ _ by decide)
          cases r <;>
          simp [publishFileBackedVolume.attach, EnsureBackingShareMounted,
            AttachLoopDeviceWithRetry, CleanupLoopDevice, UnmountBackingShareIfUnused, action,
            bind, M.bind, pure, M.pure, h1, h2, Call.kind, Reply.ok, textReply,
            hout, hheld, hfail, hk2, hr, hc, he]
    · rcases h1 : E.EnsureBackingShareMounted share ⟨fqdn, fsType, flags⟩ s with ⟨e1, s1⟩
      cases e1 with
      | some err =>
        simp [publishFileBackedVolume.attach, EnsureBackingShareMounted, action, bind, M.bind,
          pure, M.pure, h1, Call.kind]
      | none =>
        obtain ⟨hheld, hk, r, hout, hfail, -, -⟩ := MountFilesystem_run E
          (E.ShareStagingDir ++ vol) target fsType (if ro = true then flags ++ ["ro"] else flags)
          s1 held
        have hk2 := kindsIn_mono hk (show ∀ k ∈ [Kind.probe, .makeDest, .mount],
          k ∈ [Kind.ensure, .attach, .cleanup, .release, .probe, .makeDest, .mount] by decide)
        have hr := ofKind_eq_nil_of_kindsIn hk (show Kind.release ∉ _ by decide)
        have hc := ofKind_eq_nil_of_kindsIn hk (show Kind.cleanup ∉ _ by decide)
        have he := ofKind_eq_nil_of_kindsIn hk (show Kind.ensure ∉ _ by decide)
        cases r <;>
        simp [publishFileBackedVolume.attach, EnsureBackingShareMounted,
          UnmountBackingShareIfUnused, action,
          bind, M.bind, pure, M.pure, h1, hfs, Call.kind, Reply.ok,
          hout, hheld, hfail, hk2, hr, hc, he]


/-- The shape of a run of `publishFileBackedVolume` by an execution that does
not hold the lock of the backing share: the lock is taken, the mount-point
check (and the creation of a missing target) is made, and then either the call
fails with `Internal` or the rest of the function runs; the lock is released
last. -/
theorem publishFileBackedVolume_shape (E : Env σ) (share vol target fsType : String)
    (flags : List String) (ro : Bool) (fqdn : String) (s : σ) (held : List String)
    (hh : share ∉ held) :
    ∃ pre, kindsIn [.mountCheck, .makeDest] pre ∧
      ((∃ msg s1, publishFileBackedVolume E share vol target fsType flags ro fqdn s held =
          ⟨.done (some (statusError .Internal msg)), s1, held,
            [⟨.getVolumeLock share, .unit⟩] ++ pre ++ [⟨.releaseVolumeLock share, .unit⟩]⟩) ∨
       (publishStepFailed pre = false ∧
        ∃ notMnt s1, publishFileBackedVolume E share vol target fsType flags ro fqdn s held =
          ⟨(publishFileBackedVolume.attach E share vol target fsType flags ro
              fqdn notMnt s1 (share :: held)).out,
            (publishFileBackedVolume.attach E share vol target fsType flags ro
              fqdn notMnt s1 (share :: held)).host, held,
            [⟨.getVolumeLock share, .unit⟩] ++ pre ++
            (publishFileBackedVolume.attach E share vol target fsType flags ro
              fqdn notMnt s1 (share :: held)).trace ++ [⟨.releaseVolumeLock share, .unit⟩]⟩)) := by
  rcases h1 : E.IsLikelyNotMountPoint target s with ⟨b, e⟩
  have run : ∀ (notMnt : Bool) (s1 : σ),
      ∃ r, (publishFileBackedVolume.attach E share vol target fsType flags ro fqdn notMnt s1
          (share :: held)).out = .done r ∧
        (publishFileBackedVolume.attach E share vol target fsType flags ro fqdn notMnt s1
          (share :: held)).held = share :: held := by
    intro notMnt s1
    obtain ⟨hheldA, -, r, hout, -⟩ :=
      publishFileBackedVolume.attach_run E share vol target fsType flags ro fqdn notMnt s1
        (share :: held)
    exact ⟨r, hout, hheldA⟩
  cases e with
  | none =>
    obtain ⟨r, hout, hheldA⟩ := run b s
    refine ⟨[⟨.IsLikelyNotMountPoint target, .flag b none⟩], by simp [Call.kind],
      Or.inr ⟨by simp [Call.kind], b, s, ?_⟩⟩
    simp [publishFileBackedVolume, withDefer, getVolumeLock, releaseVolumeLock, hh,
      mounterIsLikelyNotMountPoint, query, bind, M.bind, h1, hout, hheldA, flagReply]
  | some err =>
    by_cases hne : osIsNotExist err = true
    · by_cases hfs : fsType = ""
      · subst hfs
        rcases h2 : E.MakeFile target s with ⟨e2, s2⟩
        cases e2 with
        | none =>
          obtain ⟨r, hout, hheldA⟩ := run true s2
          refine ⟨[⟨.IsLikelyNotMountPoint target, .flag b (some err)⟩,
            ⟨.MakeFile target, .err none⟩], by simp [Call.kind],
            Or.inr ⟨by simp [Call.kind, Reply.ok], true, s2, ?_⟩⟩
          simp [publishFileBackedVolume, withDefer, getVolumeLock, releaseVolumeLock, hh,
            mounterIsLikelyNotMountPoint, mounterMakeFile, action, query, bind, M.bind, h1, h2,
            hne, hout, hheldA, flagReply]
        | some err2 =>
          refine ⟨[⟨.IsLikelyNotMountPoint target, .flag b (some err)⟩,
            ⟨.MakeFile target, .err (some err2)⟩], by simp [Call.kind],
            Or.inl ⟨err2.Error, s2, ?_⟩⟩
          simp [publishFileBackedVolume, withDefer, getVolumeLock, releaseVolumeLock, hh,
            mounterIsLikelyNotMountPoint, mounterMakeFile, action, query, bind, M.bind, h1, h2,
            hne, flagReply, pure, M.pure]
      · rcases h2 : E.MakeDir target s with ⟨e2, s2⟩
        cases e2 with
        | none =>
          obtain ⟨r, hout, hheldA⟩ := run true s2
          refine ⟨[⟨.IsLikelyNotMountPoint target, .flag b (some err)⟩,
            ⟨.MakeDir target, .err none⟩], by simp [Call.kind],
            Or.inr ⟨by simp [Call.kind, Reply.ok], true, s2, ?_⟩⟩
          simp [publishFileBackedVolume, withDefer, getVolumeLock, releaseVolumeLock, hh,
            mounterIsLikelyNotMountPoint, mounterMakeDir, action, query, bind, M.bind, h1, h2,
            hne, hfs, hout, hheldA, flagReply]
        | some err2 =>
          refine ⟨[⟨.IsLikelyNotMountPoint target, .flag b (some err)⟩,
            ⟨.MakeDir target, .err (some err2)⟩], by simp [Call.kind],
            Or.inl ⟨err2.Error, s2, ?_⟩⟩
          simp [publishFileBackedVolume, withDefer, getVolumeLock, releaseVolumeLock, hh,
            mounterIsLikelyNotMountPoint, mounterMakeDir, action, query, bind, M.bind, h1, h2,
            hne, hfs, flagReply, pure, M.pure]
    · refine ⟨[⟨.IsLikelyNotMountPoint target, .flag b (some err)⟩], by simp [Call.kind],
        Or.inl ⟨err.Error, s, ?_⟩⟩
      simp [publishFileBackedVolume, withDefer, getVolumeLock, releaseVolumeLock, hh,
        mounterIsLikelyNotMountPoint, query, bind, M.bind, h1, hne, flagReply, pure, M.pure]

/-- The run of `publishShareBackedVolume.mount` on a target that is not a mount
point: either the bind mount from the staging path was made and verified and
the call succeeds without the data-portal selector, or the selector is called
once and decides the result. -/
theorem publishShareBackedVolume.mount_run (E : Env σ) (exportPath target staging : String)
    (flags : List String) (ro : Bool) (fqdn : String) (s : σ) (held : List String) :
    (publishShareBackedVolume.mount E exportPath target staging flags ro fqdn true s held).held
      = held ∧
    ∃ r, (publishShareBackedVolume.mount E exportPath target staging flags ro fqdn true
        s held).out = .done r ∧
      ((staging ≠ "" ∧ staging ≠ target ∧ r = none ∧
        ofKind .mount (publishShareBackedVolume.mount E exportPath target staging flags ro fqdn
          true s held).trace = [⟨.Mount staging target "" ["bind"], .err none⟩] ∧
        ofKind .mountCheck (publishShareBackedVolume.mount E exportPath target staging flags ro
          fqdn true s held).trace = [⟨.SafeIsLikelyNotMountPoint target, .flag false none⟩] ∧
        ofKind .dataportal (publishShareBackedVolume.mount E exportPath target staging flags ro
          fqdn true s held).trace = []) ∨
       (ofKind .dataportal (publishShareBackedVolume.mount E exportPath target staging flags ro
          fqdn true s held).trace =
          [⟨.MountShareAtBestDataportal exportPath target
            (if ro = true then flags ++ ["ro"] else flags) fqdn, .err r⟩] ∧
        ¬ (staging ≠ "" ∧ staging ≠ target ∧
          ofKind .mount (publishShareBackedVolume.mount E exportPath target staging flags ro
            fqdn true s held).trace = [⟨.Mount staging target "" ["bind"], .err none⟩] ∧
          ofKind .mountCheck (publishShareBackedVolume.mount E exportPath target staging flags
            ro fqdn true s held).trace =
            [⟨.SafeIsLikelyNotMountPoint target, .flag false none⟩]))) := by
  by_cases hatt : staging ≠ "" ∧ staging ≠ target
  · obtain ⟨hheld, hk, rb, hout, -, hok, -⟩ := BindMountDevice_run E staging target s held
    have hd := ofKind_eq_nil_of_kindsIn hk (show Kind.dataportal ∉ _ by decide)
    have hc := ofKind_eq_nil_of_kindsIn hk (show Kind.mountCheck ∉ _ by decide)
    cases rb with
    | some err =>
      rcases h3 : E.MountShareAtBestDataportal exportPath target
        (if ro = true then flags ++ ["ro"] else flags) fqdn
        (BindMountDevice E staging target s held).host with ⟨e3, s3⟩
      simp [publishShareBackedVolume.mount, MountShareAtBestDataportal, action, bind, M.bind,
        pure, M.pure, hatt, hout, hheld, hd, hc, h3, Call.kind]
    | none =>
      have hok2 := hok rfl
      rcases h2 : E.SafeIsLikelyNotMountPoint target (BindMountDevice E staging target s held).host
        with ⟨b2, e2⟩
      rcases h3 : E.MountShareAtBestDataportal exportPath target
        (if ro = true then flags ++ ["ro"] else flags) fqdn
        (BindMountDevice E staging target s held).host with ⟨e3, s3⟩
      cases e2 <;> cases b2 <;>
      simp [publishShareBackedVolume.mount, MountShareAtBestDataportal,
        SafeIsLikelyNotMountPoint, query, action, bind, M.bind,
        pure, M.pure, hatt, hout, hheld, hd, hc, hok2, h2, h3, Call.kind, flagReply]
  · rcases h3 : E.MountShareAtBestDataportal exportPath target
      (if ro = true then flags ++ ["ro"] else flags) fqdn s with ⟨e3, s3⟩
    simp [publishShareBackedVolume.mount, MountShareAtBestDataportal, action, bind, M.bind,
      pure, M.pure, hatt, h3, Call.kind]


/-! ### Locks -/

/-- The run of `publishShareBackedVolume`: it returns, keeps the locks and
makes no lock call. -/
theorem publishShareBackedVolume_run (E : Env σ) (exportPath target staging : String)
    (flags : List String) (ro : Bool) (fqdn : String) (s : σ) (held : List String) :
    (publishShareBackedVolume E exportPath target staging flags ro fqdn s held).held = held ∧
    (∃ r, (publishShareBackedVolume E exportPath target staging flags ro fqdn s held).out
      = .done r) ∧
    kindsIn [.mountCheck, .makeDest, .probe, .mount, .dataportal]
      (publishShareBackedVolume E exportPath target staging flags ro fqdn s held).trace := by
  have hmount : ∀ (notMnt : Bool) (s1 : σ),
      (publishShareBackedVolume.mount E exportPath target staging flags ro fqdn notMnt s1
        held).held = held ∧
      (∃ r, (publishShareBackedVolume.mount E exportPath target staging flags ro fqdn notMnt s1
        held).out = .done r) ∧
      kindsIn [.mountCheck, .makeDest, .probe, .mount, .dataportal]
        (publishShareBackedVolume.mount E exportPath target staging flags ro fqdn notMnt s1
          held).trace := by
    intro notMnt s1
    cases notMnt
    · simp [publishShareBackedVolume.mount, pure, M.pure]
    · by_cases hatt : staging ≠ "" ∧ staging ≠ target
      · obtain ⟨hheld, hk, rb, hout, -, -, -⟩ := BindMountDevice_run E staging target s1 held
        have hk2 := kindsIn_mono hk (show ∀ k ∈ [Kind.probe, .makeDest, .mount],
          k ∈ [Kind.mountCheck, .makeDest, .probe, .mount, .dataportal] by decide)
        rcases h2 : E.SafeIsLikelyNotMountPoint target
          (BindMountDevice E staging target s1 held).host with ⟨b2, e2⟩
        cases rb <;> cases e2 <;> cases b2 <;>
        simp [publishShareBackedVolume.mount, MountShareAtBestDataportal,
          SafeIsLikelyNotMountPoint, query, action, bind, M.bind,
          pure, M.pure, hatt, hout, hheld, hk2, h2, Call.kind, flagReply]
      · simp [publishShareBackedVolume.mount, MountShareAtBestDataportal, action, bind, M.bind,
          pure, M.pure, hatt, Call.kind]
  rcases h1 : E.SafeIsLikelyNotMountPoint target s with ⟨b, e⟩
  cases e with
  | none =>
    obtain ⟨hheld, ⟨r, hout⟩, hk⟩ := hmount b s
    simp [publishShareBackedVolume, SafeIsLikelyNotMountPoint, query, bind, M.bind, h1,
      flagReply, hout, hheld, hk, Call.kind]
  | some err =>
    by_cases hne : osIsNotExist err = true
    · rcases h2 : E.MkdirAll target 0o750 s with ⟨e2, s2⟩
      cases e2 with
      | some err2 =>
        simp [publishShareBackedVolume, SafeIsLikelyNotMountPoint, osMkdirAll, query, action,
          bind, M.bind, pure, M.pure, h1, h2, hne, flagReply, Call.kind]
      | none =>
        obtain ⟨hheld, ⟨r, hout⟩, hk⟩ := hmount true s2
        simp [publishShareBackedVolume, SafeIsLikelyNotMountPoint, osMkdirAll, query, action,
          bind, M.bind, pure, M.pure, h1, h2, hne, flagReply, hout, hheld, hk, Call.kind]
    · simp [publishShareBackedVolume, SafeIsLikelyNotMountPoint, query,
        bind, M.bind, pure, M.pure, h1, hne, flagReply, Call.kind]

/-- The lock events of `publishFileBackedVolume` run under the volume lock. -/
theorem publishFileBackedVolume_locks (E : Env σ) (share vol target fsType : String)
    (flags : List String) (ro : Bool) (fqdn : String) (s : σ) (key : String) :
    LockBody key (publishFileBackedVolume E share vol target fsType flags ro fqdn s [key]) := by
  by_cases hsh : share = key
  · right
    simp [publishFileBackedVolume, withDefer, getVolumeLock, hsh, bind, M.bind]
  · left
    have hh : share ∉ [key] := by simpa using hsh
    obtain ⟨pre, hk, ⟨msg, s1, hrun⟩ | ⟨-, notMnt, s1, hrun⟩⟩ :=
      publishFileBackedVolume_shape E share vol target fsType flags ro fqdn s [key] hh
    · have hpl := ofKind_eq_nil_of_kindsIn hk (show Kind.lock ∉ _ by decide)
      rw [hrun]
      refine ⟨⟨_, rfl⟩, rfl, Or.inr ⟨share, hsh, ?_⟩⟩
      simp [hpl, Call.kind]
    · have hpl := ofKind_eq_nil_of_kindsIn hk (show Kind.lock ∉ _ by decide)
      obtain ⟨-, hkA, r, hout, -⟩ :=
        publishFileBackedVolume.attach_run E share vol target fsType flags ro fqdn notMnt s1
          (share :: [key])
      have hAl := ofKind_eq_nil_of_kindsIn hkA (show Kind.lock ∉ _ by decide)
      rw [hrun]
      refine ⟨⟨r, hout⟩, rfl, Or.inr ⟨share, hsh, ?_⟩⟩
      simp [hpl, hAl, Call.kind]

/-- The lock events of `NodePublishVolume.dispatch` run under the volume lock. -/
theorem NodePublishVolume.dispatch_locks (E : Env σ) (req : NodePublishVolumeRequest)
    (volumeMode fsType : String) (mountFlags : List String) (fqdn : String) (s : σ)
    (key : String) :
    LockBody key (NodePublishVolume.dispatch E req volumeMode fsType mountFlags fqdn s [key]) := by
  by_cases hfs : fsType = "nfs"
  · obtain ⟨hheld, ⟨r, hout⟩, hk⟩ := publishShareBackedVolume_run E req.VolumeId req.TargetPath
      req.StagingTargetPath mountFlags req.Readonly fqdn s [key]
    have hl := ofKind_eq_nil_of_kindsIn hk (show Kind.lock ∉ _ by decide)
    left
    simp [NodePublishVolume.dispatch, hfs, bind, M.bind, pure, M.pure, hout, hheld, hl]
  · rcases publishFileBackedVolume_locks E
      (if volumeMode = "Block" then mapGet req.VolumeContext "blockBackingShareName"
        else mapGet req.VolumeContext "mountBackingShareName")
      req.VolumeId req.TargetPath fsType mountFlags req.Readonly fqdn s key
      with ⟨⟨r, hout⟩, hheld, hl⟩ | ⟨hout, hl⟩
    · left
      simp [NodePublishVolume.dispatch, hfs, bind, M.bind, pure, M.pure, hout, hheld, hl]
    · right
      simp [NodePublishVolume.dispatch, hfs, bind, M.bind, pure, M.pure, hout, hl]

/-- The run of `UnmountFilesystem`: it returns, keeps the locks and makes no
lock call. -/
theorem UnmountFilesystem_run (E : Env σ) (target : String) (s : σ) (held : List String) :
    (UnmountFilesystem E target s held).held = held ∧
    (∃ r, (UnmountFilesystem E target s held).out = .done r) ∧
    kindsIn [.mountCheck, .unmount, .remove] (UnmountFilesystem E target s held).trace := by
  rcases h1 : E.IsNotMountPoint target s with ⟨b, e⟩
  rcases h2 : E.Unmount target s with ⟨e2, s2⟩
  rcases h3 : E.Remove target s2 with ⟨e3, s3⟩
  cases e with
  | some err =>
    by_cases hne : osIsNotExist err = true <;>
    simp [UnmountFilesystem, IsShareMounted, mountIsNotMountPoint, query, bind, M.bind, pure,
      M.pure, h1, hne, flagReply, Call.kind]
  | none =>
    cases b <;> cases e2 <;> cases e3 <;>
    simp [UnmountFilesystem, IsShareMounted, mountIsNotMountPoint, mounterUnmount, osRemove,
      query, action, bind, M.bind, pure, M.pure, h1, h2, h3, flagReply, Call.kind]

/-- The lock events of `unpublishFileBackedVolume` run under the volume lock. -/
theorem unpublishFileBackedVolume_locks (E : Env σ) (vol target : String) (s : σ)
    (key : String) :
    LockBody key (unpublishFileBackedVolume E vol target s [key]) := by
  by_cases hsh : E.filepathDir vol = key
  · right
    simp [unpublishFileBackedVolume, withDefer, getVolumeLock, hsh, bind, M.bind]
  · left
    have hh : E.filepathDir vol ∉ [key] := by simpa using hsh
    rcases h0 : E.unixStat target s with err | rdev
    · refine ⟨?_, ?_, Or.inr ⟨E.filepathDir vol, hsh, ?_⟩⟩ <;>
      simp [unpublishFileBackedVolume, withDefer, getVolumeLock, releaseVolumeLock, hh, hsh,
        GetDeviceMinorNumber, unixStat, query, bind, M.bind, pure, M.pure, h0,
        numReply, Call.kind]
    · rcases h1 : E.Command "umount" ["-f", target] s with ⟨⟨o1, e1⟩, s1⟩
      rcases h2 : E.Remove target s1 with ⟨e2, s2⟩
      rcases h3 : E.Command "losetup" ["-d", "/dev/loop" ++ toString (unixMinor rdev)] s2
        with ⟨⟨o3, e3⟩, s3⟩
      rcases h4 : E.UnmountBackingShareIfUnused (E.filepathDir vol) s3
        with ⟨⟨b4, e4⟩, s4⟩
      cases e1 <;> cases e2 <;> cases e3 <;> cases e4 <;>
      (refine ⟨?_, ?_, Or.inr ⟨E.filepathDir vol, hsh, ?_⟩⟩ <;>
       simp [unpublishFileBackedVolume, withDefer, getVolumeLock, releaseVolumeLock, hh, hsh,
         GetDeviceMinorNumber, unixStat, ExecCommand, execCombinedOutput, osRemove,
         UnmountBackingShareIfUnused, query, action, bind, M.bind, pure, M.pure, h0, h1,
         h2, h3, h4, numReply, textReply, flagReply, Call.kind])

/-- The lock events of the `switch` that ends `NodeUnpublishVolume`, run under
the volume lock. -/
theorem NodeUnpublishVolume.byType_locks (E : Env σ) (req : NodeUnpublishVolumeRequest)
    (target : String) (fi : FileInfo) (s : σ) (key : String) :
    LockBody key (NodeUnpublishVolume.byType E req target fi s [key]) := by
  by_cases hb : E.IsBlockDevice fi = true
  · rcases unpublishFileBackedVolume_locks E req.VolumeId target s key
      with ⟨⟨r, hout⟩, hheld, hl⟩ | ⟨hout, hl⟩
    · left
      cases r <;>
      simp [NodeUnpublishVolume.byType, hb, bind, M.bind, pure, M.pure, hout, hheld, hl]
    · right
      simp [NodeUnpublishVolume.byType, hb, bind, M.bind, pure, M.pure, hout, hl]
  · left
    by_cases hd : fi.IsDir = true
    · obtain ⟨hheld, ⟨r, hout⟩, hk⟩ := UnmountFilesystem_run E target s [key]
      have hl := ofKind_eq_nil_of_kindsIn hk (show Kind.lock ∉ _ by decide)
      cases r <;>
      simp [NodeUnpublishVolume.byType, hb, hd, bind, M.bind, pure, M.pure, hout, hheld, hl]
    · rcases h1 : E.Remove target s with ⟨e1, s1⟩
      cases e1 <;>
      simp [NodeUnpublishVolume.byType, hb, hd, osRemove, action, bind, M.bind, pure, M.pure,
        h1, Call.kind]

/-- The lock events of the body of `NodeUnpublishVolume`, run under the volume
lock. -/
theorem NodeUnpublishVolume.body_locks (E : Env σ) (req : NodeUnpublishVolumeRequest)
    (s : σ) (key : String) (body : M σ (Option NodeUnpublishVolumeResponse × Option GoError))
    (hbody : body = (do
      let targetPath := req.TargetPath
      let st ← osLstat E targetPath
      match st with
      | .error err =>
        if osIsNotExist err then pure (some {}, none)
        else pure (none, some (statusError .Internal ("error stating target path: " ++ err.Error)))
      | .ok fi =>
        if fi.mode &&& ModeSymlink != 0 then do
          let rs ← filepathEvalSymlinks E targetPath
          match rs with
          | .error _ => do
            let rmErr ← osRemove E targetPath
            match rmErr with
            | some rmErr => pure (none, some (statusError .Internal
                ("failed to remove broken symlink: " ++ rmErr.Error)))
            | none => pure (some {}, none)
          | .ok resolvedPath => do
            let st2 ← osStat E resolvedPath
            match st2 with
            | .error err => pure (none, some (statusError .Internal
                ("failed to stat resolved path: " ++ err.Error)))
            | .ok fi2 => NodeUnpublishVolume.byType E req resolvedPath fi2
        else NodeUnpublishVolume.byType E req targetPath fi)) :
    LockBody key (body s [key]) := by
  subst hbody
  have hbt : ∀ (target : String) (fi : FileInfo) (pre : List Event), ofKind .lock pre = [] →
      ∀ X : Run σ (Option NodeUnpublishVolumeResponse × Option GoError),
      X = ⟨(NodeUnpublishVolume.byType E req target fi s [key]).out,
        (NodeUnpublishVolume.byType E req target fi s [key]).host,
        (NodeUnpublishVolume.byType E req target fi s [key]).held,
        pre ++ (NodeUnpublishVolume.byType E req target fi s [key]).trace⟩ →
      LockBody key X := by
    intro target fi pre hpre X hX
    subst hX
    rcases NodeUnpublishVolume.byType_locks E req target fi s key
      with ⟨⟨r, hout⟩, hheld, hl⟩ | ⟨hout, hl⟩
    · left
      exact ⟨⟨r, hout⟩, hheld, by simpa [hpre] using hl⟩
    · right
      exact ⟨hout, by simpa [hpre] using hl⟩
  rcases h1 : E.Lstat req.TargetPath s with err | fi
  · left
    by_cases hne : osIsNotExist err = true <;>
    simp [osLstat, query, bind, M.bind, pure, M.pure, h1, hne, infoReply, Call.kind]
  · by_cases hsym : fi.mode &&& ModeSymlink = 0
    · apply hbt req.TargetPath fi [⟨.Lstat req.TargetPath, .info (some fi) none⟩]
        (by simp [Call.kind])
      rcases NodeUnpublishVolume.byType_locks E req req.TargetPath fi s key
        with ⟨⟨r, hout⟩, hheld, hl⟩ | ⟨hout, hl⟩ <;>
      simp [osLstat, query, bind, M.bind, pure, M.pure, h1, hsym, infoReply, hout]
    · rcases h2 : E.EvalSymlinks req.TargetPath s with err2 | resolved
      · left
        rcases h3 : E.Remove req.TargetPath s with ⟨e3, s3⟩
        cases e3 <;>
        simp [osLstat, filepathEvalSymlinks, osRemove, query, action, bind, M.bind, pure,
          M.pure, h1, h2, h3, hsym, infoReply, pathReply, Call.kind]
      · rcases h3 : E.Stat resolved s with err3 | fi2
        · left
          simp [osLstat, filepathEvalSymlinks, osStat, query, bind, M.bind, pure,
            M.pure, h1, h2, h3, hsym, infoReply, pathReply, Call.kind]
        · apply hbt resolved fi2 [⟨.Lstat req.TargetPath, .info (some fi) none⟩,
            ⟨.EvalSymlinks req.TargetPath, .text resolved none⟩,
            ⟨.Stat resolved, .info (some fi2) none⟩] (by simp [Call.kind])
          rcases NodeUnpublishVolume.byType_locks E req resolved fi2 s key
            with ⟨⟨r, hout⟩, hheld, hl⟩ | ⟨hout, hl⟩ <;>
          simp [osLstat, filepathEvalSymlinks, osStat, query, bind, M.bind, pure,
            M.pure, h1, h2, h3, hsym, infoReply, pathReply, hout]

/-- The last event of a trace that ends with a given event. -/
theorem getLast?_cons_append_singleton (a b : Event) (t : List Event) :
    (a :: (t ++ [b])).getLast? = some b := by
  rw [← List.cons_append, List.getLast?_append]
  simp

/-- A handler that takes the volume lock, runs a body and releases the lock on
return is well nested when the body is. -/
theorem lockNested_of_body {α : Type} (vol : String) (body : M σ α) (s : σ)
    (hB : LockBody vol (body s [vol])) :
    LockNested vol
      (withDefer (releaseVolumeLock vol) (getVolumeLock vol >>= fun _ => body) s []) := by
  rcases hB with ⟨⟨r, hout⟩, hheld, hl | ⟨sh, hsh, hl⟩⟩ | ⟨hout, hl⟩
  · simp [LockNested, withDefer, getVolumeLock, releaseVolumeLock, bind, M.bind, hout, hheld, hl,
      Call.kind, getLast?_cons_append_singleton]
  · refine ⟨?_, Or.inl ⟨?_, ?_, ?_, Or.inr ⟨sh, hsh, ?_⟩⟩⟩ <;>
    simp [withDefer, getVolumeLock, releaseVolumeLock, bind, M.bind, hout, hheld, hl,
      Call.kind, getLast?_cons_append_singleton]
  · simp [LockNested, withDefer, getVolumeLock, releaseVolumeLock, bind, M.bind, hout, hl,
      Call.kind]

/-! ### Universal addresses -/

/-- The digit of zero. -/
theorem digitChar_zero : Nat.digitChar 0 = '0' := rfl

/-- The four hexadecimal digits of a 16-bit number, as `fmt` pads them. -/
theorem padZeros_formatUint_hex (n : Nat) (h : n < 65536) :
    padZeros 4 (formatUint n 16) =
      [Nat.digitChar (n / 4096), Nat.digitChar (n / 256 % 16), Nat.digitChar (n / 16 % 16),
       Nat.digitChar (n % 16)] := by
  by_cases h1 : n < 16
  · have e1 : n / 4096 = 0 := by omega
    have e2 : n / 256 = 0 := by omega
    have e3 : n / 16 = 0 := by omega
    have e4 : n % 16 = n := by omega
    have h1' : ¬ n ≥ 16 := by omega
    simp [formatUint, formatBitsLoop, padZeros, h1', e1, e2, e3, e4, digitChar_zero]
  · by_cases h2 : n < 256
    · have e1 : n / 4096 = 0 := by omega
      have e2 : n / 256 = 0 := by omega
      have e3 : n / 16 % 16 = n / 16 := by omega
      have h1' : n ≥ 16 := by omega
      have h2' : ¬ n / 16 ≥ 16 := by omega
      simp [formatUint, formatBitsLoop, padZeros, h1', h2', e1, e2, e3, digitChar_zero]
    · by_cases h3 : n < 4096
      · have e1 : n / 4096 = 0 := by omega
        have e2 : n / 256 % 16 = n / 256 := by omega
        have e5 : n / 16 / 16 = n / 256 := by omega
        have h1' : n ≥ 16 := by omega
        have h2' : n / 16 ≥ 16 := by omega
        have h3' : ¬ n / 256 ≥ 16 := by omega
        simp [formatUint, formatBitsLoop, padZeros, h1', h2', h3', e1, e2, e5, digitChar_zero]
      · have e5 : n / 16 / 16 = n / 256 := by omega
        have e6 : n / 256 / 16 = n / 4096 := by omega
        have h1' : n ≥ 16 := by omega
        have h2' : n / 16 ≥ 16 := by omega
        have h3' : n / 256 ≥ 16 := by omega
        have h4' : ¬ n / 4096 ≥ 16 := by omega
        simp [formatUint, formatBitsLoop, padZeros, h1', h2', h3', h4', e5, e6]

set_option maxRecDepth 100000 in
/-- Two hexadecimal digits are read back by `strconv.ParseInt` as their value. -/
theorem parseHexPair : ∀ x < 16, ∀ y < 16,
    strconvParseInt (String.mk [Nat.digitChar x, Nat.digitChar y]) 16 =
      (((16 * x + y : Nat) : Int), false) := by
  decide

/-- The loop of `parseIPv4` adds one byte per round. -/
theorem parseIPv4Loop_length (fuel : Nat) : ∀ (s : List Char) (i : Nat) (acc bytes : List Nat),
    parseIPv4Loop fuel s i acc = some bytes → bytes.length = acc.length + fuel := by
  induction fuel with
  | zero =>
    intro s i acc bytes h
    simp only [parseIPv4Loop] at h
    split at h
    · cases h
    · cases h; simp
  | succ fuel ih =>
    intro s i acc bytes h
    simp only [parseIPv4Loop] at h
    split at h
    · cases h
    · split at h
      · cases h
      · split at h
        · cases h
        · split at h
          · cases h
          · have := ih _ _ _ _ h
            simp at this
            omega

/-- The function `parseIPv4` gives 16 bytes. -/
theorem parseIPv4_length (s : List Char) (ip : List Nat) (h : parseIPv4 s = some ip) :
    ip.length = 16 := by
  simp only [parseIPv4] at h
  split at h
  · rename_i bytes hb
    have := parseIPv4Loop_length 4 _ _ _ _ hb
    cases h
    simp [v4InV6, this]
  · cases h

/-- The loop of `parseIPv6` never stores more than 16 bytes, and the ellipsis
lies within the bytes stored. -/
theorem parseIPv6Loop_length (fuel : Nat) : ∀ (s : List Char) (acc : List Nat) (ell : Option Nat)
    (rest : List Char) (acc2 : List Nat) (ell2 : Option Nat),
    acc.length % 2 = 0 → acc.length ≤ 16 → (∀ e, ell = some e → e ≤ acc.length) →
    parseIPv6Loop fuel s acc ell = some (rest, acc2, ell2) →
    acc2.length ≤ 16 ∧ (∀ e, ell2 = some e → e ≤ acc2.length) := by
  induction fuel with
  | zero =>
    intro s acc ell rest acc2 ell2 hev hle hell h
    simp only [parseIPv6Loop] at h
    cases h
    exact ⟨hle, hell⟩
  | succ fuel ih =>
    intro s acc ell rest acc2 ell2 hev hle hell h
    simp only [parseIPv6Loop] at h
    split at h
    · cases h
      exact ⟨hle, hell⟩
    · rename_i hlt
      split at h
      · cases h
      · split at h
        · split at h
          · cases h
          · split at h
            · cases h
            · split at h
              · cases h
              · rename_i ip4 hip4
                have hl := parseIPv4_length _ _ hip4
                cases h
                constructor
                · simp [hl]; omega
                · intro e he
                  have := hell e he
                  simp [hl]; omega
        · have hlen : (acc ++ [((xtoi s).1 >>> 8) % 256, (xtoi s).1 % 256]).length
              = acc.length + 2 := by simp
          have hlt2 : acc.length + 2 ≤ 16 := by
            have : acc.length < 16 := by simpa using hlt
            omega
          split at h
          · cases h
            refine ⟨by simpa using hlt2, ?_⟩
            intro e he
            have := hell e he
            simp; omega
          · split at h
            · cases h
            · split at h
              · split at h
                · cases h
                · split at h
                  · cases h
                    refine ⟨by simpa using hlt2, ?_⟩
                    intro e he
                    cases he
                    simp
                  · refine ih _ _ _ _ _ _ ?_ ?_ ?_ h
                    · simp; omega
                    · simpa using hlt2
                    · intro e he
                      cases he
                      simp
              · refine ih _ _ _ _ _ _ ?_ ?_ ?_ h
                · simp; omega
                · simpa using hlt2
                · intro e he
                  have := hell e he
                  simp; omega

/-- The end of `parseIPv6`, after the loop, gives 16 bytes. -/
theorem parseIPv6_tail (s0 : List Char) (ell0 : Option Nat) (hell0 : ell0 = none ∨ ell0 = some 0)
    (ip : List Nat)
    (h : (match parseIPv6Loop 8 s0 [] ell0 with
      | none => none
      | some (rest, acc, ell) =>
        if rest.length ≠ 0 then none
        else if acc.length < 16 then
          match ell with
          | none => none
          | some e => some (acc.take e ++ List.replicate (16 - acc.length) 0 ++ acc.drop e)
        else if ell.isSome then none
        else some acc) = some ip) : ip.length = 16 := by
  cases hloop : parseIPv6Loop 8 s0 [] ell0 with
  | none => simp [hloop] at h
  | some res =>
    obtain ⟨rest, acc, ell⟩ := res
    have hinv := parseIPv6Loop_length 8 s0 [] ell0 rest acc ell (by simp) (by simp)
      (by rcases hell0 with h0 | h0 <;> simp [h0]) hloop
    simp only [hloop] at h
    split at h
    · cases h
    · split at h
      · cases hell : ell with
        | none => simp [hell] at h
        | some e =>
          simp only [hell] at h
          cases h
          have := hinv.2 e hell
          simp
          omega
      · split at h
        · cases h
        · cases h
          have := hinv.1
          omega

/-- The function `parseIPv6` gives 16 bytes. -/
theorem parseIPv6_length (s : List Char) (ip : List Nat) (h : parseIPv6 s = some ip) :
    ip.length = 16 := by
  by_cases hlead : s.length ≥ 2 ∧ s.head? = some ':' ∧ s.get? 1 = some ':'
  · have hl := eq_true hlead
    by_cases hz : (s.drop 2).length = 0
    · simp only [parseIPv6, hl, hz, and_self, if_true] at h
      cases h
      simp
    · have hzf := eq_false hz
      simp only [parseIPv6, hl, hzf, and_false, if_true, if_false] at h
      exact parseIPv6_tail _ _ (Or.inr rfl) _ h
  · have hl := eq_false hlead
    simp only [parseIPv6, hl, false_and, if_false] at h
    exact parseIPv6_tail _ _ (Or.inl rfl) _ h

/-- The scan of `net.ParseIP` gives 16 bytes. -/
theorem parseIPScan_length (whole : List Char) : ∀ (s : List Char) (ip : List Nat),
    parseIPScan whole s = some ip → ip.length = 16 := by
  intro s
  induction s with
  | nil => intro ip h; simp [parseIPScan] at h
  | cons c cs ih =>
    intro ip h
    simp only [parseIPScan] at h
    split at h
    · exact parseIPv4_length _ _ h
    · split at h
      · exact parseIPv6_length _ _ h
      · exact ih _ h

/-- An address parsed by `net.ParseIP` has 16 bytes. -/
theorem netParseIP_length (s : String) (ip : List Nat) (h : netParseIP s = some ip) :
    ip.length = 16 :=
  parseIPScan_length _ _ _ h


/-! ### Dotted quads -/

set_option maxRecDepth 100000 in
/-- The decimal text of a number below 256: digits only, read back by `dtoi`
as the number, without a leading zero. -/
theorem formatUint_octet : ∀ a < 256,
    (∀ c ∈ formatUint a 10, '0' ≤ c ∧ c ≤ '9') ∧
    dtoi (formatUint a 10) = (a, (formatUint a 10).length, true) ∧
    ((formatUint a 10).length > 1 → (formatUint a 10).head? ≠ some '0') ∧
    formatUint a 10 ≠ [] := by
  decide

/-- Digits followed by something that is not a digit are read by `dtoi` as the
digits alone. -/
theorem dtoiLoop_append (ds r : List Char) (hd : ∀ c ∈ ds, '0' ≤ c ∧ c ≤ '9')
    (hr : ∀ c, r.head? = some c → ¬ ('0' ≤ c ∧ c ≤ '9')) :
    ∀ n i, dtoiLoop (ds ++ r) n i = dtoiLoop ds n i := by
  induction ds with
  | nil =>
    intro n i
    cases r with
    | nil => rfl
    | cons c t =>
      have := hr c rfl
      simp [dtoiLoop, this]
  | cons c t ih =>
    intro n i
    have hc := hd c (by simp)
    have ih2 := ih (fun x hx => hd x (by simp [hx]))
    simp only [List.cons_append, dtoiLoop, hc, and_self, if_true]
    split
    · rfl
    · exact ih2 _ _

/-- One round of `parseIPv4Loop` on the decimal text of an octet followed by
the rest of the address (empty, or starting with a dot). -/
theorem parseIPv4Loop_octet (fuel a : Nat) (ha : a < 256) (r : List Char)
    (hr : ∀ c, r.head? = some c → c = '.') (acc : List Nat) :
    parseIPv4Loop (fuel + 1) (formatUint a 10 ++ r) 0 acc =
      parseIPv4Loop fuel r 1 (acc ++ [a]) ∧
    ∀ i, i > 0 → parseIPv4Loop (fuel + 1) ('.' :: (formatUint a 10 ++ r)) i acc =
      parseIPv4Loop fuel r (i + 1) (acc ++ [a]) := by
  obtain ⟨hd, hval, hlead, hne⟩ := formatUint_octet a ha
  have hr2 : ∀ c, r.head? = some c → ¬ ('0' ≤ c ∧ c ≤ '9') := by
    intro c hc
    rw [hr c hc]
    decide
  have hdt : dtoi (formatUint a 10 ++ r) = (a, (formatUint a 10).length, true) := by
    rw [← hval]
    exact dtoiLoop_append _ _ hd hr2 0 0
  have hlen : (formatUint a 10 ++ r).length ≠ 0 := by
    simp [hne]
  have hhead : (formatUint a 10 ++ r).head? = (formatUint a 10).head? := by
    cases hds : formatUint a 10 with
    | nil => exact absurd hds hne
    | cons c t => rfl
  have h255 : ¬ a > 255 := by omega
  have hz : ¬ ((formatUint a 10).length > 1 ∧ (formatUint a 10).head? = some '0') := by
    intro h
    exact hlead h.1 h.2
  constructor
  · simp only [parseIPv4Loop]
    simp [hne, hdt, h255, hhead, hz]
  · intro i hi
    simp only [parseIPv4Loop]
    simp [hi, hdt, h255, hhead, hz]

/-- Scanning for the first dot or colon over digits and then a dot picks the
IPv4 parser. -/
theorem parseIPScan_digits (whole ds r : List Char) (hd : ∀ c ∈ ds, '0' ≤ c ∧ c ≤ '9') :
    parseIPScan whole (ds ++ '.' :: r) = parseIPv4 whole := by
  induction ds with
  | nil => simp [parseIPScan]
  | cons c t ih =>
    have hc := hd c (by simp)
    have h1 : c ≠ '.' := by
      intro h; rw [h] at hc; exact absurd hc (by decide)
    have h2 : c ≠ ':' := by
      intro h; rw [h] at hc; exact absurd hc (by decide)
    simp only [List.cons_append, parseIPScan, h1, h2, if_false]
    exact ih (fun x hx => hd x (by simp [hx]))

/-- Cutting at dots: digits followed by a dot are the first piece. -/
theorem splitChars_digits (ds r : List Char) (hd : ∀ c ∈ ds, '0' ≤ c ∧ c ≤ '9') :
    splitChars '.' (ds ++ '.' :: r) = ds :: splitChars '.' r := by
  induction ds with
  | nil => simp [splitChars]
  | cons c t ih =>
    have hc := hd c (by simp)
    have h1 : c ≠ '.' := by
      intro h; rw [h] at hc; exact absurd hc (by decide)
    have ih2 := ih (fun x hx => hd x (by simp [hx]))
    simp only [List.cons_append, splitChars, h1, if_false, List.append_eq, ih2]

/-- Cutting at dots: digits alone are one piece. -/
theorem splitChars_digits_end (ds : List Char) (hd : ∀ c ∈ ds, '0' ≤ c ∧ c ≤ '9') :
    splitChars '.' ds = [ds] := by
  induction ds with
  | nil => simp [splitChars]
  | cons c t ih =>
    have hc := hd c (by simp)
    have h1 : c ≠ '.' := by
      intro h; rw [h] at hc; exact absurd hc (by decide)
    have ih2 := ih (fun x hx => hd x (by simp [hx]))
    simp only [splitChars, h1, if_false, ih2]

/-- The characters of a dotted quad. -/
theorem dotted_toList (a b c d : Nat) :
    (fmtInt a ++ "." ++ fmtInt b ++ "." ++ fmtInt c ++ "." ++ fmtInt d).toList =
      formatUint a 10 ++ '.' :: (formatUint b 10 ++ '.' :: (formatUint c 10 ++
        '.' :: (formatUint d 10 ++ []))) := by
  have hn : ∀ n : Nat, ¬ ((n : Int) < 0) := by
    intro n
    omega
  simp [fmtInt, strconvFormatInt, String.toList, hn]

/-- The address `a.b.c.d` is classified as IPv4 and has four fields. -/
theorem dotted_is_ipv4 (a b c d : Nat) (ha : a < 256) (hb : b < 256) (hc : c < 256)
    (hd : d < 256) :
    checkIPType (fmtInt a ++ "." ++ fmtInt b ++ "." ++ fmtInt c ++ "." ++ fmtInt d) =
      ("IPv4", none) ∧
    (stringsSplit (fmtInt a ++ "." ++ fmtInt b ++ "." ++ fmtInt c ++ "." ++ fmtInt d)
      '.').length = 4 := by
  have hl := dotted_toList a b c d
  have da := (formatUint_octet a ha).1
  have db := (formatUint_octet b hb).1
  have dc := (formatUint_octet c hc).1
  have dd := (formatUint_octet d hd).1
  have hdot : ∀ (t : List Char) (x : Char), ('.' :: t).head? = some x → x = '.' := by
    intro t x hx
    simpa using hx.symm
  have hnil : ∀ (x : Char), ([] : List Char).head? = some x → x = '.' := by
    intro x hx
    cases hx
  constructor
  · have hparse : netParseIP (fmtInt a ++ "." ++ fmtInt b ++ "." ++ fmtInt c ++ "." ++ fmtInt d)
        = some (v4InV6 ++ [a, b, c, d]) := by
      unfold netParseIP
      rw [hl, parseIPScan_digits _ _ _ da]
      unfold parseIPv4
      rw [(parseIPv4Loop_octet 3 a ha _ (hdot _) []).1,
        (parseIPv4Loop_octet 2 b hb _ (hdot _) _).2 1 (by decide),
        (parseIPv4Loop_octet 1 c hc _ (hdot _) _).2 2 (by decide),
        (parseIPv4Loop_octet 0 d hd _ hnil _).2 3 (by decide)]
      simp [parseIPv4Loop]
    simp [checkIPType, hparse, ipTo4, v4InV6]
  · unfold stringsSplit
    rw [hl, splitChars_digits _ _ da, splitChars_digits _ _ db, splitChars_digits _ _ dc,
      List.append_nil, splitChars_digits_end _ dd]
    rfl

/-! ### The claims -/

/-- C1: `NodeUnpublishVolume` with a non-empty volume ID and a non-empty target
path that does not exist on the host returns success, leaves the host as it
was, and its only calls are taking the volume lock, the failed `Lstat` and
releasing the lock (no unmount, no removal, no loop detach, no share release);
so the same call made again right after returns the same success. -/
theorem C1_unpublish_missing_target_is_success (E : Env σ) (req : NodeUnpublishVolumeRequest)
    (s : σ) (err : GoError) (hv : req.VolumeId ≠ "") (ht : req.TargetPath ≠ "")
    (hl : E.Lstat req.TargetPath s = .error err) (hne : osIsNotExist err = true) :
    NodeUnpublishVolume E req s [] =
      ⟨.done (some {}, none), s, [],
        [⟨.getVolumeLock req.VolumeId, .unit⟩,
         ⟨.Lstat req.TargetPath, .info none (some err)⟩,
         ⟨.releaseVolumeLock req.VolumeId, .unit⟩]⟩ ∧
    NodeUnpublishVolume E req (NodeUnpublishVolume E req s []).host
        (NodeUnpublishVolume E req s []).held =
      NodeUnpublishVolume E req s [] := by
  have ht2 := String.length_ne_zero_of_ne_empty ht
  have h1 : NodeUnpublishVolume E req s [] =
      ⟨.done (some {}, none), s, [],
        [⟨.getVolumeLock req.VolumeId, .unit⟩,
         ⟨.Lstat req.TargetPath, .info none (some err)⟩,
         ⟨.releaseVolumeLock req.VolumeId, .unit⟩]⟩ := by
    simp [NodeUnpublishVolume, hv, ht2, withDefer, getVolumeLock, releaseVolumeLock, osLstat,
      query, hl, hne, infoReply, bind, M.bind, pure, M.pure]
  refine ⟨h1, ?_⟩
  rw [h1]
  exact h1

/-- C1 on the host without files, for volume `vol-1` published at `/pods/p1/v`. -/
theorem C1_unpublish_missing_target_witness :
    (("vol-1" : String) ≠ "" ∧ ("/pods/p1/v" : String) ≠ "") ∧
    (NodeUnpublishVolume emptyEnv ⟨"vol-1", "/pods/p1/v"⟩ () [] =
      ⟨.done (some {}, none), (), [],
        [⟨.getVolumeLock "vol-1", .unit⟩,
         ⟨.Lstat "/pods/p1/v", .info none (some enoent)⟩,
         ⟨.releaseVolumeLock "vol-1", .unit⟩]⟩ ∧
    NodeUnpublishVolume emptyEnv ⟨"vol-1", "/pods/p1/v"⟩
        (NodeUnpublishVolume emptyEnv ⟨"vol-1", "/pods/p1/v"⟩ () []).host
        (NodeUnpublishVolume emptyEnv ⟨"vol-1", "/pods/p1/v"⟩ () []).held =
      NodeUnpublishVolume emptyEnv ⟨"vol-1", "/pods/p1/v"⟩ () []) :=
  ⟨⟨by decide, by decide⟩,
    C1_unpublish_missing_target_is_success emptyEnv ⟨"vol-1", "/pods/p1/v"⟩ () enoent
      (by decide) (by decide) rfl rfl⟩

/-- C2 (what the code does): `NodeUnstageVolume` with a non-empty volume ID and
staging path whose staging path does not exist on the host (the mount-point
check reports a not-exist error) returns an `Internal` error, because
`UnmountFilesystem` hands back a status error, which `os.IsNotExist` never
recognises. -/
theorem C2_unstage_missing_path_returns_internal (E : Env σ) (req : NodeUnstageVolumeRequest)
    (s : σ) (b : Bool) (err : GoError) (hv : req.VolumeId ≠ "")
    (hp : req.StagingTargetPath ≠ "")
    (hm : E.IsNotMountPoint req.StagingTargetPath s = (b, some err))
    (hne : osIsNotExist err = true) :
    NodeUnstageVolume E req s [] =
      ⟨.done (none, some (statusError .Internal
          ("Failed to unmount staging target path " ++ req.StagingTargetPath ++ ": " ++
            (statusError .Internal (statusError .NotFound E.EmptyTargetPath).Error).Error))),
        s, [], [⟨.IsNotMountPoint req.StagingTargetPath, .flag b (some err)⟩]⟩ := by
  simp [NodeUnstageVolume, hv, hp, UnmountFilesystem, IsShareMounted, mountIsNotMountPoint,
    query, hm, hne, flagReply, bind, M.bind, pure, M.pure]

/-- C2 on the host without files, for volume `vol-1` staged at `/staging/v1`. -/
theorem C2_unstage_missing_path_witness :
    (("vol-1" : String) ≠ "" ∧ ("/staging/v1" : String) ≠ "") ∧
    (NodeUnstageVolume emptyEnv ⟨"vol-1", "/staging/v1"⟩ () []).out =
      .done (none, some (statusError .Internal
        ("Failed to unmount staging target path /staging/v1: " ++
          "rpc error: code = Internal desc = " ++
          "rpc error: code = NotFound desc = Target path must be provided"))) :=
  ⟨⟨by decide, by decide⟩,
    congrArg Run.out (C2_unstage_missing_path_returns_internal emptyEnv
      ⟨"vol-1", "/staging/v1"⟩ () true enoent (by decide) (by decide) rfl rfl)⟩

/-- C3 (what the code does): when the volume name resolves to a share whose
export path is a mount point, `NodeExpandVolume` issues no command at all, but
returns neither an error nor a response: the requested size is not reported. -/
theorem C3_expand_share_backed_returns_nothing (E : Env σ) (req : NodeExpandVolumeRequest)
    (s : σ) (share : ShareResponse) (e : Option GoError)
    (hs : E.GetShare (E.GetVolumeNameFromPath req.VolumeId) s = (some share, e))
    (hm : E.IsNotMountPoint share.ExportPath s = (false, none)) :
    NodeExpandVolume E req s [] =
      ⟨.done (none, none), s, [],
        [⟨.GetShare (E.GetVolumeNameFromPath req.VolumeId), .share (some share) e⟩,
         ⟨.IsNotMountPoint share.ExportPath, .flag false none⟩]⟩ := by
  simp [NodeExpandVolume, hsclientGetShare, query, hs, IsShareMounted, mountIsNotMountPoint,
    hm, flagReply, bind, M.bind, pure, M.pure, NodeExpandVolume.resize]

/-- C3 on a host with a mounted share: a request for 2 GiB gets no response. -/
theorem C3_expand_share_backed_witness :
    (NodeExpandVolume shareMountedEnv
      ⟨"/vols/a", some ⟨2147483648, 0⟩, some ⟨some (.Mount ⟨"nfs", []⟩)⟩⟩ () []).out =
      .done (none, none) :=
  congrArg Run.out (C3_expand_share_backed_returns_nothing shareMountedEnv
    ⟨"/vols/a", some ⟨2147483648, 0⟩, some ⟨some (.Mount ⟨"nfs", []⟩)⟩⟩ ()
    { Name := "/vols/a", ExportPath := "/exports/a" } none rfl rfl)

/-- C4: `NodeExpandVolume` fails with `InvalidArgument` without running any
command when the cluster finds no share for the volume name and reports no
backing file for the volume ID; it fails with `FailedPrecondition` without
running any command when a share is found whose export path is not a local
mount point (the check says so or fails). -/
theorem C4_expand_unresolved_or_unmounted (E : Env σ) (req : NodeExpandVolumeRequest) (s : σ) :
    (∀ e1 e2, E.GetShare (E.GetVolumeNameFromPath req.VolumeId) s = (none, e1) →
      E.DoesFileExist req.VolumeId s = (false, e2) →
      NodeExpandVolume E req s [] =
        ⟨.done (none, some (statusError .InvalidArgument E.VolumeNotFound)), s, [],
          [⟨.GetShare (E.GetVolumeNameFromPath req.VolumeId), .share none e1⟩,
           ⟨.DoesFileExist req.VolumeId, .flag false e2⟩]⟩) ∧
    (∀ share e1 notMnt e2, E.GetShare (E.GetVolumeNameFromPath req.VolumeId) s = (some share, e1) →
      E.IsNotMountPoint share.ExportPath s = (notMnt, e2) →
      (notMnt = true ∨ e2 ≠ none) →
      NodeExpandVolume E req s [] =
        ⟨.done (none, some (statusError .FailedPrecondition E.ShareNotMounted)), s, [],
          [⟨.GetShare (E.GetVolumeNameFromPath req.VolumeId), .share (some share) e1⟩,
           ⟨.IsNotMountPoint share.ExportPath, .flag notMnt e2⟩]⟩) := by
  constructor
  · intro e1 e2 hs hf
    simp [NodeExpandVolume, hsclientGetShare, query, hs, hsclientDoesFileExist, hf,
      flagReply, bind, M.bind, pure, M.pure]
  · intro share e1 notMnt e2 hs hm hcase
    cases e2 with
    | some err =>
      by_cases hne : osIsNotExist err = true <;>
      simp [NodeExpandVolume, hsclientGetShare, query, hs, IsShareMounted,
        mountIsNotMountPoint, hm, hne, flagReply, bind, M.bind, pure, M.pure]
    | none =>
      have hn : notMnt = true := by simpa using hcase
      subst hn
      simp [NodeExpandVolume, hsclientGetShare, query, hs, IsShareMounted,
        mountIsNotMountPoint, hm, flagReply, bind, M.bind, pure, M.pure]

/-- C4 on the host without files (nothing found) and on a host whose share is
not mounted. -/
theorem C4_expand_unresolved_or_unmounted_witness :
    (NodeExpandVolume emptyEnv ⟨"/vols/a", some ⟨1024, 0⟩, none⟩ () []).out =
      .done (none, some (statusError .InvalidArgument "Volume does not exist")) ∧
    (NodeExpandVolume shareNotMountedEnv ⟨"/vols/a", some ⟨1024, 0⟩, none⟩ () []).out =
      .done (none, some (statusError .FailedPrecondition "Share is not mounted")) :=
  ⟨congrArg Run.out ((C4_expand_unresolved_or_unmounted emptyEnv
      ⟨"/vols/a", some ⟨1024, 0⟩, none⟩ ()).1 none none rfl rfl),
   congrArg Run.out ((C4_expand_unresolved_or_unmounted shareNotMountedEnv
      ⟨"/vols/a", some ⟨1024, 0⟩, none⟩ ()).2
      { Name := "/vols/a", ExportPath := "/exports/a" } none true none rfl rfl (Or.inl rfl))⟩

/-- C5: in every run of `publishFileBackedVolume` in which
`EnsureBackingShareMounted` was called and succeeded: if a later step fails
(attaching the loop device, making the destination or mounting), the call
returns a non-nil error, `UnmountBackingShareIfUnused` is called exactly once,
for the same backing share, and in block mode (no filesystem type)
`CleanupLoopDevice` is called once too, whatever these two calls return; if no
step fails the call returns `nil` and neither of them is called. -/
theorem C5_publish_file_backed_cleans_up (E : Env σ)
    (share vol target fsType : String) (flags : List String) (ro : Bool) (fqdn : String)
    (s : σ) (held : List String)
    (hens : ofKind .ensure
        (publishFileBackedVolume E share vol target fsType flags ro fqdn s held).trace =
      [⟨.EnsureBackingShareMounted share ⟨fqdn, fsType, flags⟩, .err none⟩]) :
    (publishStepFailed
        (publishFileBackedVolume E share vol target fsType flags ro fqdn s held).trace = true →
      (∃ err, (publishFileBackedVolume E share vol target fsType flags ro fqdn s held).out =
        .done (some err)) ∧
      (ofKind .release
        (publishFileBackedVolume E share vol target fsType flags ro fqdn s held).trace).map
          Event.call = [.UnmountBackingShareIfUnused share] ∧
      (fsType = "" →
        (ofKind .cleanup
          (publishFileBackedVolume E share vol target fsType flags ro fqdn s held).trace).length
            = 1)) ∧
    (publishStepFailed
        (publishFileBackedVolume E share vol target fsType flags ro fqdn s held).trace = false →
      (publishFileBackedVolume E share vol target fsType flags ro fqdn s held).out = .done none ∧
      ofKind .release
        (publishFileBackedVolume E share vol target fsType flags ro fqdn s held).trace = [] ∧
      ofKind .cleanup
        (publishFileBackedVolume E share vol target fsType flags ro fqdn s held).trace = []) := by
  by_cases hh : share ∈ held
  · simp [publishFileBackedVolume, withDefer, getVolumeLock, hh, bind, M.bind] at hens
  · obtain ⟨pre, hk, ⟨msg, s1, hrun⟩ | ⟨hpf, notMnt, s1, hrun⟩⟩ :=
      publishFileBackedVolume_shape E share vol target fsType flags ro fqdn s held hh
    · rw [hrun] at hens
      have hpe := ofKind_eq_nil_of_kindsIn hk (show Kind.ensure ∉ _ by decide)
      simp [hpe, Call.kind] at hens
    · have hpe := ofKind_eq_nil_of_kindsIn hk (show Kind.ensure ∉ _ by decide)
      have hpr := ofKind_eq_nil_of_kindsIn hk (show Kind.release ∉ _ by decide)
      have hpc := ofKind_eq_nil_of_kindsIn hk (show Kind.cleanup ∉ _ by decide)
      obtain ⟨-, -, r, hout, hP⟩ :=
        publishFileBackedVolume.attach_run E share vol target fsType flags ro fqdn notMnt s1
          (share :: held)
      rw [hrun] at hens ⊢
      generalize (publishFileBackedVolume.attach E share vol target fsType flags ro fqdn notMnt
        s1 (share :: held)) = A at *
      simp only [ofKind_append, hpe, hpr, hpc, ofKind_cons, ofKind_nil, Call.kind,
        List.nil_append, List.append_nil, publishStepFailed_append, publishStepFailed_cons,
        publishStepFailed_nil, hpf, Bool.false_or, Bool.or_false, Reply.ok] at hens ⊢
      simp at hens ⊢
      have h2 := hP hens
      rw [hout]
      cases r <;> simp_all

/-- C5 on a host where attaching the loop device fails, for a block volume
`/backing/v1` of share `backing` published at `/pods/p1/dev`: the share is
released once, the loop device is cleaned up once, an error is returned. -/
theorem C5_publish_file_backed_witness :
    ofKind .ensure
        (publishFileBackedVolume attachFailEnv "backing" "/backing/v1" "/pods/p1/dev" "" []
          false "" () []).trace =
      [⟨.EnsureBackingShareMounted "backing" ⟨"", "", []⟩, .err none⟩] ∧
    publishStepFailed
        (publishFileBackedVolume attachFailEnv "backing" "/backing/v1" "/pods/p1/dev" "" []
          false "" () []).trace = true ∧
    (∃ err, (publishFileBackedVolume attachFailEnv "backing" "/backing/v1" "/pods/p1/dev" "" []
        false "" () []).out = .done (some err)) ∧
    (ofKind .release
        (publishFileBackedVolume attachFailEnv "backing" "/backing/v1" "/pods/p1/dev" "" []
          false "" () []).trace).map Event.call = [.UnmountBackingShareIfUnused "backing"] ∧
    (ofKind .cleanup
        (publishFileBackedVolume attachFailEnv "backing" "/backing/v1" "/pods/p1/dev" "" []
          false "" () []).trace).length = 1 :=
  have hens : ofKind .ensure
        (publishFileBackedVolume attachFailEnv "backing" "/backing/v1" "/pods/p1/dev" "" []
          false "" () []).trace =
      [⟨.EnsureBackingShareMounted "backing" ⟨"", "", []⟩, .err none⟩] := by decide
  have hfail : publishStepFailed
        (publishFileBackedVolume attachFailEnv "backing" "/backing/v1" "/pods/p1/dev" "" []
          false "" () []).trace = true := by decide
  have h := (C5_publish_file_backed_cleans_up attachFailEnv "backing" "/backing/v1"
    "/pods/p1/dev" "" [] false "" () [] hens).1 hfail
  ⟨hens, hfail, h.1, h.2.1, h.2.2 rfl⟩

/-- Once the target is known not to be a mount point (the check said so, or the
target was missing and has been created), `publishShareBackedVolume` continues
with `publishShareBackedVolume.mount` after the calls `pre` made so far. -/
theorem publishShareBackedVolume_bound_or_direct (E : Env σ)
    (exportPath target staging : String) (flags : List String) (ro : Bool) (fqdn : String)
    (s2 : σ) (held : List String) (X : Run σ (Option GoError)) (pre : List Event)
    (first : Event) (hpre : ofKind .mountCheck pre = [first]) (hpm : ofKind .mount pre = [])
    (hpd : ofKind .dataportal pre = [])
    (hX : X = ⟨(publishShareBackedVolume.mount E exportPath target staging flags ro fqdn true
        s2 held).out,
      (publishShareBackedVolume.mount E exportPath target staging flags ro fqdn true s2 held).host,
      held,
      pre ++ (publishShareBackedVolume.mount E exportPath target staging flags ro fqdn true
        s2 held).trace⟩) :
    X.held = held ∧
    ∃ r, X.out = .done r ∧
      ((staging ≠ "" ∧ staging ≠ target ∧ r = none ∧
        ofKind .mount X.trace = [⟨.Mount staging target "" ["bind"], .err none⟩] ∧
        ofKind .mountCheck X.trace =
          [first, ⟨.SafeIsLikelyNotMountPoint target, .flag false none⟩] ∧
        ofKind .dataportal X.trace = []) ∨
       (ofKind .dataportal X.trace =
          [⟨.MountShareAtBestDataportal exportPath target
            (if ro = true then flags ++ ["ro"] else flags) fqdn, .err r⟩] ∧
        ¬ (staging ≠ "" ∧ staging ≠ target ∧
          ofKind .mount X.trace = [⟨.Mount staging target "" ["bind"], .err none⟩] ∧
          ofKind .mountCheck X.trace =
            [first, ⟨.SafeIsLikelyNotMountPoint target, .flag false none⟩]))) := by
  obtain ⟨-, r, hout, hcases⟩ :=
    publishShareBackedVolume.mount_run E exportPath target staging flags ro fqdn s2 held
  subst hX
  refine ⟨rfl, r, hout, ?_⟩
  generalize (publishShareBackedVolume.mount E exportPath target staging flags ro fqdn
    true s2 held).trace = δ at *
  rcases hcases with ⟨h1, h2, h3, h4, h5, h6⟩ | ⟨h4, h5⟩
  · left
    simp [hpre, hpm, hpd, h1, h2, h3, h4, h5, h6]
  · right
    simp [hpre, hpm, hpd, h4]
    intro a b c
    simpa [a, b, c] using h5

/-- C6 (amended): for every call of `publishShareBackedVolume`, by what the
first mount-point check of the target replies. If the target is already a mount
point the call succeeds and the check is its only call. If the check fails with
an error other than not-exist, or reports the target missing and the target
cannot be created, the call fails with `Internal` without any mount. Otherwise
the call returns, and either a bind mount from the staging path (non-empty,
different from the target) was made, succeeded and was verified by a second
check, and then the call succeeds without the data-portal selector; or
`MountShareAtBestDataportal` is called exactly once, on the target, with the
mount flags followed by `"ro"` for a read-only request, and what it returns is
what the call returns. -/
theorem C6_publish_share_backed_cases (E : Env σ) (exportPath target staging : String)
    (flags : List String) (ro : Bool) (fqdn : String) (s : σ) (held : List String) :
    (E.SafeIsLikelyNotMountPoint target s = (false, none) →
      publishShareBackedVolume E exportPath target staging flags ro fqdn s held =
        ⟨.done none, s, held, [⟨.SafeIsLikelyNotMountPoint target, .flag false none⟩]⟩) ∧
    (∀ b err, E.SafeIsLikelyNotMountPoint target s = (b, some err) →
      osIsNotExist err = false →
      publishShareBackedVolume E exportPath target staging flags ro fqdn s held =
        ⟨.done (some (statusError .Internal err.Error)), s, held,
          [⟨.SafeIsLikelyNotMountPoint target, .flag b (some err)⟩]⟩) ∧
    (∀ b err err2 s2, E.SafeIsLikelyNotMountPoint target s = (b, some err) →
      osIsNotExist err = true → E.MkdirAll target 0o750 s = (some err2, s2) →
      publishShareBackedVolume E exportPath target staging flags ro fqdn s held =
        ⟨.done (some (statusError .Internal err2.Error)), s2, held,
          [⟨.SafeIsLikelyNotMountPoint target, .flag b (some err)⟩,
           ⟨.MkdirAll target 0o750, .err (some err2)⟩]⟩) ∧
    ((E.SafeIsLikelyNotMountPoint target s = (true, none) ∨
      ∃ b err s2, E.SafeIsLikelyNotMountPoint target s = (b, some err) ∧
        osIsNotExist err = true ∧ E.MkdirAll target 0o750 s = (none, s2)) →
      (publishShareBackedVolume E exportPath target staging flags ro fqdn s held).held = held ∧
      ∃ r, (publishShareBackedVolume E exportPath target staging flags ro fqdn s held).out
          = .done r ∧
        ((staging ≠ "" ∧ staging ≠ target ∧ r = none ∧
          ofKind .mount (publishShareBackedVolume E exportPath target staging flags ro fqdn
            s held).trace = [⟨.Mount staging target "" ["bind"], .err none⟩] ∧
          ofKind .mountCheck (publishShareBackedVolume E exportPath target staging flags
            ro fqdn s held).trace =
              [⟨.SafeIsLikelyNotMountPoint target,
                  flagReply (E.SafeIsLikelyNotMountPoint target s)⟩,
               ⟨.SafeIsLikelyNotMountPoint target, .flag false none⟩] ∧
          ofKind .dataportal (publishShareBackedVolume E exportPath target staging flags ro
            fqdn s held).trace = []) ∨
         (ofKind .dataportal (publishShareBackedVolume E exportPath target staging flags ro
            fqdn s held).trace =
            [⟨.MountShareAtBestDataportal exportPath target
              (if ro = true then flags ++ ["ro"] else flags) fqdn, .err r⟩] ∧
          ¬ (staging ≠ "" ∧ staging ≠ target ∧
            ofKind .mount (publishShareBackedVolume E exportPath target staging flags ro
              fqdn s held).trace = [⟨.Mount staging target "" ["bind"], .err none⟩] ∧
            ofKind .mountCheck (publishShareBackedVolume E exportPath target staging flags
              ro fqdn s held).trace =
              [⟨.SafeIsLikelyNotMountPoint target,
                  flagReply (E.SafeIsLikelyNotMountPoint target s)⟩,
               ⟨.SafeIsLikelyNotMountPoint target, .flag false none⟩])))) := by
  refine ⟨?_, ?_, ?_, ?_⟩
  · intro h1
    simp [publishShareBackedVolume, publishShareBackedVolume.mount,
      SafeIsLikelyNotMountPoint, query, bind, M.bind, pure, M.pure, h1, flagReply]
  · intro b err h1 hne
    simp [publishShareBackedVolume, SafeIsLikelyNotMountPoint, query,
      bind, M.bind, pure, M.pure, h1, hne, flagReply]
  · intro b err err2 s2 h1 hne h2
    simp [publishShareBackedVolume, SafeIsLikelyNotMountPoint, osMkdirAll, query, action,
      bind, M.bind, pure, M.pure, h1, h2, hne, flagReply]
  · rintro (h1 | ⟨b, err, s2, h1, hne, h2⟩)
    · obtain ⟨hheld, r, hout, -⟩ :=
        publishShareBackedVolume.mount_run E exportPath target staging flags ro fqdn s held
      rw [h1]
      exact publishShareBackedVolume_bound_or_direct E exportPath target staging flags ro fqdn
        s held _ [⟨.SafeIsLikelyNotMountPoint target, .flag true none⟩] _
        (by simp [Call.kind]; rfl) (by simp [Call.kind]) (by simp [Call.kind])
        (by simp [publishShareBackedVolume, SafeIsLikelyNotMountPoint, query,
            bind, M.bind, pure, M.pure, h1, flagReply, hout, hheld])
    · obtain ⟨hheld, r, hout, -⟩ :=
        publishShareBackedVolume.mount_run E exportPath target staging flags ro fqdn s2 held
      rw [h1]
      exact publishShareBackedVolume_bound_or_direct E exportPath target staging flags ro fqdn
        s2 held _ [⟨.SafeIsLikelyNotMountPoint target, .flag b (some err)⟩,
          ⟨.MkdirAll target 0o750, .err none⟩] _
        (by simp [Call.kind]; rfl) (by simp [Call.kind]) (by simp [Call.kind])
        (by simp [publishShareBackedVolume, SafeIsLikelyNotMountPoint, osMkdirAll, query,
            action, bind, M.bind, pure, M.pure, h1, h2, hne, flagReply, hout, hheld])

/-- C6 (amended) on a host that remembers its mounts: a target that is already
mounted is left alone, and a call for a target that is not mounted returns. -/
theorem C6_publish_share_backed_witness :
    (mountingEnv.SafeIsLikelyNotMountPoint "/pods/p1/v" ["/pods/p1/v"] = (false, none) ∧
      publishShareBackedVolume mountingEnv "/vols/a" "/pods/p1/v" "/staging/v1" [] false ""
        ["/pods/p1/v"] [] =
        ⟨.done none, ["/pods/p1/v"], [],
          [⟨.SafeIsLikelyNotMountPoint "/pods/p1/v", .flag false none⟩]⟩) ∧
    (mountingEnv.SafeIsLikelyNotMountPoint "/pods/p1/v" [] = (true, none) ∧
      (publishShareBackedVolume mountingEnv "/vols/a" "/pods/p1/v" "/staging/v1" [] false ""
        [] []).held = []) :=
  ⟨⟨rfl, (C6_publish_share_backed_cases mountingEnv "/vols/a" "/pods/p1/v" "/staging/v1" []
      false "" ["/pods/p1/v"] []).1 rfl⟩,
   ⟨rfl, ((C6_publish_share_backed_cases mountingEnv "/vols/a" "/pods/p1/v" "/staging/v1" []
      false "" [] []).2.2.2 (Or.inl rfl)).1⟩⟩

/-- C6 (counterexample): on a host where the mount-point check of the target
fails with a permission error, the target is not found to be a mount point and
no bind mount is made, yet `MountShareAtBestDataportal` is not called and the
call fails with `Internal`. -/
theorem C6_publish_share_backed_counterexample :
    (publishShareBackedVolume deniedEnv "/vols/a" "/pods/p1/v" "/staging/v1" [] false "" ()
        []).trace =
      [⟨.SafeIsLikelyNotMountPoint "/pods/p1/v", .flag true (some eacces)⟩] ∧
    ofKind .dataportal
      (publishShareBackedVolume deniedEnv "/vols/a" "/pods/p1/v" "/staging/v1" [] false "" ()
        []).trace = [] ∧
    (publishShareBackedVolume deniedEnv "/vols/a" "/pods/p1/v" "/staging/v1" [] false "" ()
        []).out = .done (some (statusError .Internal "permission denied")) := by
  decide

/-- A field of `w` bits at position `a` of a number of `n` bits, moved down by
`b` positions. -/
theorem bitField_eq (dev n w a b : Nat) (hb : b ≤ a) (hn : a + w ≤ n) :
    ((dev % 2 ^ n) &&& ((2 ^ w - 1) <<< a)) >>> b = ((dev >>> a) % 2 ^ w) <<< (a - b) := by
  apply Nat.eq_of_testBit_eq
  intro i
  simp only [Nat.testBit_shiftRight, Nat.testBit_and, Nat.testBit_mod_two_pow,
    Nat.testBit_shiftLeft, Nat.testBit_two_pow_sub_one]
  by_cases h1 : a - b ≤ i
  · by_cases h2 : i - (a - b) < w
    · have e1 : a + (i - (a - b)) = b + i := by omega
      simp [h1, h2, e1, show a ≤ b + i by omega, show b + i - a < w by omega,
        show b + i < n by omega]
    · simp [h1, h2, show ¬ (b + i - a < w) by omega]
  · simp [h1, show ¬ (a ≤ b + i) by omega]

/-- The function `unix.Minor` in arithmetic: the low 8 bits of the device
number, with its bits 20 to 43 above them. -/
theorem unixMinor_eq (dev : Nat) :
    unixMinor dev = dev % 256 + dev / 2 ^ 20 % 2 ^ 24 * 256 := by
  have hlow : dev % 2 ^ 64 &&& 0xff = dev % 256 := by
    have h := Nat.and_pow_two_sub_one_eq_mod (dev % 2 ^ 64) 8
    have e : (2 : Nat) ^ 8 - 1 = 0xff := by decide
    rw [e] at h
    rw [h]
    omega
  have hhigh : (dev % 2 ^ 64 &&& 0x00000ffffff00000) >>> 12 = dev / 2 ^ 20 % 2 ^ 24 * 256 := by
    have h := bitField_eq dev 64 24 20 12 (by decide) (by decide)
    have e : ((2 : Nat) ^ 24 - 1) <<< 20 = 0x00000ffffff00000 := by decide
    rw [e] at h
    rw [h, Nat.shiftRight_eq_div_pow, Nat.shiftLeft_eq]
  unfold unixMinor
  simp only [hlow, hhigh]
  have hdisj := Nat.mul_add_lt_is_or (show dev % 256 < 2 ^ 8 by omega) (dev / 2 ^ 20 % 2 ^ 24)
  have e8 : (2 : Nat) ^ 8 = 256 := by decide
  rw [e8] at hdisj
  rw [Nat.lor_comm, Nat.mul_comm (dev / 2 ^ 20 % 2 ^ 24) 256, ← hdisj]
  omega


/-- C7: when the target is a device whose number `unix.Stat` reports, and the
lock of the backing share (the directory of the volume path) is free, the steps
`unpublishFileBackedVolume` performs are an initial part of: `umount -f target`,
removing the target, `losetup -d /dev/loopN`, releasing the backing share; in
that order, each once. Here `N` is the minor number of the device number: its
low 8 bits, with its bits 20 to 43 above them. Every step before the last
performed one succeeded; either all four were performed and succeeded and the
call returns `nil`, or the last performed step failed and the call returns an
`Internal` error. -/
theorem C7_unpublish_file_backed_sequence (E : Env σ) (vol target : String) (s : σ)
    (held : List String) (rdev : Nat) (hstat : E.unixStat target s = .ok rdev)
    (hfree : E.filepathDir vol ∉ held) :
    ofKinds [.command, .remove, .release] (unpublishFileBackedVolume E vol target s held).trace
      ≠ [] ∧
    (ofKinds [.command, .remove, .release]
        (unpublishFileBackedVolume E vol target s held).trace).map Event.call =
      ([.Command "umount" ["-f", target], .Remove target,
        .Command "losetup" ["-d", "/dev/loop" ++ toString (rdev % 256 + rdev / 2 ^ 20 % 2 ^ 24 * 256)],
        .UnmountBackingShareIfUnused (E.filepathDir vol)] : List Call).take
        (ofKinds [.command, .remove, .release]
          (unpublishFileBackedVolume E vol target s held).trace).length ∧
    (∀ e ∈ (ofKinds [.command, .remove, .release]
        (unpublishFileBackedVolume E vol target s held).trace).dropLast, e.reply.ok = true) ∧
    (((ofKinds [.command, .remove, .release]
          (unpublishFileBackedVolume E vol target s held).trace).length = 4 ∧
        (∀ e ∈ ofKinds [.command, .remove, .release]
          (unpublishFileBackedVolume E vol target s held).trace, e.reply.ok = true) ∧
        (unpublishFileBackedVolume E vol target s held).out = .done none) ∨
     ((∃ e, (ofKinds [.command, .remove, .release]
          (unpublishFileBackedVolume E vol target s held).trace).getLast? = some e ∧
          e.reply.ok = false) ∧
        ∃ msg, (unpublishFileBackedVolume E vol target s held).out =
          .done (some (statusError .Internal msg)))) := by
  rw [← unixMinor_eq rdev]
  rcases h1 : E.Command "umount" ["-f", target] s with ⟨⟨o1, e1⟩, s1⟩
  rcases h2 : E.Remove target s1 with ⟨e2, s2⟩
  rcases h3 : E.Command "losetup" ["-d", "/dev/loop" ++ toString (unixMinor rdev)] s2
    with ⟨⟨o3, e3⟩, s3⟩
  rcases h4 : E.UnmountBackingShareIfUnused (E.filepathDir vol) s3 with ⟨⟨b4, e4⟩, s4⟩
  cases e1 <;> cases e2 <;> cases e3 <;> cases e4 <;>
    simp [unpublishFileBackedVolume, withDefer, getVolumeLock, releaseVolumeLock, hfree,
      GetDeviceMinorNumber, unixStat, ExecCommand, execCombinedOutput, osRemove,
      UnmountBackingShareIfUnused, query, action, bind, M.bind, pure, M.pure, hstat, h1, h2,
      h3, h4, numReply, textReply, flagReply, Call.kind, Reply.ok, statusError]

/-- C7 on a host where the target is the device with major 7 and minor 7
(device number 1799), for volume `/backing/v1` published at `/pods/p1/dev`: the
four steps run, the loop device detached is `/dev/loop7`, and the result is
`nil`. -/
theorem C7_unpublish_file_backed_witness :
    (loopEnv.unixStat "/pods/p1/dev" () = .ok 1799 ∧
      loopEnv.filepathDir "/backing/v1" ∉ ([] : List String)) ∧
    ((ofKinds [.command, .remove, .release]
        (unpublishFileBackedVolume loopEnv "/backing/v1" "/pods/p1/dev" () []).trace).map
          Event.call =
      [.Command "umount" ["-f", "/pods/p1/dev"], .Remove "/pods/p1/dev",
        .Command "losetup" ["-d", "/dev/loop7"], .UnmountBackingShareIfUnused "/backing"] ∧
      (unpublishFileBackedVolume loopEnv "/backing/v1" "/pods/p1/dev" () []).out = .done none) ∧
    (ofKinds [.command, .remove, .release]
        (unpublishFileBackedVolume loopEnv "/backing/v1" "/pods/p1/dev" () []).trace).map
          Event.call =
      ([.Command "umount" ["-f", "/pods/p1/dev"], .Remove "/pods/p1/dev",
        .Command "losetup" ["-d", "/dev/loop" ++ toString (1799 % 256 + 1799 / 2 ^ 20 % 2 ^ 24 * 256)],
        .UnmountBackingShareIfUnused (loopEnv.filepathDir "/backing/v1")] : List Call).take
        (ofKinds [.command, .remove, .release]
          (unpublishFileBackedVolume loopEnv "/backing/v1" "/pods/p1/dev" () []).trace).length :=
  ⟨⟨rfl, by decide⟩, ⟨by decide, by decide⟩,
    (C7_unpublish_file_backed_sequence loopEnv "/backing/v1" "/pods/p1/dev" () [] 1799 rfl
      (by decide)).2.1⟩

/-- C8: in every run of `NodePublishVolume` and of `NodeUnpublishVolume` that
passes argument validation, by an execution that holds no lock, locking is well
nested: the first call of the handler takes the lock of the volume ID, before
any mount, loop-device or path operation; on every return (success or error)
the last call releases it and it was taken and released exactly once; the lock
of a backing share, when taken, is taken after the volume lock and released
before it. The only run that does not return is the one that asks for the
volume lock a second time (backing-share name equal to the volume ID). -/
theorem C8_lock_nesting (E : Env σ) (s : σ) :
    (∀ req : NodePublishVolumeRequest, req.VolumeId ≠ "" → req.TargetPath ≠ "" →
      req.VolumeCapability ≠ none →
      LockNested req.VolumeId (NodePublishVolume E req s [])) ∧
    (∀ req : NodeUnpublishVolumeRequest, req.VolumeId ≠ "" → req.TargetPath ≠ "" →
      LockNested req.VolumeId (NodeUnpublishVolume E req s [])) := by
  constructor
  · intro req hv ht hc
    unfold NodePublishVolume
    rw [if_neg hv, if_neg ht]
    cases hcap : req.VolumeCapability with
    | none => exact absurd hcap hc
    | some cap =>
      refine lockNested_of_body req.VolumeId _ s ?_
      cases hat : cap.AccessType with
      | none =>
        left
        simp [pure, M.pure]
      | some at1 =>
        cases at1 with
        | Block => exact NodePublishVolume.dispatch_locks E req _ _ _ _ s _
        | Mount m => exact NodePublishVolume.dispatch_locks E req _ _ _ _ s _
  · intro req hv ht
    unfold NodeUnpublishVolume
    rw [if_neg hv, if_neg (String.length_ne_zero_of_ne_empty ht)]
    exact lockNested_of_body req.VolumeId _ s
      (NodeUnpublishVolume.body_locks E req s req.VolumeId _ rfl)

/-- C8 on the calm host for a filesystem publish, and on a host where the
target is a loop device for an unpublish that also takes the lock of the
backing share `/backing`. -/
theorem C8_lock_nesting_witness :
    ((("vol-1" : String) ≠ "" ∧ ("/pods/p1/v" : String) ≠ "" ∧
        (some ⟨some (.Mount ⟨"nfs", []⟩)⟩ : Option VolumeCapability) ≠ none) ∧
      LockNested "vol-1" (NodePublishVolume calmEnv
        ⟨"vol-1", "/pods/p1/v", "/staging/v1", some ⟨some (.Mount ⟨"nfs", []⟩)⟩, false, []⟩
        () [])) ∧
    ((("/backing/v1" : String) ≠ "" ∧ ("/pods/p1/dev" : String) ≠ "") ∧
      LockNested "/backing/v1" (NodeUnpublishVolume loopEnv ⟨"/backing/v1", "/pods/p1/dev"⟩
        () [])) :=
  ⟨⟨⟨by decide, by decide, by decide⟩,
      (C8_lock_nesting calmEnv ()).1
        ⟨"vol-1", "/pods/p1/v", "/staging/v1", some ⟨some (.Mount ⟨"nfs", []⟩)⟩, false, []⟩
        (by decide) (by decide) (by decide)⟩,
   ⟨⟨by decide, by decide⟩,
      (C8_lock_nesting loopEnv ()).2 ⟨"/backing/v1", "/pods/p1/dev"⟩ (by decide) (by decide)⟩⟩

/-- C9: for a dotted quad `a.b.c.d` with every part from 0 to 255 (written in
decimal) and a port from 0 to 65535, `computeUaddr` returns, without error, the
address followed by `.H.L` where `H` is the port divided by 256 and `L` the
remainder, in decimal; in particular for `10.0.0.1` and port 2049. -/
theorem C9_ipv4_uaddr (a b c d : Nat) (p : Int) (ha : a < 256) (hb : b < 256) (hc : c < 256)
    (hd : d < 256) (h0 : 0 ≤ p) (hp : p ≤ 65535) :
    computeUaddr (fmtInt a ++ "." ++ fmtInt b ++ "." ++ fmtInt c ++ "." ++ fmtInt d) p =
      (fmtInt a ++ "." ++ fmtInt b ++ "." ++ fmtInt c ++ "." ++ fmtInt d ++ "." ++
        fmtInt (p / 256) ++ "." ++ fmtInt (p % 256), none) ∧
    computeUaddr "10.0.0.1" 2049 = ("10.0.0.1.8.1", none) := by
  refine ⟨?_, by decide⟩
  obtain ⟨hty, hsplit⟩ := dotted_is_ipv4 a b c d ha hb hc hd
  obtain ⟨n, rfl⟩ := Int.eq_ofNat_of_zero_le h0
  have hn : n < 65536 := by omega
  have hneg : ¬ ((n : Int) < 0) := by omega
  have hhex := padZeros_formatUint_hex n hn
  have hhi := parseHexPair (n / 4096) (by omega) (n / 256 % 16) (by omega)
  have hlo := parseHexPair (n / 16 % 16) (by omega) (n % 16) (by omega)
  have e1 : ((16 * (n / 4096) + n / 256 % 16 : Nat) : Int) = (n : Int) / 256 := by omega
  have e2 : ((16 * (n / 16 % 16) + n % 16 : Nat) : Int) = (n : Int) % 256 := by omega
  rw [e1] at hhi
  rw [e2] at hlo
  simp [computeUaddr, hty, computeIPv4Uaddr, hsplit, strconvFormatInt, hneg, hhex, hhi, hlo]

/-- C9 for the address `192.168.1.20` and port 111. -/
theorem C9_ipv4_uaddr_witness :
    ((192 < 256 ∧ 168 < 256 ∧ 1 < 256 ∧ 20 < 256) ∧ (0 : Int) ≤ 111 ∧ (111 : Int) ≤ 65535) ∧
    computeUaddr "192.168.1.20" 111 = ("192.168.1.20.0.111", none) :=
  ⟨⟨⟨by decide, by decide, by decide, by decide⟩, by decide, by decide⟩,
    (C9_ipv4_uaddr 192 168 1 20 111 (by decide) (by decide) (by decide) (by decide)
      (by decide) (by decide)).1⟩

/-- C10: for an address that `net.ParseIP` accepts and that is neither an IPv4
nor an IPv4-mapped address, and a port from 0 to 65535, `computeUaddr` returns,
without error, `[address]:` followed by the port as exactly four hexadecimal
digits, zero-padded, lowercase; in particular for `fe80::1` and port 2049. -/
theorem C10_ipv6_uaddr (addr : String) (ip : List Nat) (p : Int)
    (hparse : netParseIP addr = some ip) (h4 : ipTo4 ip = none) (h0 : 0 ≤ p)
    (hp : p ≤ 65535) :
    computeUaddr addr p =
      ("[" ++ addr ++ "]:" ++
        String.mk [Nat.digitChar (p.toNat / 4096), Nat.digitChar (p.toNat / 256 % 16),
          Nat.digitChar (p.toNat / 16 % 16), Nat.digitChar (p.toNat % 16)], none) ∧
    computeUaddr "fe80::1" 2049 = ("[fe80::1]:0801", none) := by
  refine ⟨?_, by decide⟩
  have hlen := netParseIP_length addr ip hparse
  have hty : checkIPType addr = ("IPv6", none) := by
    simp [checkIPType, hparse, h4, ipTo16, hlen]
  have hn : ¬ p < 0 := by omega
  have hb : p.toNat < 65536 := by omega
  have h46 : ("IPv6" : String) ≠ "IPv4" := by decide
  simp [computeUaddr, hty, h46, computeIPv6Uaddr, fmtHex04, hn, padZeros_formatUint_hex _ hb]

/-- C10 for the address `2001:db8::1` and port 111. -/
theorem C10_ipv6_uaddr_witness :
    (netParseIP "2001:db8::1" = some [32, 1, 13, 184, 0, 0, 0, 0, 0, 0, 0, 0, 0, 0, 0, 1] ∧
      ipTo4 [32, 1, 13, 184, 0, 0, 0, 0, 0, 0, 0, 0, 0, 0, 0, 1] = none ∧
      (0 : Int) ≤ 111 ∧ (111 : Int) ≤ 65535) ∧
    computeUaddr "2001:db8::1" 111 = ("[2001:db8::1]:006f", none) :=
  ⟨⟨by decide, by decide, by decide, by decide⟩,
    (C10_ipv6_uaddr "2001:db8::1" [32, 1, 13, 184, 0, 0, 0, 0, 0, 0, 0, 0, 0, 0, 0, 1] 111
      (by decide) (by decide) (by decide) (by decide)).1⟩

/-! ### Export listings -/

/-- Once a field has started, the loop of `strings.Fields` reads up to the next
white space and goes on after it. -/
theorem fieldsLoop_some (cs : List Char) (field : List Char) :
    fieldsLoop cs (some field) =
      (field ++ cs.takeWhile (fun c => !unicodeIsSpace c)) ::
        fieldsLoop (cs.dropWhile (fun c => !unicodeIsSpace c)) none := by
  induction cs generalizing field with
  | nil => simp [fieldsLoop]
  | cons c cs ih =>
    by_cases hc : unicodeIsSpace c = true
    · simp [fieldsLoop, hc]
    · simp [fieldsLoop, hc, ih]

/-- The first field found by the loop of `strings.Fields`. -/
theorem fieldsLoop_head (cs : List Char) :
    (fieldsLoop cs none).head? =
      if cs.any (fun c => !unicodeIsSpace c) then
        some ((cs.dropWhile unicodeIsSpace).takeWhile (fun c => !unicodeIsSpace c))
      else none := by
  induction cs with
  | nil => simp [fieldsLoop]
  | cons c cs ih =>
    by_cases hc : unicodeIsSpace c = true
    · simp [fieldsLoop, hc, ih]
    · simp [fieldsLoop, hc, fieldsLoop_some]

/-- The first field of `strings.Fields` is the first token of the line, and
there is one exactly when the line has a character that is not white space. -/
theorem stringsFields_head (line : String) :
    (stringsFields line).head? = if hasToken line then some (firstToken line) else none := by
  unfold stringsFields hasToken firstToken
  rw [List.head?_map, fieldsLoop_head]
  by_cases h : line.toList.any (fun c => !unicodeIsSpace c) = true
  · simp [h]
  · simp [h]

/-- The loop of `GetNFSExports` appends the first token of every line that has
one, in line order. -/
theorem GetNFSExports.collect_eq (lines acc : List String) :
    GetNFSExports.collect lines acc = acc ++ (lines.filter hasToken).map firstToken := by
  induction lines generalizing acc with
  | nil => simp [GetNFSExports.collect]
  | cons line lines ih =>
    have hh := stringsFields_head line
    unfold GetNFSExports.collect
    cases hf : stringsFields line with
    | nil =>
      rw [hf] at hh
      by_cases ht : hasToken line = true
      · simp [ht] at hh
      · simp [ht, ih]
    | cons first more =>
      rw [hf] at hh
      by_cases ht : hasToken line = true
      · simp [ht] at hh
        simp [ht, ih, hh]
      · simp [ht] at hh

/-- The first token of a line that has one is not empty and holds no white
space. -/
theorem firstToken_ne_empty (line : String) (h : hasToken line = true) :
    firstToken line ≠ "" ∧ ∀ c ∈ (firstToken line).toList, unicodeIsSpace c = false := by
  constructor
  · unfold hasToken at h
    unfold firstToken
    intro h0
    have h1 : (line.toList.dropWhile unicodeIsSpace).takeWhile
        (fun c => !unicodeIsSpace c) = [] := by
      simpa using congrArg String.toList h0
    rw [List.any_eq_true] at h
    obtain ⟨c, hc, hns⟩ := h
    cases hd : line.toList.dropWhile unicodeIsSpace with
    | nil =>
      rw [List.dropWhile_eq_nil_iff] at hd
      have := hd c hc
      simp [this] at hns
    | cons x xs =>
      have hx := List.head_dropWhile_not unicodeIsSpace line.toList (by rw [hd]; simp)
      simp only [hd, List.head_cons] at hx
      rw [hd] at h1
      simp [List.takeWhile, hx] at h1
  · intro c hc
    unfold firstToken at hc
    have := List.mem_takeWhile_imp hc
    simpa using this

/-! ### Loop listings -/

/-- The loop over the lines of the loop listing makes no call. -/
theorem determineLoopDeviceFromBackingFile.scan_run (backingfile : String)
    (devices : List String) (s : σ) (held : List String) :
    (determineLoopDeviceFromBackingFile.scan backingfile devices s held).trace = [] ∧
    (determineLoopDeviceFromBackingFile.scan backingfile devices s held).host = s ∧
    (determineLoopDeviceFromBackingFile.scan backingfile devices s held).held = held := by
  induction devices with
  | nil => simp [determineLoopDeviceFromBackingFile.scan, pure, M.pure]
  | cons d devices ih =>
    unfold determineLoopDeviceFromBackingFile.scan
    by_cases hd : d = ""
    · simp [hd, ih]
    · simp only [ne_eq, hd, not_false_eq_true, if_true]
      cases hg : (stringsSplit d ' ').get? 2 with
      | none => simp [goPanic]
      | some field =>
        by_cases hm : backingfile = stringsTrim field ":()"
        · simp [hm, pure, M.pure]
        · simp [hm, ih]

/-- The only call of `determineLoopDeviceFromBackingFile` is `losetup -a`. -/
theorem determineLoopDeviceFromBackingFile_run (E : Env σ) (backingfile : String) (s : σ)
    (held : List String) :
    (determineLoopDeviceFromBackingFile E backingfile s held).trace =
      [⟨.Command "losetup" ["-a"], textReply (E.Command "losetup" ["-a"] s).1⟩] ∧
    (determineLoopDeviceFromBackingFile E backingfile s held).host =
      (E.Command "losetup" ["-a"] s).2 ∧
    (determineLoopDeviceFromBackingFile E backingfile s held).held = held := by
  rcases h : E.Command "losetup" ["-a"] s with ⟨⟨o, e⟩, s1⟩
  cases e with
  | some err =>
    simp [determineLoopDeviceFromBackingFile, ExecCommand, execCombinedOutput, action, bind,
      M.bind, pure, M.pure, h, textReply]
  | none =>
    have hs := determineLoopDeviceFromBackingFile.scan_run backingfile (stringsSplit o '\n') s1
      held
    simp [determineLoopDeviceFromBackingFile, ExecCommand, execCombinedOutput, action, bind,
      M.bind, pure, M.pure, h, textReply]
    cases hout : (determineLoopDeviceFromBackingFile.scan backingfile (stringsSplit o '\n') s1
      held).out <;> simp [hs]

/-! ### The claims, continued -/

/-- C11: `GetNFSExports` runs `showmount --no-headers -e address` once. When the
command succeeds, the result is, in line order, the first token of every line
of the output that has a character that is not white space, provided there is
such a line; when there is none, or when the command fails, the result is an
`Internal` error. So a successful result is never empty, and none of its
elements is empty or holds white space. -/
theorem C11_exports_are_first_tokens (E : Env σ) (address : String) (s : σ)
    (held : List String) :
    (GetNFSExports E address s held).trace =
      [⟨.Command "showmount" ["--no-headers", "-e", address],
        textReply (E.Command "showmount" ["--no-headers", "-e", address] s).1⟩] ∧
    (∀ output s1, E.Command "showmount" ["--no-headers", "-e", address] s = ((output, none), s1) →
      ((stringsSplit output '\n').filter hasToken ≠ [] →
        (GetNFSExports E address s held).out =
          .done (((stringsSplit output '\n').filter hasToken).map firstToken, none)) ∧
      ((stringsSplit output '\n').filter hasToken = [] →
        ∃ msg, (GetNFSExports E address s held).out =
          .done ([], some (statusError .Internal msg)))) ∧
    (∀ output err s1,
      E.Command "showmount" ["--no-headers", "-e", address] s = ((output, some err), s1) →
      ∃ msg, (GetNFSExports E address s held).out =
        .done ([], some (statusError .Internal msg))) ∧
    (∀ res, (GetNFSExports E address s held).out = .done (res, none) →
      res ≠ [] ∧ ∀ t ∈ res, t ≠ "" ∧ ∀ c ∈ t.toList, unicodeIsSpace c = false) := by
  rcases h : E.Command "showmount" ["--no-headers", "-e", address] s with ⟨⟨o, e⟩, s1⟩
  cases e with
  | some err =>
    simp [GetNFSExports, ExecCommand, execCombinedOutput, action, bind, M.bind, pure, M.pure, h,
      textReply, statusError]
  | none =>
    by_cases hl : (stringsSplit o '\n').filter hasToken = []
    · have hl2 : ∀ x ∈ stringsSplit o '\n', hasToken x = false := by simpa using hl
      simp [GetNFSExports, ExecCommand, execCombinedOutput, action, bind, M.bind, pure, M.pure,
        h, textReply, statusError, GetNFSExports.collect_eq, hl]
      exact hl2
    · have hout : (GetNFSExports E address s held).out =
          .done (((stringsSplit o '\n').filter hasToken).map firstToken, none) := by
        simp [GetNFSExports, ExecCommand, execCombinedOutput, action, bind, M.bind, pure,
          M.pure, h, textReply, GetNFSExports.collect_eq, hl]
      refine ⟨?_, ?_, ?_, ?_⟩
      · simp [GetNFSExports, ExecCommand, execCombinedOutput, action, bind, M.bind, pure,
          M.pure, h, textReply, GetNFSExports.collect_eq, hl]
      · intro output s2 heq
        obtain ⟨rfl, rfl⟩ : o = output ∧ s1 = s2 := by simpa using heq
        exact ⟨fun _ => hout, fun h0 => absurd h0 hl⟩
      · intro output err s2 heq
        simp at heq
      · intro res hres
        rw [hout] at hres
        have hres2 : ((stringsSplit o '\n').filter hasToken).map firstToken = res := by
          simpa using hres
        subst hres2
        refine ⟨by simpa using hl, ?_⟩
        intro t ht
        rw [List.mem_map] at ht
        obtain ⟨line, hline, rfl⟩ := ht
        exact firstToken_ne_empty line (List.mem_filter.mp hline).2

/-- C11 on a host whose listing has two exports, an empty line and a line of
white space. -/
theorem C11_exports_are_first_tokens_witness :
    showmountEnv.Command "showmount" ["--no-headers", "-e", "10.0.0.5"] () =
      (("/exports/a  10.0.0.0/24\n\n \t\n/exports/b *\n", none), ()) ∧
    (GetNFSExports showmountEnv "10.0.0.5" () []).out =
      .done (["/exports/a", "/exports/b"], none) :=
  ⟨rfl, ((C11_exports_are_first_tokens showmountEnv "10.0.0.5" () []).2.1
    "/exports/a  10.0.0.0/24\n\n \t\n/exports/b *\n" () rfl).1 (by decide)⟩

/-- C12: when the context is done at the time of the call, `CheckNFSExports`
returns `false` and the timeout error at once, whatever the address is: the
host is untouched and no call is made, so no command is run, and the result
does not come from the universal address. -/
theorem C12_check_exports_context_done (E : Env σ) (ctx : Context) (address : String) (s : σ)
    (held : List String) (hdone : ctx.isDone = true) :
    CheckNFSExports E ctx address s held =
      ⟨.done (false, some (.plain ("timeout reached while checking NFS exports for " ++ address))),
        s, held, []⟩ := by
  simp [CheckNFSExports, hdone, pure, M.pure]

/-- C12 for a text that is not an address: the error is the timeout, not the
one of the universal address. -/
theorem C12_check_exports_context_done_witness :
    (computeUaddr "not-an-address" 2049).2 = some (.plain "invalid IP address") ∧
    CheckNFSExports calmEnv ⟨true⟩ "not-an-address" () [] =
      ⟨.done (false, some (.plain
          "timeout reached while checking NFS exports for not-an-address")), (), [], []⟩ :=
  ⟨by decide, C12_check_exports_context_done calmEnv ⟨true⟩ "not-an-address" () [] rfl⟩

/-- C13 (what the code does): when the destination exists and is not a mount
point and the mount primitive fails with an error that is not a permission
error and whose message holds `invalid argument` in lower case only,
`BindMountDevice` and `MountShare` return `InvalidArgument`, but
`MountFilesystem`, which looks for `Invalid argument`, returns `Internal`. -/
theorem C13_mount_failure_classification (E : Env σ) (src dst fsType : String)
    (flags : List String) (s s1 s2 s3 : σ) (held : List String) (e0 : Option GoError)
    (err : GoError)
    (hex : E.ExistsPath dst s = (true, e0))
    (hchk : E.IsLikelyNotMountPoint dst s = (true, none))
    (hm1 : E.Mount src dst fsType flags s = (some err, s1))
    (hm2 : E.Mount src dst "" ["bind"] s = (some err, s2))
    (hm3 : E.Mount src dst "nfs" flags s = (some err, s3))
    (hperm : osIsPermission err = false)
    (hlow : stringsContains err.Error "invalid argument" = true)
    (hcap : stringsContains err.Error "Invalid argument" = false) :
    (BindMountDevice E src dst s held).out =
      .done (some (statusError .InvalidArgument err.Error)) ∧
    (MountShare E src dst flags s held).out =
      .done (some (statusError .InvalidArgument err.Error)) ∧
    (MountFilesystem E src dst fsType flags s held).out =
      .done (some (statusError .Internal err.Error)) := by
  refine ⟨?_, ?_, ?_⟩
  · simp [BindMountDevice, makeDestination, mounterExistsPath, mounterMount, query, action, bind,
      M.bind, pure, M.pure, hex, hm2, classifyMountError, hperm, hlow]
  · simp [MountShare, MountShare.mount, mounterIsLikelyNotMountPoint, mounterMount, query,
      action, bind, M.bind, pure, M.pure, hchk, hm3, classifyMountError, hperm, hlow]
  · simp [MountFilesystem, makeDestination, mounterExistsPath, mounterMount, query, action, bind,
      M.bind, pure, M.pure, hex, hm1, classifyMountError, hperm, hcap]

/-- C13 on a host where every mount fails with `invalid argument`. -/
theorem C13_mount_failure_classification_witness :
    (BindMountDevice invalidMountEnv "/tmp/backing/v1" "/pods/p1/v" () []).out =
      .done (some (statusError .InvalidArgument
        "mount failed: exit status 32, invalid argument")) ∧
    (MountShare invalidMountEnv "/tmp/backing/v1" "/pods/p1/v" [] () []).out =
      .done (some (statusError .InvalidArgument
        "mount failed: exit status 32, invalid argument")) ∧
    (MountFilesystem invalidMountEnv "/tmp/backing/v1" "/pods/p1/v" "xfs" [] () []).out =
      .done (some (statusError .Internal
        "mount failed: exit status 32, invalid argument")) :=
  C13_mount_failure_classification invalidMountEnv "/tmp/backing/v1" "/pods/p1/v" "xfs" [] ()
    () () () [] none (.plain "mount failed: exit status 32, invalid argument") rfl rfl rfl rfl rfl
    rfl (by decide) (by decide)

/-- C14: `NodeStageVolume`, `NodeUnstageVolume`, `NodePublishVolume`,
`NodeUnpublishVolume` and `NodeGetVolumeStats` turn down a request whose volume
ID is empty or whose path (staging path, target path, volume path) is empty,
and `NodePublishVolume` also one without a volume capability or, when the lock
of the volume is free, one whose access type is neither block nor mount: the
result is an `InvalidArgument` error, the host is left as it was, and no
directory is created and nothing is mounted, unmounted, attached or removed. -/
theorem C14_missing_identifiers_rejected (E : Env σ) (s : σ) (held : List String) :
    (∀ req : NodeStageVolumeRequest, req.VolumeId = "" ∨ req.StagingTargetPath = "" →
      Rejected s (NodeStageVolume E req s held)) ∧
    (∀ req : NodeUnstageVolumeRequest, req.VolumeId = "" ∨ req.StagingTargetPath = "" →
      Rejected s (NodeUnstageVolume E req s held)) ∧
    (∀ req : NodePublishVolumeRequest,
      req.VolumeId = "" ∨ req.TargetPath = "" ∨ req.VolumeCapability = none →
      Rejected s (NodePublishVolume E req s held)) ∧
    (∀ (req : NodePublishVolumeRequest) (cap : VolumeCapability),
      req.VolumeCapability = some cap → cap.AccessType = none → req.VolumeId ∉ held →
      Rejected s (NodePublishVolume E req s held)) ∧
    (∀ req : NodeUnpublishVolumeRequest, req.VolumeId = "" ∨ req.TargetPath = "" →
      Rejected s (NodeUnpublishVolume E req s held)) ∧
    (∀ req : NodeGetVolumeStatsRequest, req.VolumeId = "" ∨ req.VolumePath = "" →
      Rejected s (NodeGetVolumeStats E req s held)) := by
  refine ⟨?_, ?_, ?_, ?_, ?_, ?_⟩
  · intro req h
    by_cases hv : req.VolumeId = ""
    · simp [Rejected, NodeStageVolume, hv, pure, M.pure]
    · have hp : req.StagingTargetPath = "" := h.resolve_left hv
      simp [Rejected, NodeStageVolume, hv, hp, pure, M.pure]
  · intro req h
    by_cases hv : req.VolumeId = ""
    · simp [Rejected, NodeUnstageVolume, hv, pure, M.pure]
    · have hp : req.StagingTargetPath = "" := h.resolve_left hv
      simp [Rejected, NodeUnstageVolume, hv, hp, pure, M.pure]
  · intro req h
    by_cases hv : req.VolumeId = ""
    · simp [Rejected, NodePublishVolume, hv, pure, M.pure]
    · by_cases hp : req.TargetPath = ""
      · simp [Rejected, NodePublishVolume, hv, hp, pure, M.pure]
      · have hc : req.VolumeCapability = none := (h.resolve_left hv).resolve_left hp
        simp [Rejected, NodePublishVolume, hv, hp, hc, pure, M.pure]
  · intro req cap hc ha hfree
    by_cases hv : req.VolumeId = ""
    · simp [Rejected, NodePublishVolume, hv, pure, M.pure]
    · by_cases hp : req.TargetPath = ""
      · simp [Rejected, NodePublishVolume, hv, hp, pure, M.pure]
      · simp [Rejected, NodePublishVolume, hv, hp, hc, ha, withDefer, getVolumeLock,
          releaseVolumeLock, hfree, bind, M.bind, pure, M.pure, Call.kind]
  · intro req h
    by_cases hv : req.VolumeId = ""
    · simp [Rejected, NodeUnpublishVolume, hv, pure, M.pure]
    · have hp : req.TargetPath = "" := h.resolve_left hv
      simp [Rejected, NodeUnpublishVolume, hv, hp, pure, M.pure]
  · intro req h
    by_cases hv : req.VolumeId = ""
    · simp [Rejected, NodeGetVolumeStats, hv, pure, M.pure]
    · have hp : req.VolumePath = "" := h.resolve_left hv
      simp [Rejected, NodeGetVolumeStats, hv, hp, pure, M.pure]

/-- C14 on the calm host: a stage request without a volume ID, and a publish
request whose capability has no access type. -/
theorem C14_missing_identifiers_rejected_witness :
    Rejected () (NodeStageVolume calmEnv ⟨"", "/staging/v1", none, []⟩ () []) ∧
    Rejected () (NodePublishVolume calmEnv
      ⟨"vol-1", "/pods/p1/v", "/staging/v1", some ⟨none⟩, false, []⟩ () []) :=
  ⟨(C14_missing_identifiers_rejected calmEnv () []).1 ⟨"", "/staging/v1", none, []⟩
      (Or.inl rfl),
   (C14_missing_identifiers_rejected calmEnv () []).2.2.2.1
      ⟨"vol-1", "/pods/p1/v", "/staging/v1", some ⟨none⟩, false, []⟩ ⟨none⟩ rfl rfl
      (by decide)⟩

/-- C15 (amended): for every request `NodeGetCapabilities` returns, without
error and without any call, a capability list whose RPC types are exactly
`UNKNOWN`, stage/unstage volume, get volume stats and expand volume. -/
theorem C15_capability_types (req : NodeGetCapabilitiesRequest) (s : σ) (held : List String) :
    ∃ resp, NodeGetCapabilities req s held = ⟨.done (some resp, none), s, held, []⟩ ∧
      ∀ t, t ∈ rpcTypes resp ↔
        (t = .UNKNOWN ∨ t = .STAGE_UNSTAGE_VOLUME ∨ t = .GET_VOLUME_STATS ∨
          t = .EXPAND_VOLUME) := by
  refine ⟨_, rfl, ?_⟩
  intro t
  simp [rpcTypes]

/-- C15 (counterexample): the RPC types of the list that `NodeGetCapabilities`
returns are not exactly stage/unstage volume, get volume stats and expand
volume: the list also holds `UNKNOWN`. -/
theorem C15_capability_types_counterexample :
    ¬ ∃ resp, (NodeGetCapabilities ⟨⟩ () []).out = .done (some resp, none) ∧
      ∀ t, t ∈ rpcTypes resp ↔
        (t = .STAGE_UNSTAGE_VOLUME ∨ t = .GET_VOLUME_STATS ∨ t = .EXPAND_VOLUME) := by
  rintro ⟨resp, hout, hset⟩
  have hresp : resp = ⟨[⟨.UNKNOWN⟩, ⟨.STAGE_UNSTAGE_VOLUME⟩, ⟨.GET_VOLUME_STATS⟩,
      ⟨.EXPAND_VOLUME⟩]⟩ := by
    simp [NodeGetCapabilities, pure, M.pure] at hout
    exact hout.symm
  subst hresp
  have := (hset .UNKNOWN).mp (by simp [rpcTypes])
  simp at this

/-- C16: `ExpandDeviceFileSize` first looks up the loop device (its only call
for that is `losetup -a`). When the lookup does not hand back a device, nothing
else is called and the result is not `nil`. When it hands back `dev`, the next
call is `losetup -c dev`; if that fails nothing else is called and its error is
returned; if it succeeds the last call is `qemu-img resize -fraw path size`
with the size in decimal, and its error is the result. So `nil` is returned
exactly when the lookup and both commands succeed. -/
theorem C16_expand_device_file_order (E : Env σ) (pathname : String) (size : Int) (s : σ)
    (held : List String) :
    (determineLoopDeviceFromBackingFile E pathname s held).trace =
      [⟨.Command "losetup" ["-a"], textReply (E.Command "losetup" ["-a"] s).1⟩] ∧
    ((∀ dev, (determineLoopDeviceFromBackingFile E pathname s held).out ≠ .done (dev, none)) →
      (ExpandDeviceFileSize E pathname size s held).trace =
        (determineLoopDeviceFromBackingFile E pathname s held).trace ∧
      (ExpandDeviceFileSize E pathname size s held).out ≠ .done none) ∧
    (∀ dev, (determineLoopDeviceFromBackingFile E pathname s held).out = .done (dev, none) →
      (∀ err, (E.Command "losetup" ["-c", dev] (E.Command "losetup" ["-a"] s).2).1.2 = some err →
        (ExpandDeviceFileSize E pathname size s held).trace =
          (determineLoopDeviceFromBackingFile E pathname s held).trace ++
            [⟨.Command "losetup" ["-c", dev],
              textReply (E.Command "losetup" ["-c", dev] (E.Command "losetup" ["-a"] s).2).1⟩] ∧
        (ExpandDeviceFileSize E pathname size s held).out = .done (some err)) ∧
      ((E.Command "losetup" ["-c", dev] (E.Command "losetup" ["-a"] s).2).1.2 = none →
        (ExpandDeviceFileSize E pathname size s held).trace =
          (determineLoopDeviceFromBackingFile E pathname s held).trace ++
            [⟨.Command "losetup" ["-c", dev],
              textReply (E.Command "losetup" ["-c", dev] (E.Command "losetup" ["-a"] s).2).1⟩,
             ⟨.Command "qemu-img" ["resize", "-fraw", pathname, strconvFormatInt size 10],
              textReply (E.Command "qemu-img"
                ["resize", "-fraw", pathname, strconvFormatInt size 10]
                (E.Command "losetup" ["-c", dev] (E.Command "losetup" ["-a"] s).2).2).1⟩] ∧
        (ExpandDeviceFileSize E pathname size s held).out =
          .done (E.Command "qemu-img" ["resize", "-fraw", pathname, strconvFormatInt size 10]
            (E.Command "losetup" ["-c", dev] (E.Command "losetup" ["-a"] s).2).2).1.2)) ∧
    ((ExpandDeviceFileSize E pathname size s held).out = .done none ↔
      ∃ dev, (determineLoopDeviceFromBackingFile E pathname s held).out = .done (dev, none) ∧
        (E.Command "losetup" ["-c", dev] (E.Command "losetup" ["-a"] s).2).1.2 = none ∧
        (E.Command "qemu-img" ["resize", "-fraw", pathname, strconvFormatInt size 10]
          (E.Command "losetup" ["-c", dev] (E.Command "losetup" ["-a"] s).2).2).1.2 = none) := by
  obtain ⟨ht, hh, hheld⟩ := determineLoopDeviceFromBackingFile_run E pathname s held
  refine ⟨ht, ?_, ?_, ?_⟩
  · intro hno
    unfold ExpandDeviceFileSize
    simp only [bind, M.bind]
    generalize determineLoopDeviceFromBackingFile E pathname s held = L at *
    rcases L with ⟨out, host, held2, trace⟩
    cases out with
    | done r =>
      rcases r with ⟨dev, e⟩
      cases e with
      | none => exact absurd rfl (hno dev)
      | some err => simp [pure, M.pure]
    | blocked => simp
    | panicked msg => simp
  · intro dev hdev
    unfold ExpandDeviceFileSize
    simp only [bind, M.bind]
    generalize determineLoopDeviceFromBackingFile E pathname s held = L at *
    rcases L with ⟨out, host, held2, trace⟩
    simp only at hdev hh hheld ht
    subst hdev hh
    rcases h1 : E.Command "losetup" ["-c", dev] (E.Command "losetup" ["-a"] s).2
      with ⟨⟨o1, e1⟩, s1⟩
    rcases h2 : E.Command "qemu-img" ["resize", "-fraw", pathname, strconvFormatInt size 10] s1
      with ⟨⟨o2, e2⟩, s2⟩
    cases e1 <;> cases e2 <;>
      simp [ExecCommand, execCombinedOutput, action, bind, M.bind, pure, M.pure, h1, h2,
        textReply]
  · unfold ExpandDeviceFileSize
    simp only [bind, M.bind]
    generalize determineLoopDeviceFromBackingFile E pathname s held = L at *
    rcases L with ⟨out, host, held2, trace⟩
    cases out with
    | done r =>
      rcases r with ⟨dev, e⟩
      cases e with
      | some err => simp [pure, M.pure]
      | none =>
        simp only at hh
        subst hh
        rcases h1 : E.Command "losetup" ["-c", dev] (E.Command "losetup" ["-a"] s).2
          with ⟨⟨o1, e1⟩, s1⟩
        rcases h2 : E.Command "qemu-img" ["resize", "-fraw", pathname, strconvFormatInt size 10]
          s1 with ⟨⟨o2, e2⟩, s2⟩
        cases e1 <;> cases e2 <;>
          simp [ExecCommand, execCombinedOutput, action, bind, M.bind, pure, M.pure, h1, h2]
    | blocked => simp
    | panicked msg => simp

/-- C16 on a host where `/tmp/backing/v1` is bound to `/dev/loop1`, for 2 GiB:
the three commands run in order and the result is `nil`. -/
theorem C16_expand_device_file_order_witness :
    (determineLoopDeviceFromBackingFile boundListingEnv "/tmp/backing/v1" () []).out =
      .done ("/dev/loop1", none) ∧
    (ExpandDeviceFileSize boundListingEnv "/tmp/backing/v1" 2147483648 () []).trace.map
        Event.call =
      [.Command "losetup" ["-a"], .Command "losetup" ["-c", "/dev/loop1"],
       .Command "qemu-img" ["resize", "-fraw", "/tmp/backing/v1", "2147483648"]] ∧
    (ExpandDeviceFileSize boundListingEnv "/tmp/backing/v1" 2147483648 () []).out = .done none :=
  have hdev : (determineLoopDeviceFromBackingFile boundListingEnv "/tmp/backing/v1" () []).out =
      .done ("/dev/loop1", none) := by decide
  have h := ((C16_expand_device_file_order boundListingEnv "/tmp/backing/v1" 2147483648 ()
    []).2.2.1 "/dev/loop1" hdev).2 rfl
  ⟨hdev, by rw [h.1]; decide, h.2⟩

/-- C17: `FormatDevice` makes exactly one call, the tool `mkfs.` followed by
the filesystem type, with the arguments `-m reflink=0 device` for `xfs` and
just `device` otherwise; what it returns is the error of that run, whatever the
tool printed, so it returns `nil` exactly when the tool succeeds. -/
theorem C17_format_device_once (E : Env σ) (device fsType : String) (s : σ)
    (held : List String) :
    (FormatDevice E device fsType s held).trace =
      [⟨.Command ("mkfs." ++ fsType)
          (if fsType = "xfs" then ["-m", "reflink=0", device] else [device]),
        textReply (E.Command ("mkfs." ++ fsType)
          (if fsType = "xfs" then ["-m", "reflink=0", device] else [device]) s).1⟩] ∧
    (FormatDevice E device fsType s held).out =
      .done (E.Command ("mkfs." ++ fsType)
          (if fsType = "xfs" then ["-m", "reflink=0", device] else [device]) s).1.2 ∧
    ((FormatDevice E device fsType s held).out = .done none ↔
      (E.Command ("mkfs." ++ fsType)
          (if fsType = "xfs" then ["-m", "reflink=0", device] else [device]) s).1.2 = none) := by
  rcases h : E.Command ("mkfs." ++ fsType)
      (if fsType = "xfs" then ["-m", "reflink=0", device] else [device]) s with ⟨⟨o, e⟩, s1⟩
  cases e <;>
    simp [FormatDevice, ExecCommand, execCombinedOutput, action, bind, M.bind, pure, M.pure, h,
      textReply]

/-- C18 (what the code does): when the first line of the loop listing is not
empty and has fewer than three fields between spaces,
`determineLoopDeviceFromBackingFile` reads the third field of that line and
panics with an index out of range. -/
theorem C18_short_line_panics (E : Env σ) (backingfile output d : String) (rest : List String)
    (s s1 : σ) (held : List String)
    (hcmd : E.Command "losetup" ["-a"] s = ((output, none), s1))
    (hlines : stringsSplit output '\n' = d :: rest) (hd : d ≠ "")
    (hshort : (stringsSplit d ' ').length < 3) :
    (determineLoopDeviceFromBackingFile E backingfile s held).out =
      .panicked "index out of range [2]" := by
  have hg : (stringsSplit d ' ')[2]? = none := by
    rw [List.getElem?_eq_none_iff]
    omega
  simp [determineLoopDeviceFromBackingFile, ExecCommand, execCombinedOutput, action, bind,
    M.bind, pure, M.pure, hcmd, hlines, determineLoopDeviceFromBackingFile.scan, hd, hg, goPanic]

/-- C18 on a host whose listing is the line `/dev/loop0: [2049]:131`. -/
theorem C18_short_line_panics_witness :
    (determineLoopDeviceFromBackingFile shortListingEnv "/tmp/backing/v1" () []).out =
      .panicked "index out of range [2]" :=
  C18_short_line_panics shortListingEnv "/tmp/backing/v1" "/dev/loop0: [2049]:131\n"
    "/dev/loop0: [2049]:131" [""] () () [] rfl (by decide) (by decide) (by decide)

/-- C19 (what the code does): when the context is not done and `computeUaddr`
gives the universal address `uaddr` for port 2049, `CheckNFSExports` makes
exactly one call, `rpcinfo -a uaddr -T proto 100003 3`, where `proto` is `tcp6`
when the text of the address holds a colon and `tcp` otherwise; it returns
`(true, nil)` when the command succeeds and `false` with an `Internal` error
when it fails. -/
theorem C19_check_exports_command (E : Env σ) (ctx : Context) (address uaddr : String) (s : σ)
    (held : List String) (hctx : ctx.isDone = false)
    (hua : computeUaddr address 2049 = (uaddr, none)) :
    (CheckNFSExports E ctx address s held).trace =
      [⟨.Command "rpcinfo"
          ["-a", uaddr, "-T", if stringsContains address ":" then "tcp6" else "tcp", "100003", "3"],
        textReply (E.Command "rpcinfo"
          ["-a", uaddr, "-T", if stringsContains address ":" then "tcp6" else "tcp", "100003", "3"]
          s).1⟩] ∧
    ((E.Command "rpcinfo"
          ["-a", uaddr, "-T", if stringsContains address ":" then "tcp6" else "tcp", "100003", "3"]
          s).1.2 = none →
      (CheckNFSExports E ctx address s held).out = .done (true, none)) ∧
    (∀ err, (E.Command "rpcinfo"
          ["-a", uaddr, "-T", if stringsContains address ":" then "tcp6" else "tcp", "100003", "3"]
          s).1.2 = some err →
      ∃ msg, (CheckNFSExports E ctx address s held).out =
        .done (false, some (statusError .Internal msg))) := by
  rcases h : E.Command "rpcinfo"
    ["-a", uaddr, "-T", if stringsContains address ":" then "tcp6" else "tcp", "100003", "3"] s
    with ⟨⟨o, e⟩, s1⟩
  cases e <;>
    simp [CheckNFSExports, hctx, hua, ExecCommand, execCombinedOutput, action, bind, M.bind,
      pure, M.pure, h, textReply]

/-- C19 for the address `::ffff:1.2.3.4`: it is classified as IPv4 and gets a
universal address in the IPv4 format, yet the command is run with `tcp6`. -/
theorem C19_check_exports_command_witness :
    checkIPType "::ffff:1.2.3.4" = ("IPv4", none) ∧
    computeUaddr "::ffff:1.2.3.4" 2049 = ("::ffff:1.2.3.4.8.1", none) ∧
    (CheckNFSExports calmEnv ⟨false⟩ "::ffff:1.2.3.4" () []).trace =
      [⟨.Command "rpcinfo" ["-a", "::ffff:1.2.3.4.8.1", "-T", "tcp6", "100003", "3"],
        .text "" none⟩] :=
  ⟨by decide, by decide,
    (C19_check_exports_command calmEnv ⟨false⟩ "::ffff:1.2.3.4" "::ffff:1.2.3.4.8.1" () [] rfl
      (by decide)).1⟩

/-- C20: for a `NodeStageVolume` request with a volume ID and a staging path,
when creating the staging directory succeeds and the mount-point check then
succeeds and says the staging path is not a mount point, the call returns
success whatever `MountShareAtBestDataportal` returns. Its calls are the
directory creation and the check, followed by one call of
`MountShareAtBestDataportal` exactly when the filesystem type of the mount
capability is `nfs` or empty; a request without a mount capability has an empty
filesystem type, so the call is made. -/
theorem C20_stage_ignores_mount_failure (E : Env σ) (req : NodeStageVolumeRequest) (s s1 : σ)
    (held : List String) (hv : req.VolumeId ≠ "") (hp : req.StagingTargetPath ≠ "")
    (hmk : E.MkdirAll req.StagingTargetPath 0o750 s = (none, s1))
    (hchk : E.SafeIsLikelyNotMountPoint req.StagingTargetPath s1 = (true, none)) :
    (NodeStageVolume E req s held).out = .done (some {}, none) ∧
    (∀ m, req.VolumeCapability = some ⟨some (.Mount m)⟩ →
      (NodeStageVolume E req s held).trace =
        [⟨.MkdirAll req.StagingTargetPath 0o750, .err none⟩,
         ⟨.SafeIsLikelyNotMountPoint req.StagingTargetPath, .flag true none⟩] ++
        (if m.FsType = "nfs" ∨ m.FsType = "" then
          [⟨.MountShareAtBestDataportal req.VolumeId req.StagingTargetPath [""]
              (mapGet req.VolumeContext "fqdn"),
            .err (E.MountShareAtBestDataportal req.VolumeId req.StagingTargetPath [""]
              (mapGet req.VolumeContext "fqdn") s1).1⟩]
        else [])) ∧
    ((∀ m, req.VolumeCapability ≠ some ⟨some (.Mount m)⟩) →
      (NodeStageVolume E req s held).trace =
        [⟨.MkdirAll req.StagingTargetPath 0o750, .err none⟩,
         ⟨.SafeIsLikelyNotMountPoint req.StagingTargetPath, .flag true none⟩,
         ⟨.MountShareAtBestDataportal req.VolumeId req.StagingTargetPath [""]
            (mapGet req.VolumeContext "fqdn"),
          .err (E.MountShareAtBestDataportal req.VolumeId req.StagingTargetPath [""]
            (mapGet req.VolumeContext "fqdn") s1).1⟩]) := by
  refine ⟨?_, ?_, ?_⟩
  · by_cases hfs : getFsType (getMount req.VolumeCapability) = "nfs" ∨
        getFsType (getMount req.VolumeCapability) = ""
    · simp [NodeStageVolume, NodeStageVolume.mount, hv, hp, osMkdirAll,
        SafeIsLikelyNotMountPoint, MountShareAtBestDataportal, query, action, bind, M.bind, pure,
        M.pure, hmk, hchk, hfs]
    · simp [NodeStageVolume, NodeStageVolume.mount, hv, hp, osMkdirAll,
        SafeIsLikelyNotMountPoint, MountShareAtBestDataportal, query, action, bind, M.bind, pure,
        M.pure, hmk, hchk, hfs]
  · intro m hc
    by_cases hfs : m.FsType = "nfs" ∨ m.FsType = ""
    · simp [NodeStageVolume, NodeStageVolume.mount, hv, hp, osMkdirAll,
        SafeIsLikelyNotMountPoint, MountShareAtBestDataportal, query, action, bind, M.bind, pure,
        M.pure, hmk, hchk, hc, getMount, getFsType, hfs, flagReply]
    · simp [NodeStageVolume, NodeStageVolume.mount, hv, hp, osMkdirAll,
        SafeIsLikelyNotMountPoint, MountShareAtBestDataportal, query, action, bind, M.bind, pure,
        M.pure, hmk, hchk, hc, getMount, getFsType, hfs, flagReply]
  · intro hno
    have hg : getMount req.VolumeCapability = none := by
      cases hc : req.VolumeCapability with
      | none => rfl
      | some cap =>
        rcases cap with ⟨at1⟩
        cases at1 with
        | none => rfl
        | some a =>
          cases a with
          | Block => rfl
          | Mount m => exact absurd hc (hno m)
    simp [NodeStageVolume, NodeStageVolume.mount, hv, hp, osMkdirAll,
      SafeIsLikelyNotMountPoint, MountShareAtBestDataportal, query, action, bind, M.bind, pure,
      M.pure, hmk, hchk, hg, getFsType, flagReply]

/-- C20 on a host where mounting from a data portal fails: for a request
without a filesystem type the mount is tried once, fails, and the call
succeeds; for a request with the type `xfs` no mount is tried. -/
theorem C20_stage_ignores_mount_failure_witness :
    ((("vol-1" : String) ≠ "" ∧ ("/staging/v1" : String) ≠ "") ∧
      portalFailEnv.MkdirAll "/staging/v1" 0o750 () = (none, ()) ∧
      portalFailEnv.SafeIsLikelyNotMountPoint "/staging/v1" () = (true, none)) ∧
    ((NodeStageVolume portalFailEnv ⟨"vol-1", "/staging/v1", some ⟨some (.Mount ⟨"", []⟩)⟩, []⟩
        () []).out = .done (some {}, none) ∧
      (NodeStageVolume portalFailEnv ⟨"vol-1", "/staging/v1", some ⟨some (.Mount ⟨"", []⟩)⟩, []⟩
        () []).trace =
        [⟨.MkdirAll "/staging/v1" 0o750, .err none⟩,
         ⟨.SafeIsLikelyNotMountPoint "/staging/v1", .flag true none⟩,
         ⟨.MountShareAtBestDataportal "vol-1" "/staging/v1" [""] "",
          .err (some (.plain "mount failed: exit status 32"))⟩]) ∧
    ((NodeStageVolume portalFailEnv ⟨"vol-1", "/staging/v1", some ⟨some (.Mount ⟨"xfs", []⟩)⟩, []⟩
        () []).out = .done (some {}, none) ∧
      (NodeStageVolume portalFailEnv ⟨"vol-1", "/staging/v1", some ⟨some (.Mount ⟨"xfs", []⟩)⟩, []⟩
        () []).trace =
        [⟨.MkdirAll "/staging/v1" 0o750, .err none⟩,
         ⟨.SafeIsLikelyNotMountPoint "/staging/v1", .flag true none⟩]) :=
  have h1 := C20_stage_ignores_mount_failure portalFailEnv
    ⟨"vol-1", "/staging/v1", some ⟨some (.Mount ⟨"", []⟩)⟩, []⟩ () () [] (by decide) (by decide)
    rfl rfl
  have h2 := C20_stage_ignores_mount_failure portalFailEnv
    ⟨"vol-1", "/staging/v1", some ⟨some (.Mount ⟨"xfs", []⟩)⟩, []⟩ () () [] (by decide)
    (by decide) rfl rfl
  ⟨⟨⟨by decide, by decide⟩, rfl, rfl⟩, ⟨h1.1, h1.2.1 ⟨"", []⟩ rfl⟩, ⟨h2.1, h2.2.1 ⟨"xfs", []⟩ rfl⟩⟩

/-- C21 (what the code does): `computeUaddr` returns an error exactly when the
address does not parse as an IP address; but for an address that parses as an
IPv4 or IPv4-mapped address and whose text does not have exactly four parts
between dots, it returns the empty string together with a `nil` error, for
every port. -/
theorem C21_uaddr_empty_without_error (addr : String) (p : Int) :
    ((computeUaddr addr p).2 ≠ none ↔ netParseIP addr = none) ∧
    (∀ ip, netParseIP addr = some ip → (ipTo4 ip).isSome = true →
      (stringsSplit addr '.').length ≠ 4 → computeUaddr addr p = ("", none)) := by
  constructor
  · cases hparse : netParseIP addr with
    | none => simp [computeUaddr, checkIPType, hparse]
    | some ip =>
      have hlen := netParseIP_length addr ip hparse
      by_cases h4 : (ipTo4 ip).isSome = true
      · simp [computeUaddr, checkIPType, hparse, h4]
      · have h46 : ("IPv6" : String) ≠ "IPv4" := by decide
        simp [computeUaddr, checkIPType, hparse, h4, ipTo16, hlen, h46]
  · intro ip hparse h4 hsplit
    simp [computeUaddr, checkIPType, hparse, h4, computeIPv4Uaddr, hsplit]

/-- C21 for the IPv4-mapped address `::ffff:102:304` and port 2049: no error
and an empty universal address. -/
theorem C21_uaddr_empty_without_error_witness :
    (netParseIP "::ffff:102:304" = some [0, 0, 0, 0, 0, 0, 0, 0, 0, 0, 255, 255, 1, 2, 3, 4] ∧
      (ipTo4 [0, 0, 0, 0, 0, 0, 0, 0, 0, 0, 255, 255, 1, 2, 3, 4]).isSome = true ∧
      (stringsSplit "::ffff:102:304" '.').length ≠ 4) ∧
    computeUaddr "::ffff:102:304" 2049 = ("", none) :=
  ⟨⟨by decide, by decide, by decide⟩,
    (C21_uaddr_empty_without_error "::ffff:102:304" 2049).2
      [0, 0, 0, 0, 0, 0, 0, 0, 0, 0, 255, 255, 1, 2, 3, 4] (by decide) (by decide) (by decide)⟩

end Theorems

end CSI
